import Mathlib

/-!
# S5PV210 CPU frequency scaling (arch/arm/mach-s5pv210/cpufreq.c)

A shallow embedding of the frequency-transition engine of the S5PV210 cpufreq
driver: the access gate, the level resolution with the DVFS high-level lock,
the voltage ordering and the clock/PLL sequencer of `s5pv210_target`.

Conventions of the embedding.

* Machine words are natural numbers; every 32-bit operation of the source that
  can leave the 32-bit range (`~x`, `x << n`, a register write) is reduced
  modulo `2^32` explicitly (`not32`, `shl32`, `__raw_writel`).
* The global variables of the driver are the fields of `State`.  Its field
  `hw` is the hardware as the driver sees it: the clock controller registers
  the driver writes (`Regs`) and the history `trace`.
* Everything the driver observes and causes outside itself is recorded, in
  program order, in `trace`: register writes, status-register reads of the
  busy-polls, regulator calls and cpufreq notifications.
* What the driver cannot decide itself (the answer of a regulator, the value a
  status register shows, the table search of the cpufreq core, the rate of a
  clock, the bit layout declared in `mach/regs-clock.h`) is a field of `Env`.
  The answers of the hardware may depend on the whole history.
* The busy-polls of the source have no iteration bound.  `poll` takes a `fuel`
  and returns `none` when the fuel is used up before the hardware
  acknowledges; `none` therefore stands for "has not returned".  A statement
  that a call returns is proved for every fuel from some bound on.
* `set_freq_lock` is taken on entry and released on every exit of
  `s5pv210_target`; the embedding is sequential and does not record it.
* `s5pv210_target` is split into the access gate (lines 273-287, in
  `s5pv210_target` itself), the rest of the request (`target_transition`) and
  the blocks of the sequencer (`target_voltage_up`, `target_pll_begin`,
  `target_divider`, `target_pll_end`, `target_voltage_down`), in source order.
-/

namespace S5PV210

/-! ## Constants of headers -/

/-- Modelled from the spec: the error code of the lockout and of a failed table
lookup (`EINVAL` of `errno-base.h`, which is not among the sources). -/
def EINVAL : Int := 22

/-- Modelled from the spec: `enum perf_level` of `mach/cpu-freq-v210.h` (not
among the sources); the levels index the frequency, voltage and divider tables
in descending order of frequency. -/
def OC1 : Nat := 0

/-- Modelled from the spec: second entry of `enum perf_level`. -/
def L0 : Nat := 1

/-- Modelled from the spec: third entry of `enum perf_level`. -/
def L1 : Nat := 2

/-- Modelled from the spec: fourth entry of `enum perf_level`. -/
def L2 : Nat := 3

/-- Modelled from the spec: fifth entry of `enum perf_level`. -/
def L3 : Nat := 4

/-- Modelled from the spec: `MAX_PERF_LEVEL` of `mach/cpu-freq-v210.h`, the
index of the slowest level. -/
def MAX_PERF_LEVEL : Nat := L3

/-- The end marker of a cpufreq frequency table, `~1` as a 32-bit word. -/
def CPUFREQ_TABLE_END : Nat := 0xFFFFFFFE

/-- APLL M,P,S values for 1.2 GHz. -/
def APLL_VAL_1200 : Nat := (1 <<< 31) ||| (150 <<< 16) ||| (3 <<< 8) ||| 1

/-- APLL M,P,S values for 1.0 GHz. -/
def APLL_VAL_1000 : Nat := (1 <<< 31) ||| (125 <<< 16) ||| (3 <<< 8) ||| 1

/-- APLL M,P,S values for 800 MHz. -/
def APLL_VAL_800 : Nat := (1 <<< 31) ||| (100 <<< 16) ||| (3 <<< 8) ||| 1

/-- Use 800 MHz when entering sleep. -/
def SLEEP_FREQ : Nat := 800 * 1000

/-- Flag of `enum cpufreq_access`: disable further access to target. -/
def DISABLE_FURTHER_CPUFREQ : Nat := 0x10

/-- Flag of `enum cpufreq_access`: re-enable access to target. -/
def ENABLE_FURTHER_CPUFREQ : Nat := 0x20

/-- Port number of `enum s5pv210_dmc_port`. -/
def DMC0 : Nat := 0

/-- Port number of `enum s5pv210_dmc_port`. -/
def DMC1 : Nat := 1

def arm_volt_max : Nat := 1350000

def int_volt_max : Nat := 1250000

/-! ## 32-bit word operations -/

/-- The C operator `~` on a 32-bit word. -/
def not32 (x : Nat) : Nat := 0xFFFFFFFF ^^^ (x % 4294967296)

/-- The C operator `<<` on a 32-bit word. -/
def shl32 (x n : Nat) : Nat := (x <<< n) % 4294967296

/-! ## Data model -/

/-- Registers the driver touches.  `DMC0_TIMINGAREF` and `DMC1_TIMINGAREF` are
the refresh registers at `S5P_VA_DMC0 + 0x30` and `S5P_VA_DMC1 + 0x30`. -/
inductive Reg where
  | S5P_CLK_DIV0
  | S5P_CLK_DIV2
  | S5P_CLK_SRC0
  | S5P_CLK_SRC2
  | S5P_ARM_MCS_CON
  | S5P_APLL_LOCK
  | S5P_APLL_CON
  | DMC0_TIMINGAREF
  | DMC1_TIMINGAREF
  | S5P_CLKDIV_STAT0
  | S5P_CLKMUX_STAT0
  | S5P_CLKMUX_STAT1
  deriving DecidableEq, Repr

/-- Contents of the writable registers. -/
structure Regs where
  CLK_DIV0 : Nat
  CLK_DIV2 : Nat
  CLK_SRC0 : Nat
  CLK_SRC2 : Nat
  ARM_MCS_CON : Nat
  APLL_LOCK : Nat
  APLL_CON : Nat
  DMC0_TIMINGAREF : Nat
  DMC1_TIMINGAREF : Nat
  deriving DecidableEq, Repr

/-- The two voltage rails. -/
inductive Regulator where
  | arm_regulator
  | internal_regulator
  deriving DecidableEq, Repr

/-- A `struct regulator *` as the driver tests it. -/
inductive regulator_ptr where
  | null
  | err
  | valid
  deriving DecidableEq, Repr

def IS_ERR_OR_NULL : regulator_ptr → Bool
  | regulator_ptr.valid => false
  | _ => true

/-- Phase of a cpufreq transition notification. -/
inductive Phase where
  | CPUFREQ_PRECHANGE
  | CPUFREQ_POSTCHANGE
  deriving DecidableEq, Repr

/-- The clocks the driver holds a handle of. -/
inductive Clk where
  | cpu_clk
  | dmc0_clk
  | dmc1_clk
  deriving DecidableEq, Repr

/-- What the driver does to, and reads from, the world outside it. -/
inductive Event where
  | writel (val : Nat) (reg : Reg)
  | readl (reg : Reg) (val : Nat)
  | regulator_set_voltage (r : Regulator) (min_uV max_uV : Nat) (ret : Int)
  | cpufreq_notify_transition (old new : Nat) (phase : Phase)
  deriving DecidableEq, Repr

structure cpufreq_freqs where
  cpu : Nat
  old : Nat
  new : Nat
  deriving DecidableEq, Repr

structure dram_conf where
  freq : Nat
  refresh : Nat
  deriving DecidableEq, Repr

structure s5pv210_dvs_conf where
  arm_volt : Nat
  int_volt : Nat
  deriving DecidableEq, Repr

structure cpufreq_frequency_table where
  index : Nat
  frequency : Nat
  deriving DecidableEq, Repr


/-- The hardware as the driver sees it: the register file and the history of
what the driver did to, and read from, the world outside it. -/
structure Hw where
  regs : Regs
  trace : List Event
  deriving DecidableEq, Repr

/-- The global variables of the driver, and the hardware. -/
structure State where
  no_cpufreq_access : Bool
  freqs : cpufreq_freqs
  s5pv210_dram_conf : List dram_conf
  dvs_conf : List s5pv210_dvs_conf
  arm_regulator : regulator_ptr
  internal_regulator : regulator_ptr
  g_dvfs_high_lock_token : Nat
  g_dvfs_high_lock_limit : Nat
  g_dvfslockval : List Nat
  hw : Hw
  deriving DecidableEq, Repr

/-- The platform around the driver: the bit layout of `mach/regs-clock.h`
(not among the sources, so every mask and shift is a parameter), the build
configuration, and the services of the kernel and of the hardware. -/
structure Env where
  S5P_CLKDIV0_APLL_SHIFT : Nat
  S5P_CLKDIV0_APLL_MASK : Nat
  S5P_CLKDIV0_A2M_SHIFT : Nat
  S5P_CLKDIV0_A2M_MASK : Nat
  S5P_CLKDIV0_HCLK200_SHIFT : Nat
  S5P_CLKDIV0_HCLK200_MASK : Nat
  S5P_CLKDIV0_PCLK100_SHIFT : Nat
  S5P_CLKDIV0_PCLK100_MASK : Nat
  S5P_CLKDIV0_HCLK166_SHIFT : Nat
  S5P_CLKDIV0_HCLK166_MASK : Nat
  S5P_CLKDIV0_PCLK83_SHIFT : Nat
  S5P_CLKDIV0_PCLK83_MASK : Nat
  S5P_CLKDIV0_HCLK133_SHIFT : Nat
  S5P_CLKDIV0_HCLK133_MASK : Nat
  S5P_CLKDIV0_PCLK66_SHIFT : Nat
  S5P_CLKDIV0_PCLK66_MASK : Nat
  S5P_CLKDIV2_G3D_SHIFT : Nat
  S5P_CLKDIV2_G3D_MASK : Nat
  S5P_CLKDIV2_MFC_SHIFT : Nat
  S5P_CLKDIV2_MFC_MASK : Nat
  S5P_CLKSRC2_G3D_SHIFT : Nat
  S5P_CLKSRC2_G3D_MASK : Nat
  S5P_CLKSRC2_MFC_SHIFT : Nat
  S5P_CLKSRC2_MFC_MASK : Nat
  S5P_CLKSRC0_MUX200_SHIFT : Nat
  S5P_CLKSRC0_MUX200_MASK : Nat
  /-- Whether the driver is built with `CONFIG_DVFS_LIMIT`. -/
  CONFIG_DVFS_LIMIT : Bool
  /-- Number of DVFS lock tokens (`mach/cpu-freq-v210.h`). -/
  DVFS_LOCK_TOKEN_NUM : Nat
  /-- The table search of the cpufreq core on `s5pv210_freq_table` for a target
  frequency and a relation: `none` for a non-zero return value, otherwise the
  index of an entry of the table. -/
  cpufreq_frequency_table_target : Nat → Nat → Option (Fin 5)
  /-- Rate in Hz of a clock, read back from the clock tree. -/
  clk_get_rate : Clk → Regs → Nat
  /-- Return value of a regulator call made after the given history. -/
  regulator_set_voltage : List Event → Regulator → Nat → Nat → Int
  /-- Value a register shows when a busy-poll reads it after the given
  history. -/
  readl : List Event → Reg → Nat

/-! ## Tables -/

def s5pv210_freq_table : List cpufreq_frequency_table :=
  [ ⟨OC1, 1200 * 1000⟩,
    ⟨L0, 1000 * 1000⟩,
    ⟨L1, 800 * 1000⟩,
    ⟨L2, 400 * 1000⟩,
    ⟨L3, 200 * 1000⟩,
    ⟨0, CPUFREQ_TABLE_END⟩ ]

/-- The initial contents of `dvs_conf`. -/
def dvs_conf_init : List s5pv210_dvs_conf :=
  [ ⟨1250000, 1100000⟩,
    ⟨1225000, 1100000⟩,
    ⟨1150000, 1100000⟩,
    ⟨950000, 1100000⟩,
    ⟨900000, 1100000⟩ ]

/-- Clock divider values for
APLL, A2M, HCLK_MSYS, PCLK_MSYS, HCLK_DSYS, PCLK_DSYS, HCLK_PSYS, PCLK_PSYS,
ONEDRAM, MFC, G3D; seven rows, the last two zero-initialised. -/
def clkdiv_val : List (List Nat) :=
  [ [0, 5, 5, 1, 3, 1, 4, 1, 3, 0, 0],
    [0, 4, 4, 1, 3, 1, 4, 1, 3, 0, 0],
    [0, 3, 3, 1, 3, 1, 4, 1, 3, 0, 0],
    [1, 3, 1, 1, 3, 1, 4, 1, 3, 0, 0],
    [3, 3, 0, 1, 3, 1, 4, 1, 3, 0, 0],
    [0, 0, 0, 0, 0, 0, 0, 0, 0, 0, 0],
    [0, 0, 0, 0, 0, 0, 0, 0, 0, 0, 0] ]

/-- The entry `s5pv210_freq_table[i].frequency`. -/
def freq_table_frequency (i : Nat) : Nat :=
  (s5pv210_freq_table.getD i ⟨0, 0⟩).frequency

/-- The entry `clkdiv_val[i][j]`. -/
def clkdiv (i j : Nat) : Nat :=
  (clkdiv_val.getD i []).getD j 0

/-! ## Register access -/

def Regs.get (r : Regs) : Reg → Nat
  | Reg.S5P_CLK_DIV0 => r.CLK_DIV0
  | Reg.S5P_CLK_DIV2 => r.CLK_DIV2
  | Reg.S5P_CLK_SRC0 => r.CLK_SRC0
  | Reg.S5P_CLK_SRC2 => r.CLK_SRC2
  | Reg.S5P_ARM_MCS_CON => r.ARM_MCS_CON
  | Reg.S5P_APLL_LOCK => r.APLL_LOCK
  | Reg.S5P_APLL_CON => r.APLL_CON
  | Reg.DMC0_TIMINGAREF => r.DMC0_TIMINGAREF
  | Reg.DMC1_TIMINGAREF => r.DMC1_TIMINGAREF
  | _ => 0

def Regs.set (r : Regs) (reg : Reg) (v : Nat) : Regs :=
  match reg with
  | Reg.S5P_CLK_DIV0 => { r with CLK_DIV0 := v }
  | Reg.S5P_CLK_DIV2 => { r with CLK_DIV2 := v }
  | Reg.S5P_CLK_SRC0 => { r with CLK_SRC0 := v }
  | Reg.S5P_CLK_SRC2 => { r with CLK_SRC2 := v }
  | Reg.S5P_ARM_MCS_CON => { r with ARM_MCS_CON := v }
  | Reg.S5P_APLL_LOCK => { r with APLL_LOCK := v }
  | Reg.S5P_APLL_CON => { r with APLL_CON := v }
  | Reg.DMC0_TIMINGAREF => { r with DMC0_TIMINGAREF := v }
  | Reg.DMC1_TIMINGAREF => { r with DMC1_TIMINGAREF := v }
  | _ => r

/-- Read of a configuration register: the word last written to it. -/
def __raw_readl (reg : Reg) (h : Hw) : Nat :=
  h.regs.get reg

/-- Write of a 32-bit word to a register. -/
def __raw_writel (val : Nat) (reg : Reg) (h : Hw) : Hw :=
  { regs := h.regs.set reg (val % 4294967296),
    trace := h.trace ++ [Event.writel (val % 4294967296) reg] }

/-- The loop `do { reg = __raw_readl(r); } while (cond reg);` on the history:
each read shows what the hardware answers after the history so far and is
appended to it; `none` when the loop has not ended within `fuel` reads. -/
def poll (env : Env) (r : Reg) (cond : Nat → Bool) : Nat → List Event → Option (List Event)
  | 0, _ => none
  | fuel + 1, tr =>
    let reg := env.readl tr r
    if cond reg then poll env r cond fuel (tr ++ [Event.readl r reg])
    else some (tr ++ [Event.readl r reg])

/-- The busy-poll as a step of the driver: only the history changes. -/
def do_while_readl (env : Env) (r : Reg) (cond : Nat → Bool) (fuel : Nat) (h : Hw) :
    Option Hw :=
  (poll env r cond fuel h.trace).map (fun tr => { regs := h.regs, trace := tr })

/-! ## The driver -/

/-- Set the DRAM refresh counter according to the operating frequency of DRAM
(`ch`: DMC port number 0 or 1, `freq` in kHz); `conf` is the global
`s5pv210_dram_conf`.  The two `do_div` are truncating divisions; the source
does not guard the divisor, the embedding follows the convention
`x / 0 = 0`. -/
def s5pv210_set_refresh (conf : List dram_conf) (ch freq : Nat) (h : Hw) : Hw :=
  if ch = DMC0 ∨ ch = DMC1 then
    let reg := if ch = DMC0 then Reg.DMC0_TIMINGAREF else Reg.DMC1_TIMINGAREF
    let tmp := (conf.getD ch ⟨0, 0⟩).freq
    let tmp := tmp / freq
    let tmp1 := (conf.getD ch ⟨0, 0⟩).refresh
    let tmp1 := tmp1 / tmp
    __raw_writel tmp1 reg h
  else
    h

/-- The function `s5pv210_getspeed(cpu)`; the rate of `cpu_clk` is read back
from the hardware `h`. -/
def s5pv210_getspeed (env : Env) (h : Hw) (cpu : Nat) : Nat :=
  if cpu ≠ 0 then 0 else env.clk_get_rate Clk.cpu_clk h.regs / 1000

/-- Lock of the DVFS high level (`CONFIG_DVFS_LIMIT`).  The final
`cpufreq_update_policy(0)` re-evaluates the policy in the cpufreq core and is
outside the embedding. -/
def s5pv210_lock_dvfs_high_level (nToken perf_level : Nat) (s : State) : State :=
  if s.g_dvfs_high_lock_token &&& shl32 1 nToken ≠ 0 then s
  else if perf_level > MAX_PERF_LEVEL - 1 then s
  else
    let s1 := { s with
      g_dvfs_high_lock_token := s.g_dvfs_high_lock_token ||| shl32 1 nToken,
      g_dvfslockval := s.g_dvfslockval.set nToken perf_level }
    if perf_level < s1.g_dvfs_high_lock_limit then
      { s1 with g_dvfs_high_lock_limit := perf_level }
    else s1

/-- The loop `for (i = 0; i < n; i++)` of `s5pv210_unlock_dvfs_high_level`
over the token values. -/
def dvfs_limit_scan (vals : List Nat) (n limit : Nat) : Nat :=
  (List.range n).foldl (fun lim i => if vals.getD i 0 < lim then vals.getD i 0 else lim) limit

def s5pv210_unlock_dvfs_high_level (env : Env) (nToken : Nat) (s : State) : State :=
  let s1 := { s with
    g_dvfs_high_lock_token := s.g_dvfs_high_lock_token &&& not32 (shl32 1 nToken),
    g_dvfslockval := s.g_dvfslockval.set nToken MAX_PERF_LEVEL,
    g_dvfs_high_lock_limit := MAX_PERF_LEVEL }
  if s1.g_dvfs_high_lock_token ≠ 0 then
    { s1 with g_dvfs_high_lock_limit :=
        dvfs_limit_scan s1.g_dvfslockval env.DVFS_LOCK_TOKEN_NUM s1.g_dvfs_high_lock_limit }
  else s1

/-- A call of `regulator_set_voltage`: the return value is the answer of the
regulator after the history so far. -/
def regulator_call (env : Env) (r : Regulator) (min_uV max_uV : Nat) (h : Hw) : Int × Hw :=
  let ret := env.regulator_set_voltage h.trace r min_uV max_uV
  (ret, { regs := h.regs,
          trace := h.trace ++ [Event.regulator_set_voltage r min_uV max_uV ret] })

def cpufreq_notify_transition (freqs : cpufreq_freqs) (phase : Phase) (h : Hw) : Hw :=
  { regs := h.regs,
    trace := h.trace ++ [Event.cpufreq_notify_transition freqs.old freqs.new phase] }

/-- Lines 297-302 of `s5pv210_target`: the clamp of the index under
`CONFIG_DVFS_LIMIT`, for the values of `g_dvfs_high_lock_token` and
`g_dvfs_high_lock_limit`. -/
def target_dvfs_limit (env : Env) (token limit index : Nat) : Nat :=
  if env.CONFIG_DVFS_LIMIT then
    if token ≠ 0 then
      if index > limit then limit else index
    else index
  else index

/-- Lines 313-326 of `s5pv210_target`: voltage up, ARM first.  Returns `ret`
and the hardware after the calls. -/
def target_voltage_up (env : Env) (s : State) (arm_volt int_volt : Nat) : Int × Hw :=
  if s.freqs.new > s.freqs.old then
    if !IS_ERR_OR_NULL s.arm_regulator && !IS_ERR_OR_NULL s.internal_regulator then
      let arm := regulator_call env Regulator.arm_regulator arm_volt arm_volt_max s.hw
      if arm.1 ≠ 0 then arm
      else regulator_call env Regulator.internal_regulator int_volt int_volt_max arm.2
    else (0, s.hw)
  else (0, s.hw)

/-- Lines 496-505 of `s5pv210_target`: voltage down, INT first; the return
values are dropped. -/
def target_voltage_down (env : Env) (s : State) (arm_volt int_volt : Nat) : Hw :=
  if s.freqs.new < s.freqs.old then
    if !IS_ERR_OR_NULL s.arm_regulator && !IS_ERR_OR_NULL s.internal_regulator then
      let h1 := (regulator_call env Regulator.internal_regulator int_volt int_volt_max s.hw).2
      (regulator_call env Regulator.arm_regulator arm_volt arm_volt_max h1).2
    else s.hw
  else s.hw

/-- Lines 343-388 of `s5pv210_target`: steps 1 to 4 of the relock, APLL to
MPLL. -/
def target_pll_begin (env : Env) (conf : List dram_conf) (fuel : Nat) (h : Hw) :
    Option Hw := do
  -- 1. Temporary change divider for MFC and G3D
  let reg := __raw_readl Reg.S5P_CLK_DIV2 h
  let reg := reg &&& not32 (env.S5P_CLKDIV2_G3D_MASK ||| env.S5P_CLKDIV2_MFC_MASK)
  let reg := reg ||| (shl32 3 env.S5P_CLKDIV2_G3D_SHIFT ||| shl32 3 env.S5P_CLKDIV2_MFC_SHIFT)
  let h := __raw_writel reg Reg.S5P_CLK_DIV2 h
  let h ← do_while_readl env Reg.S5P_CLKDIV_STAT0
    (fun reg => reg &&& ((1 <<< 16) ||| (1 <<< 17)) ≠ 0) fuel h
  -- 2. Change SCLKA2M to SCLKMPLL in MFC_MUX, G3D MUX
  let reg := __raw_readl Reg.S5P_CLK_SRC2 h
  let reg := reg &&& not32 (env.S5P_CLKSRC2_G3D_MASK ||| env.S5P_CLKSRC2_MFC_MASK)
  let reg := reg ||| (shl32 1 env.S5P_CLKSRC2_G3D_SHIFT ||| shl32 1 env.S5P_CLKSRC2_MFC_SHIFT)
  let h := __raw_writel reg Reg.S5P_CLK_SRC2 h
  let h ← do_while_readl env Reg.S5P_CLKMUX_STAT1
    (fun reg => reg &&& ((1 <<< 7) ||| (1 <<< 3)) ≠ 0) fuel h
  -- 3. DMC1 refresh counter
  let h := s5pv210_set_refresh conf DMC1 133000 h
  -- 4. SCLKAPLL -> SCLKMPLL
  let reg := __raw_readl Reg.S5P_CLK_SRC0 h
  let reg := reg &&& not32 env.S5P_CLKSRC0_MUX200_MASK
  let reg := reg ||| shl32 0x1 env.S5P_CLKSRC0_MUX200_SHIFT
  let h := __raw_writel reg Reg.S5P_CLK_SRC0 h
  do_while_readl env Reg.S5P_CLKMUX_STAT0 (fun reg => reg &&& (0x1 <<< 18) ≠ 0) fuel h

/-- The union of the eight field masks of `S5P_CLK_DIV0` the driver clears. -/
def clkdiv0_mask (env : Env) : Nat :=
  env.S5P_CLKDIV0_APLL_MASK ||| env.S5P_CLKDIV0_A2M_MASK |||
  env.S5P_CLKDIV0_HCLK200_MASK ||| env.S5P_CLKDIV0_PCLK100_MASK |||
  env.S5P_CLKDIV0_HCLK166_MASK ||| env.S5P_CLKDIV0_PCLK83_MASK |||
  env.S5P_CLKDIV0_HCLK133_MASK ||| env.S5P_CLKDIV0_PCLK66_MASK

/-- The eight divider fields of `S5P_CLK_DIV0` of a level, shifted in place. -/
def clkdiv0_val (env : Env) (index : Nat) : Nat :=
  shl32 (clkdiv index 0) env.S5P_CLKDIV0_APLL_SHIFT |||
  shl32 (clkdiv index 1) env.S5P_CLKDIV0_A2M_SHIFT |||
  shl32 (clkdiv index 2) env.S5P_CLKDIV0_HCLK200_SHIFT |||
  shl32 (clkdiv index 3) env.S5P_CLKDIV0_PCLK100_SHIFT |||
  shl32 (clkdiv index 4) env.S5P_CLKDIV0_HCLK166_SHIFT |||
  shl32 (clkdiv index 5) env.S5P_CLKDIV0_PCLK83_SHIFT |||
  shl32 (clkdiv index 6) env.S5P_CLKDIV0_HCLK133_SHIFT |||
  shl32 (clkdiv index 7) env.S5P_CLKDIV0_PCLK66_SHIFT

/-- Lines 390-421 of `s5pv210_target`: change divider, then the ARM MCS
value. -/
def target_divider (env : Env) (index fuel : Nat) (h : Hw) : Option Hw := do
  let reg := __raw_readl Reg.S5P_CLK_DIV0 h
  let reg := reg &&& not32 (clkdiv0_mask env)
  let reg := reg ||| clkdiv0_val env index
  let h := __raw_writel reg Reg.S5P_CLK_DIV0 h
  let h ← do_while_readl env Reg.S5P_CLKDIV_STAT0 (fun reg => reg &&& 0xff ≠ 0) fuel h
  -- ARM MCS value changed
  let reg := __raw_readl Reg.S5P_ARM_MCS_CON h
  let reg := reg &&& not32 0x3
  let reg := if index ≥ L3 then reg ||| 0x3 else reg ||| 0x1
  some (__raw_writel reg Reg.S5P_ARM_MCS_CON h)

/-- The `switch (index)` of step 6: the PMS word of a level. -/
def apll_val (index : Nat) : Nat :=
  if index = OC1 then APLL_VAL_1200
  else if index = L0 then APLL_VAL_1000
  else APLL_VAL_800

/-- Lines 423-492 of `s5pv210_target`: steps 5 to 10 of the relock, MPLL back
to APLL. -/
def target_pll_end (env : Env) (conf : List dram_conf) (index fuel : Nat) (h : Hw) :
    Option Hw := do
  -- 5. Set Lock time = 30us*24Mhz = 0x2cf
  let h := __raw_writel 0x2cf Reg.S5P_APLL_LOCK h
  -- 6. Turn on APLL: set PMS values, wait until the PLL is locked
  let h := __raw_writel (apll_val index) Reg.S5P_APLL_CON h
  let h ← do_while_readl env Reg.S5P_APLL_CON (fun reg => reg &&& (0x1 <<< 29) = 0) fuel h
  -- 7. Change source clock from SCLKMPLL to SCLKA2M in MFC_MUX and G3D MUX
  let reg := __raw_readl Reg.S5P_CLK_SRC2 h
  let reg := reg &&& not32 (env.S5P_CLKSRC2_G3D_MASK ||| env.S5P_CLKSRC2_MFC_MASK)
  let reg := reg ||| (shl32 0 env.S5P_CLKSRC2_G3D_SHIFT ||| shl32 0 env.S5P_CLKSRC2_MFC_SHIFT)
  let h := __raw_writel reg Reg.S5P_CLK_SRC2 h
  let h ← do_while_readl env Reg.S5P_CLKMUX_STAT1
    (fun reg => reg &&& ((1 <<< 7) ||| (1 <<< 3)) ≠ 0) fuel h
  -- 8. Change divider for MFC and G3D
  let reg := __raw_readl Reg.S5P_CLK_DIV2 h
  let reg := reg &&& not32 (env.S5P_CLKDIV2_G3D_MASK ||| env.S5P_CLKDIV2_MFC_MASK)
  let reg := reg ||| (shl32 (clkdiv index 10) env.S5P_CLKDIV2_G3D_SHIFT |||
    shl32 (clkdiv index 9) env.S5P_CLKDIV2_MFC_SHIFT)
  let h := __raw_writel reg Reg.S5P_CLK_DIV2 h
  let h ← do_while_readl env Reg.S5P_CLKDIV_STAT0
    (fun reg => reg &&& ((1 <<< 16) ||| (1 <<< 17)) ≠ 0) fuel h
  -- 9. Change MPLL to APLL in MSYS_MUX
  let reg := __raw_readl Reg.S5P_CLK_SRC0 h
  let reg := reg &&& not32 env.S5P_CLKSRC0_MUX200_MASK
  let reg := reg ||| shl32 0x0 env.S5P_CLKSRC0_MUX200_SHIFT
  let h := __raw_writel reg Reg.S5P_CLK_SRC0 h
  let h ← do_while_readl env Reg.S5P_CLKMUX_STAT0 (fun reg => reg &&& (0x1 <<< 18) ≠ 0) fuel h
  -- 10. DMC1 refresh counter
  some (s5pv210_set_refresh conf DMC1 200000 h)

/-- Line 334 of `s5pv210_target`: check if there is a need to change the PLL. -/
def pll_changing (index old : Nat) : Bool :=
  decide (index ≤ L0) || decide (old ≥ freq_table_frequency L0)

/-- Lines 328-494 of `s5pv210_target`: the notifications and the clock
sequence between them. -/
def target_clock (env : Env) (s : State) (index fuel : Nat) (h : Hw) : Option Hw := do
  let h := cpufreq_notify_transition s.freqs Phase.CPUFREQ_PRECHANGE h
  let pll := pll_changing index s.freqs.old
  let h ← if pll then target_pll_begin env s.s5pv210_dram_conf fuel h else some h
  let h ← target_divider env index fuel h
  let h ← if pll then target_pll_end env s.s5pv210_dram_conf index fuel h else some h
  some (cpufreq_notify_transition s.freqs Phase.CPUFREQ_POSTCHANGE h)

/-- Lines 289-510 of `s5pv210_target`: the request after the access gate, with
the relation stripped of the two flags. -/
def target_transition (env : Env) (fuel : Nat) (s : State) (target_freq relation : Nat) :
    Option (Int × State) :=
  let s := { s with freqs := { s.freqs with old := s5pv210_getspeed env s.hw 0 } }
  match env.cpufreq_frequency_table_target target_freq relation with
  | none => some (-EINVAL, s)
  | some found =>
    let index := target_dvfs_limit env s.g_dvfs_high_lock_token s.g_dvfs_high_lock_limit
      found.val
    let s := { s with freqs := { s.freqs with new := freq_table_frequency index, cpu := 0 } }
    if s.freqs.new = s.freqs.old then some (0, s)
    else
      let arm_volt := (s.dvs_conf.getD index ⟨0, 0⟩).arm_volt
      let int_volt := (s.dvs_conf.getD index ⟨0, 0⟩).int_volt
      let (ret, h) := target_voltage_up env s arm_volt int_volt
      let s := { s with hw := h }
      if ret ≠ 0 then some (ret, s)
      else
        match target_clock env s index fuel s.hw with
        | none => none
        | some h =>
          let s := { s with hw := h }
          some (ret, { s with hw := target_voltage_down env s arm_volt int_volt })

/-- The function `s5pv210_target(policy, target_freq, relation)`.  The result
is `none` when a busy-poll has not ended within `fuel` reads, otherwise the
return value and the state at the return. -/
def s5pv210_target (env : Env) (fuel : Nat) (s : State) (target_freq relation : Nat) :
    Option (Int × State) :=
  let s := if relation &&& ENABLE_FURTHER_CPUFREQ ≠ 0 then
      { s with no_cpufreq_access := false } else s
  if s.no_cpufreq_access then some (-EINVAL, s)
  else
    let s := if relation &&& DISABLE_FURTHER_CPUFREQ ≠ 0 then
        { s with no_cpufreq_access := true } else s
    let relation := relation &&& not32 (ENABLE_FURTHER_CPUFREQ ||| DISABLE_FURTHER_CPUFREQ)
    target_transition env fuel s target_freq relation

/-! ## The clock tree as the driver leaves it -/

/-- Modelled from the spec: the rate in Hz of `armclk` read back from the
registers (the clock code `clock.c` is not among the sources): the APLL output
`FOUT = M * FIN / (P * 2^(S-1))` with `FIN` = 24 MHz and M, P, S the fields of
`S5P_APLL_CON` at the positions of `APLL_VAL_1200`, divided by the APLL
divider field of `S5P_CLK_DIV0` plus one. -/
def armclk_get_rate (env : Env) (regs : Regs) : Nat :=
  let m := (regs.APLL_CON >>> 16) &&& 0x3ff
  let p := (regs.APLL_CON >>> 8) &&& 0x3f
  let sdiv := regs.APLL_CON &&& 0x7
  let fout := m * 24000000 / (p * 2 ^ (sdiv - 1))
  fout / (((regs.CLK_DIV0 &&& env.S5P_CLKDIV0_APLL_MASK) >>> env.S5P_CLKDIV0_APLL_SHIFT) + 1)

/-- The union of the two field masks of `S5P_CLK_DIV2` the driver clears. -/
def clkdiv2_mask (env : Env) : Nat :=
  env.S5P_CLKDIV2_G3D_MASK ||| env.S5P_CLKDIV2_MFC_MASK

/-- The G3D and MFC divider fields of `S5P_CLK_DIV2` of a level, in place. -/
def clkdiv2_val (env : Env) (index : Nat) : Nat :=
  shl32 (clkdiv index 10) env.S5P_CLKDIV2_G3D_SHIFT |||
  shl32 (clkdiv index 9) env.S5P_CLKDIV2_MFC_SHIFT

/-- The G3D and MFC divider fields during the relock (both 3), in place. -/
def clkdiv2_tmp (env : Env) : Nat :=
  shl32 3 env.S5P_CLKDIV2_G3D_SHIFT ||| shl32 3 env.S5P_CLKDIV2_MFC_SHIFT

/-- The union of the two field masks of `S5P_CLK_SRC2` the driver clears. -/
def clksrc2_mask (env : Env) : Nat :=
  env.S5P_CLKSRC2_G3D_MASK ||| env.S5P_CLKSRC2_MFC_MASK

/-- The G3D and MFC mux fields of `S5P_CLK_SRC2` with selector `sel`, in
place. -/
def clksrc2_val (env : Env) (sel : Nat) : Nat :=
  shl32 sel env.S5P_CLKSRC2_G3D_SHIFT ||| shl32 sel env.S5P_CLKSRC2_MFC_SHIFT

/-- The word a read-modify-write stores: the bits of `mask` cleared in `x`,
then `val` set. -/
def rmw (mask val x : Nat) : Nat :=
  ((x &&& not32 mask) ||| val) % 4294967296

/-- The word `s5pv210_set_refresh(ch, freq)` writes. -/
def refresh_word (conf : List dram_conf) (ch freq : Nat) : Nat :=
  ((conf.getD ch ⟨0, 0⟩).refresh / ((conf.getD ch ⟨0, 0⟩).freq / freq)) % 4294967296

/-- The word the driver stores in `S5P_ARM_MCS_CON` for a level. -/
def mcs_word (index x : Nat) : Nat :=
  (if index ≥ L3 then (x &&& not32 0x3) ||| 0x3 else (x &&& not32 0x3) ||| 0x1) % 4294967296

/-- The registers hold the configuration of level `k`: the divider fields the
driver owns in `S5P_CLK_DIV0` and `S5P_CLK_DIV2` are those of row `k` of
`clkdiv_val` and `S5P_APLL_CON` is the PMS word of `k`. -/
def holds_level (env : Env) (k : Nat) (regs : Regs) : Prop :=
  regs.CLK_DIV0 &&& clkdiv0_mask env = clkdiv0_val env k ∧
  regs.CLK_DIV2 &&& clkdiv2_mask env = clkdiv2_val env k ∧
  regs.APLL_CON = apll_val k

instance (env : Env) (k : Nat) (regs : Regs) : Decidable (holds_level env k regs) := by
  unfold holds_level; infer_instance

/-- The two divider registers hold 32-bit words. -/
def dividers_32bit (regs : Regs) : Prop :=
  regs.CLK_DIV0 < 4294967296 ∧ regs.CLK_DIV2 < 4294967296

instance (regs : Regs) : Decidable (dividers_32bit regs) := by
  unfold dividers_32bit; infer_instance

/-- What the embedding needs of the bit layout of `mach/regs-clock.h`: every
field value the driver writes lies inside the mask it clears before, and the
APLL divider field reads back the divider of the level. -/
def clock_layout_ok (env : Env) : Prop :=
  (∀ i, i < 5 → clkdiv0_val env i &&& clkdiv0_mask env = clkdiv0_val env i) ∧
  (∀ i, i < 5 → clkdiv2_val env i &&& clkdiv2_mask env = clkdiv2_val env i) ∧
  clkdiv2_tmp env &&& clkdiv2_mask env = clkdiv2_tmp env ∧
  env.S5P_CLKDIV0_APLL_MASK &&& clkdiv0_mask env = env.S5P_CLKDIV0_APLL_MASK ∧
  (∀ i, i < 5 → (clkdiv0_val env i &&& env.S5P_CLKDIV0_APLL_MASK) >>>
    env.S5P_CLKDIV0_APLL_SHIFT = clkdiv i 0)

instance (env : Env) : Decidable (clock_layout_ok env) := by
  unfold clock_layout_ok; infer_instance

/-- The driver events of a history, without the reads of the busy-polls. -/
def effects (tr : List Event) : List Event :=
  tr.filter (fun e => match e with
    | Event.readl _ _ => false
    | _ => true)

/-- The hardware acknowledges: after every history, each of the five
busy-polls of the driver ends after finitely many reads. -/
def hw_acknowledges (env : Env) : Prop :=
  ∀ tr : List Event,
    (∃ n, (poll env Reg.S5P_CLKDIV_STAT0
      (fun reg => reg &&& ((1 <<< 16) ||| (1 <<< 17)) ≠ 0) n tr).isSome) ∧
    (∃ n, (poll env Reg.S5P_CLKMUX_STAT1
      (fun reg => reg &&& ((1 <<< 7) ||| (1 <<< 3)) ≠ 0) n tr).isSome) ∧
    (∃ n, (poll env Reg.S5P_CLKMUX_STAT0 (fun reg => reg &&& (0x1 <<< 18) ≠ 0) n tr).isSome) ∧
    (∃ n, (poll env Reg.S5P_CLKDIV_STAT0 (fun reg => reg &&& 0xff ≠ 0) n tr).isSome) ∧
    (∃ n, (poll env Reg.S5P_APLL_CON (fun reg => reg &&& (0x1 <<< 29) = 0) n tr).isSome)

/-- A request passes the access gate: it carries the enable-further flag or
the gate is open. -/
def passes_gate (s : State) (relation : Nat) : Prop :=
  relation &&& ENABLE_FURTHER_CPUFREQ ≠ 0 ∨ s.no_cpufreq_access = false

instance (s : State) (relation : Nat) : Decidable (passes_gate s relation) := by
  unfold passes_gate; infer_instance

/-- The relation the driver hands to the table search. -/
def stripped (relation : Nat) : Nat :=
  relation &&& not32 (ENABLE_FURTHER_CPUFREQ ||| DISABLE_FURTHER_CPUFREQ)

/-- The driver variables after the access gate of a request that passes it:
the gate follows the disable-further flag. -/
def target_admitted (s : State) (relation : Nat) : State :=
  { s with no_cpufreq_access :=
      if relation &&& DISABLE_FURTHER_CPUFREQ ≠ 0 then true else
        if relation &&& ENABLE_FURTHER_CPUFREQ ≠ 0 then false else s.no_cpufreq_access }

/-- The driver variables after lines 289-305 of a request that resolves to
`index`: `freqs` holds the frequency read back and the frequency of the
level. -/
def target_resolved (env : Env) (s : State) (index : Nat) : State :=
  { s with freqs := ⟨0, s5pv210_getspeed env s.hw 0, freq_table_frequency index⟩ }

/-- The index a request uses when the table search finds `found`. -/
def target_index (env : Env) (s : State) (found : Fin 5) : Nat :=
  target_dvfs_limit env s.g_dvfs_high_lock_token s.g_dvfs_high_lock_limit found.val

/-- The state at the return of a completed transition: the hardware `h` after
the clock sequence, then the voltage-down step. -/
def target_finish (env : Env) (s : State) (arm_volt int_volt : Nat) (h : Hw) : State :=
  { s with hw := target_voltage_down env { s with hw := h } arm_volt int_volt }

/-- The registers after the clock sequence of a transition to `index`. -/
def clock_regs (env : Env) (conf : List dram_conf) (index : Nat) (pll : Bool) (regs : Regs) :
    Regs :=
  if pll then
    { regs with
      CLK_DIV0 := rmw (clkdiv0_mask env) (clkdiv0_val env index) regs.CLK_DIV0,
      ARM_MCS_CON := mcs_word index regs.ARM_MCS_CON,
      APLL_LOCK := 0x2cf,
      APLL_CON := apll_val index,
      CLK_SRC2 := rmw (clksrc2_mask env) (clksrc2_val env 0)
        (rmw (clksrc2_mask env) (clksrc2_val env 1) regs.CLK_SRC2),
      CLK_DIV2 := rmw (clkdiv2_mask env) (clkdiv2_val env index)
        (rmw (clkdiv2_mask env) (clkdiv2_tmp env) regs.CLK_DIV2),
      CLK_SRC0 := rmw env.S5P_CLKSRC0_MUX200_MASK (shl32 0 env.S5P_CLKSRC0_MUX200_SHIFT)
        (rmw env.S5P_CLKSRC0_MUX200_MASK (shl32 1 env.S5P_CLKSRC0_MUX200_SHIFT) regs.CLK_SRC0),
      DMC1_TIMINGAREF := refresh_word conf DMC1 200000 }
  else
    { regs with
      CLK_DIV0 := rmw (clkdiv0_mask env) (clkdiv0_val env index) regs.CLK_DIV0,
      ARM_MCS_CON := mcs_word index regs.ARM_MCS_CON }

/-- The register writes of steps 1 to 4 of the relock, in order. -/
def pll_begin_writes (env : Env) (conf : List dram_conf) (regs : Regs) : List Event :=
  [ Event.writel (rmw (clkdiv2_mask env) (clkdiv2_tmp env) regs.CLK_DIV2) Reg.S5P_CLK_DIV2,
    Event.writel (rmw (clksrc2_mask env) (clksrc2_val env 1) regs.CLK_SRC2) Reg.S5P_CLK_SRC2,
    Event.writel (refresh_word conf DMC1 133000) Reg.DMC1_TIMINGAREF,
    Event.writel (rmw env.S5P_CLKSRC0_MUX200_MASK (shl32 1 env.S5P_CLKSRC0_MUX200_SHIFT)
      regs.CLK_SRC0) Reg.S5P_CLK_SRC0 ]

/-- The two register writes of the divider change, in order. -/
def divider_writes (env : Env) (index : Nat) (regs : Regs) : List Event :=
  [ Event.writel (rmw (clkdiv0_mask env) (clkdiv0_val env index) regs.CLK_DIV0)
      Reg.S5P_CLK_DIV0,
    Event.writel (mcs_word index regs.ARM_MCS_CON) Reg.S5P_ARM_MCS_CON ]

/-- The register writes of steps 5 to 10 of the relock, in order; `regs` are
the registers before the relock began. -/
def pll_end_writes (env : Env) (conf : List dram_conf) (index : Nat) (regs : Regs) :
    List Event :=
  [ Event.writel 0x2cf Reg.S5P_APLL_LOCK,
    Event.writel (apll_val index) Reg.S5P_APLL_CON,
    Event.writel (rmw (clksrc2_mask env) (clksrc2_val env 0)
      (rmw (clksrc2_mask env) (clksrc2_val env 1) regs.CLK_SRC2)) Reg.S5P_CLK_SRC2,
    Event.writel (rmw (clkdiv2_mask env) (clkdiv2_val env index)
      (rmw (clkdiv2_mask env) (clkdiv2_tmp env) regs.CLK_DIV2)) Reg.S5P_CLK_DIV2,
    Event.writel (rmw env.S5P_CLKSRC0_MUX200_MASK (shl32 0 env.S5P_CLKSRC0_MUX200_SHIFT)
      (rmw env.S5P_CLKSRC0_MUX200_MASK (shl32 1 env.S5P_CLKSRC0_MUX200_SHIFT) regs.CLK_SRC0))
      Reg.S5P_CLK_SRC0,
    Event.writel (refresh_word conf DMC1 200000) Reg.DMC1_TIMINGAREF ]

/-- The driver events of the clock sequence of a transition, in order: the
pre-change notification, the register writes, the post-change notification. -/
def clock_effects (env : Env) (conf : List dram_conf) (freqs : cpufreq_freqs) (index : Nat)
    (pll : Bool) (regs : Regs) : List Event :=
  [Event.cpufreq_notify_transition freqs.old freqs.new Phase.CPUFREQ_PRECHANGE] ++
  (if pll then pll_begin_writes env conf regs else []) ++
  divider_writes env index regs ++
  (if pll then pll_end_writes env conf index regs else []) ++
  [Event.cpufreq_notify_transition freqs.old freqs.new Phase.CPUFREQ_POSTCHANGE]

/-- A fuelled computation converges: from some fuel on it returns one and the
same result. -/
def converges {β : Type} (f : Nat → Option β) : Prop :=
  ∃ n0 y, ∀ n, n0 ≤ n → f n = some y

/-- A sequence of `s5pv210_target` calls, each a pair of target frequency and
relation: the return values in order and the final state. -/
def target_calls (env : Env) (fuel : Nat) : State → List (Nat × Nat) → Option (List Int × State)
  | s, [] => some ([], s)
  | s, (target_freq, relation) :: rest =>
    match s5pv210_target env fuel s target_freq relation with
    | none => none
    | some (ret, s1) =>
      match target_calls env fuel s1 rest with
      | none => none
      | some (rets, s2) => some (ret :: rets, s2)

/-! ## A concrete platform -/

/-- Modelled from the spec: the table search of the cpufreq core on
`s5pv210_freq_table` (`freq_table.c` is not among the sources): the entry
satisfying the relation that is nearest to the target, an exact match first;
relation 0 asks for the lowest frequency at or above the target, relation 1
for the highest frequency at or below it; no entry, or another relation,
is a failure. -/
def table_target (target_freq relation : Nat) : Option (Fin 5) :=
  if relation = 0 then
    (([0, 1, 2, 3, 4] : List (Fin 5)).filter
      (fun i => decide (target_freq ≤ freq_table_frequency i.val))).getLast?
  else if relation = 1 then
    (([0, 1, 2, 3, 4] : List (Fin 5)).filter
      (fun i => decide (freq_table_frequency i.val ≤ target_freq))).head?
  else none

/-- Modelled from the spec: the bit layout of the S5PV210 clock controller
(`mach/regs-clock.h` is not among the sources) and a hardware that answers
every busy-poll at the first read and every regulator call with success; the
build has `CONFIG_DVFS_LIMIT`. -/
def wave_layout : Env where
  S5P_CLKDIV0_APLL_SHIFT := 0
  S5P_CLKDIV0_APLL_MASK := 0x7 <<< 0
  S5P_CLKDIV0_A2M_SHIFT := 4
  S5P_CLKDIV0_A2M_MASK := 0x7 <<< 4
  S5P_CLKDIV0_HCLK200_SHIFT := 8
  S5P_CLKDIV0_HCLK200_MASK := 0x7 <<< 8
  S5P_CLKDIV0_PCLK100_SHIFT := 12
  S5P_CLKDIV0_PCLK100_MASK := 0x7 <<< 12
  S5P_CLKDIV0_HCLK166_SHIFT := 16
  S5P_CLKDIV0_HCLK166_MASK := 0xF <<< 16
  S5P_CLKDIV0_PCLK83_SHIFT := 20
  S5P_CLKDIV0_PCLK83_MASK := 0x7 <<< 20
  S5P_CLKDIV0_HCLK133_SHIFT := 24
  S5P_CLKDIV0_HCLK133_MASK := 0xF <<< 24
  S5P_CLKDIV0_PCLK66_SHIFT := 28
  S5P_CLKDIV0_PCLK66_MASK := 0x7 <<< 28
  S5P_CLKDIV2_G3D_SHIFT := 0
  S5P_CLKDIV2_G3D_MASK := 0xF <<< 0
  S5P_CLKDIV2_MFC_SHIFT := 4
  S5P_CLKDIV2_MFC_MASK := 0xF <<< 4
  S5P_CLKSRC2_G3D_SHIFT := 0
  S5P_CLKSRC2_G3D_MASK := 0x3 <<< 0
  S5P_CLKSRC2_MFC_SHIFT := 4
  S5P_CLKSRC2_MFC_MASK := 0x3 <<< 4
  S5P_CLKSRC0_MUX200_SHIFT := 16
  S5P_CLKSRC0_MUX200_MASK := 0x1 <<< 16
  CONFIG_DVFS_LIMIT := true
  DVFS_LOCK_TOKEN_NUM := 8
  cpufreq_frequency_table_target := table_target
  clk_get_rate := fun _ _ => 0
  regulator_set_voltage := fun _ _ _ _ => 0
  readl := fun _ r => if r = Reg.S5P_APLL_CON then 0x1 <<< 29 else 0

/-- The concrete platform: `wave_layout` with the clock rates read back from
the registers; the two DRAM clocks are fixed at 166 MHz and 200 MHz. -/
def wave_env : Env :=
  { wave_layout with
    clk_get_rate := fun c regs =>
      match c with
      | Clk.cpu_clk => armclk_get_rate wave_layout regs
      | Clk.dmc0_clk => 166000000
      | Clk.dmc1_clk => 200000000 }

/-- The concrete platform with a regulator that refuses every request on the
internal rail with `-EINVAL` and accepts every request on the ARM rail. -/
def wave_env_int_fails : Env :=
  { wave_env with
    regulator_set_voltage := fun _ r _ _ =>
      match r with
      | Regulator.arm_regulator => 0
      | Regulator.internal_regulator => -EINVAL }

/-- The concrete platform with a regulator that refuses every request on both
rails with `-EINVAL`. -/
def wave_env_regulators_fail : Env :=
  { wave_env with regulator_set_voltage := fun _ _ _ _ => -EINVAL }

/-- A state of the concrete platform running at level `k` with the gate in the
given position: registers of level `k`, both regulators present, no DVFS lock
held. -/
def state_at (k : Nat) (locked : Bool) : State where
  no_cpufreq_access := locked
  freqs := ⟨0, 0, 0⟩
  s5pv210_dram_conf := [⟨166000000, 1297000⟩, ⟨200000000, 1560000⟩]
  dvs_conf := dvs_conf_init
  arm_regulator := regulator_ptr.valid
  internal_regulator := regulator_ptr.valid
  g_dvfs_high_lock_token := 0
  g_dvfs_high_lock_limit := 6
  g_dvfslockval := List.replicate 8 MAX_PERF_LEVEL
  hw :=
    { regs :=
        { CLK_DIV0 := clkdiv0_val wave_env k
          CLK_DIV2 := clkdiv2_val wave_env k
          CLK_SRC0 := 0
          CLK_SRC2 := 0
          ARM_MCS_CON := 0
          APLL_LOCK := 0
          APLL_CON := apll_val k
          DMC0_TIMINGAREF := 1297
          DMC1_TIMINGAREF := 1560 }
      trace := [] }

/-- The state of the concrete platform after the suspend-prepare request
`s5pv210_target(SLEEP_FREQ, DISABLE_FURTHER_CPUFREQ)` issued at level L0. -/
def state_after_suspend_prepare : State :=
  ((s5pv210_target wave_env 1 (state_at L0 false) SLEEP_FREQ DISABLE_FURTHER_CPUFREQ).getD
    (0, state_at L0 false)).2

/-! ## Histories -/

/-- The notifications and the register writes of the clock sequence are
`[pre-change] ++ clock_writes ++ [post-change]`: the register writes of a
transition to `index`, in order. -/
def clock_writes (env : Env) (conf : List dram_conf) (index : Nat) (pll : Bool)
    (regs : Regs) : List Event :=
  (if pll then pll_begin_writes env conf regs else []) ++
  divider_writes env index regs ++
  (if pll then pll_end_writes env conf index regs else [])

/-- The registers written in a history, in order. -/
def written_regs (tr : List Event) : List Reg :=
  tr.filterMap (fun e => match e with
    | Event.writel _ r => some r
    | _ => none)

/-- The register writes of a history, in order, with the values written. -/
def register_writes (tr : List Event) : List Event :=
  tr.filter (fun e => match e with
    | Event.writel _ _ => true
    | _ => false)

/-- The regulator calls of a history, in order. -/
def regulator_calls (tr : List Event) : List Event :=
  tr.filter (fun e => match e with
    | Event.regulator_set_voltage _ _ _ _ => true
    | _ => false)

/-! ## Power-management and reboot notifiers -/

/-- Modelled from the spec: the suspend-prepare event code of
`linux/suspend.h` (not among the sources). -/
def PM_SUSPEND_PREPARE : Nat := 0x0003

/-- Modelled from the spec: the post-resume event code of `linux/suspend.h`. -/
def PM_POST_SUSPEND : Nat := 0x0004

/-- Modelled from the spec: the post-restore event code of `linux/suspend.h`. -/
def PM_POST_RESTORE : Nat := 0x0006

/-- The return values of a notifier call the driver uses
(`linux/notifier.h`). -/
inductive Notify where
  | NOTIFY_DONE
  | NOTIFY_OK
  | NOTIFY_BAD
  deriving DecidableEq, Repr

/-- The function `s5pv210_cpufreq_notifier_event(this, event, ptr)`.  The
cpufreq core is not among the sources: `cpufreq_driver_target` is the request
`cpufreq_driver_target(cpufreq_cpu_get(0), target_freq, relation)` as a
parameter, from a state to its return value and the state after it (`none`
when it has not returned). -/
def s5pv210_cpufreq_notifier_event
    (cpufreq_driver_target : State → Nat → Nat → Option (Int × State))
    (event : Nat) (s : State) : Option (Notify × State) :=
  if event = PM_SUSPEND_PREPARE then
    match cpufreq_driver_target s SLEEP_FREQ DISABLE_FURTHER_CPUFREQ with
    | none => none
    | some (ret, s1) =>
      if ret < 0 then some (Notify.NOTIFY_BAD, s1)
      else some (Notify.NOTIFY_OK, s1)
  else if event = PM_POST_RESTORE ∨ event = PM_POST_SUSPEND then
    match cpufreq_driver_target s SLEEP_FREQ ENABLE_FURTHER_CPUFREQ with
    | none => none
    | some (_, s1) => some (Notify.NOTIFY_OK, s1)
  else some (Notify.NOTIFY_DONE, s)

/-- The function `s5pv210_cpufreq_reboot_notifier_event(this, event, ptr)`;
`cpufreq_driver_target` as in `s5pv210_cpufreq_notifier_event`.  The event is
not looked at. -/
def s5pv210_cpufreq_reboot_notifier_event
    (cpufreq_driver_target : State → Nat → Nat → Option (Int × State))
    (_event : Nat) (s : State) : Option (Notify × State) :=
  match cpufreq_driver_target s SLEEP_FREQ DISABLE_FURTHER_CPUFREQ with
  | none => none
  | some (ret, s1) =>
    if ret < 0 then some (Notify.NOTIFY_BAD, s1)
    else some (Notify.NOTIFY_DONE, s1)

/-- Modelled from the spec: the cpufreq core (`drivers/cpufreq/cpufreq.c` is
not among the sources) hands a request for CPU 0 to the `target` callback of
the registered driver, `s5pv210_target`, and returns its return value. -/
def cpufreq_driver_target (env : Env) (fuel : Nat) (s : State) (target_freq relation : Nat) :
    Option (Int × State) :=
  s5pv210_target env fuel s target_freq relation

/-! ## Voltage table: probe-time overrides and the sysfs write -/

/-- An entry of the platform data `struct s5pv210_cpufreq_voltage`. -/
structure s5pv210_cpufreq_voltage where
  freq : Nat
  varm : Nat
  vint : Nat
  deriving DecidableEq, Repr

/-- The table `smdkc110_cpufreq_volt` of `mach-wave.c`. -/
def smdkc110_cpufreq_volt : List s5pv210_cpufreq_voltage :=
  [ ⟨1320000, 1200000, 1100000⟩,
    ⟨1200000, 1175000, 1100000⟩,
    ⟨1000000, 1150000, 1100000⟩,
    ⟨800000, 1125000, 1100000⟩,
    ⟨400000, 925000, 1100000⟩,
    ⟨200000, 875000, 1100000⟩ ]

/-- The inner loop of `s5pv210_cpufreq_probe`: from index `j` on, the first
index before `CPUFREQ_TABLE_END` whose frequency is `freq`. -/
def probe_match (freq : Nat) : List cpufreq_frequency_table → Nat → Option Nat
  | [], _ => none
  | e :: rest, j =>
    if e.frequency = CPUFREQ_TABLE_END then none
    else if e.frequency = freq then some j
    else probe_match freq rest (j + 1)

/-- One round of the outer loop of `s5pv210_cpufreq_probe`: the entry
`pdata->volt[i]` patches the level of its frequency, if there is one. -/
def probe_patch (dvs : List s5pv210_dvs_conf) (e : s5pv210_cpufreq_voltage) :
    List s5pv210_dvs_conf :=
  match probe_match e.freq s5pv210_freq_table 0 with
  | some j => dvs.set j ⟨e.varm, e.vint⟩
  | none => dvs

/-- The function `s5pv210_cpufreq_probe(pdev)`: `pdata` is the platform data
(`none` for a null pointer, otherwise the `size` entries of `volt`), `vddarm`
and `vddint` are what `regulator_get` returns for the two supplies.  The
registration of the notifiers and of the driver, and the return value of
`cpufreq_register_driver`, are outside the embedding. -/
def s5pv210_cpufreq_probe (pdata : Option (List s5pv210_cpufreq_voltage))
    (vddarm vddint : regulator_ptr) (s : State) : State :=
  let s1 := match pdata with
    | some volt => { s with dvs_conf := volt.foldl probe_patch s.dvs_conf }
    | none => s
  if vddarm = regulator_ptr.err then
    { s1 with arm_regulator := vddarm }
  else
    { s1 with arm_regulator := vddarm, internal_regulator := vddint }

/-- The last entry of an override table with frequency `f`. -/
def last_override (volt : List s5pv210_cpufreq_voltage) (f : Nat) :
    Option s5pv210_cpufreq_voltage :=
  volt.reverse.find? (fun e => decide (e.freq = f))

/-- The first loop of `store_UV_mV_table`: at most `n` calls of
`sscanf(buf, "%d%n", &val, &consumed)`, each advancing `buf` by `consumed`; the
values stored in `u`, in order.  The library function is a parameter: `sscanf`
gives the value and the number of bytes consumed, or `none` when its return
value is not positive. -/
def store_scan (sscanf : List Nat → Option (Int × Nat)) : Nat → List Nat → List Int
  | 0, _ => []
  | n + 1, buf =>
    match sscanf buf with
    | some (val, consumed) => val :: store_scan sscanf n (buf.drop consumed)
    | none => []

/-- The body of the second loop of `store_UV_mV_table`: the test
`u[i] > arm_volt_max / 1000` compares the `int` with an `unsigned long`, so as
32-bit unsigned words; the result is the word stored in `arm_volt`. -/
def store_clamp (u : Int) : Nat :=
  let u1 : Int := if (u % 4294967296).toNat > arm_volt_max / 1000 then
      ((arm_volt_max / 1000 : Nat) : Int) else u
  ((u1 * 1000) % 4294967296).toNat

/-- The second loop of `store_UV_mV_table` from index `i` on. -/
def store_apply : List s5pv210_dvs_conf → Nat → List Int → List s5pv210_dvs_conf
  | dvs, _, [] => dvs
  | dvs, i, u :: rest =>
    store_apply (dvs.set i { dvs.getD i ⟨0, 0⟩ with arm_volt := store_clamp u }) (i + 1) rest

/-- The conversion of the `size_t` argument to the `ssize_t` return type in
`return count;` on the 32-bit target: the 32-bit word read as a signed
integer. -/
def ssize_t_of_size_t (count : Nat) : Int :=
  if count % 4294967296 < 2147483648 then ((count % 4294967296 : Nat) : Int)
  else ((count % 4294967296 : Nat) : Int) - 4294967296

/-- The function `store_UV_mV_table(policy, buf, count)`: the return value, an
`ssize_t`, and the state after it.  The buffer is the list of its bytes. -/
def store_UV_mV_table (sscanf : List Nat → Option (Int × Nat)) (s : State) (buf : List Nat)
    (count : Nat) : Int × State :=
  let u := store_scan sscanf (MAX_PERF_LEVEL + 1) buf
  (ssize_t_of_size_t count, { s with dvs_conf := store_apply s.dvs_conf 0 u })

/-- Modelled from the spec: `sscanf` with the format `"%d%n"` on a byte string
(`lib/vsprintf.c` is not among the sources): white space is skipped, then an
optional minus sign and a non-empty run of decimal digits are read; the result
is the integer and the number of bytes consumed, or `none` when no integer
starts there. -/
def sscanf_d (buf : List Nat) : Option (Int × Nat) :=
  let ws := buf.takeWhile (fun c => decide (c = 32 ∨ (9 ≤ c ∧ c ≤ 13)))
  let rest := buf.drop ws.length
  let neg := decide (rest.head? = some 45)
  let rest1 := if neg then rest.drop 1 else rest
  let ds := rest1.takeWhile (fun c => decide (48 ≤ c ∧ c ≤ 57))
  if ds = [] then none
  else
    let mag : Nat := ds.foldl (fun a c => a * 10 + (c - 48)) 0
    some (if neg then -(mag : Int) else (mag : Int),
      ws.length + (if neg then 1 else 0) + ds.length)

/-- The bytes of the text `1200 1100 -5 2000 x 900`. -/
def uv_table_input : List Nat :=
  [49, 50, 48, 48, 32, 49, 49, 48, 48, 32, 45, 53, 32, 50, 48, 48, 48, 32, 120, 32, 57, 48, 48]

/-- The state of the concrete platform at level L1 with absent regulators: the
ARM-rail handle is an error sentinel and the internal-rail handle is null, as
`s5pv210_cpufreq_probe` leaves them when `regulator_get("vddarm")` fails. -/
def state_without_regulators : State :=
  s5pv210_cpufreq_probe none regulator_ptr.err regulator_ptr.valid
    { state_at L1 false with
      arm_regulator := regulator_ptr.null, internal_regulator := regulator_ptr.null }

/-! ## Driver initialisation -/

/-- Memory type of `enum s5pv210_mem_type`. -/
def LPDDR : Nat := 0x1

/-- Memory type of `enum s5pv210_mem_type`. -/
def LPDDR2 : Nat := 0x2

/-- Memory type of `enum s5pv210_mem_type`. -/
def DDR2 : Nat := 0x4

/-- The function `check_mem_type(dmc_reg)`; `val` is the word read at
`dmc_reg + 0x4`. -/
def check_mem_type (val : Nat) : Nat :=
  (val &&& (0xf <<< 8)) >>> 8

/-- The loop `for (i = 0; i < n; i++) g_dvfslockval[i] = MAX_PERF_LEVEL;` of
`s5pv210_cpu_init`. -/
def dvfs_lockval_init (n : Nat) (vals : List Nat) : List Nat :=
  (List.range n).foldl (fun v i => v.set i MAX_PERF_LEVEL) vals

/-- The function `s5pv210_cpu_init(policy)`: the return value and the state
after it.  What the function gets from outside the driver is a parameter:
`clk_err c` is 0 when `clk_get` returns a valid handle of the clock and
`PTR_ERR` of the handle otherwise, `policy_cpu` is `policy->cpu`, `memcontrol`
the word read at `S5P_VA_DMC0 + 0x4`, `table_cpuinfo` the return value of
`cpufreq_frequency_table_cpuinfo`.  The fields of `policy` are outside the
embedding.  The refresh counters are 32-bit `unsigned long` products. -/
def s5pv210_cpu_init (env : Env) (clk_err : Clk → Int) (policy_cpu memcontrol : Nat)
    (table_cpuinfo : Int) (s : State) : Int × State :=
  if clk_err Clk.cpu_clk ≠ 0 then (clk_err Clk.cpu_clk, s)
  else if clk_err Clk.dmc0_clk ≠ 0 then (clk_err Clk.dmc0_clk, s)
  else if clk_err Clk.dmc1_clk ≠ 0 then (clk_err Clk.dmc1_clk, s)
  else if policy_cpu ≠ 0 then (-EINVAL, s)
  else
    let mem_type := check_mem_type memcontrol
    if mem_type ≠ LPDDR ∧ mem_type ≠ LPDDR2 then (-EINVAL, s)
    else
      -- Find current refresh counter and frequency each DMC
      let refresh0 := (__raw_readl Reg.DMC0_TIMINGAREF s.hw * 1000) % 4294967296
      let freq0 := env.clk_get_rate Clk.dmc0_clk s.hw.regs
      let refresh1 := (__raw_readl Reg.DMC1_TIMINGAREF s.hw * 1000) % 4294967296
      let freq1 := env.clk_get_rate Clk.dmc1_clk s.hw.regs
      let s := { s with s5pv210_dram_conf := [⟨freq0, refresh0⟩, ⟨freq1, refresh1⟩] }
      let s := if env.CONFIG_DVFS_LIMIT then
          { s with g_dvfslockval :=
              dvfs_lockval_init env.DVFS_LOCK_TOKEN_NUM s.g_dvfslockval }
        else s
      (table_cpuinfo, s)

/-- The driver variables as the C initialisers leave them before
`s5pv210_cpu_init` runs on the concrete platform: the DRAM configuration is
zero, the DVFS token values are zero. -/
def state_at_boot : State :=
  { state_at L1 false with
    s5pv210_dram_conf := [⟨0, 0⟩, ⟨0, 0⟩]
    g_dvfslockval := List.replicate 8 0 }

/-- The state of the concrete platform after a successful
`s5pv210_cpu_init`. -/
def state_after_init : State :=
  (s5pv210_cpu_init wave_env (fun _ => 0) 0 (LPDDR <<< 8) 0 state_at_boot).2

/-! ## Voltage windows -/

/-- The last voltage window `(min_uV, max_uV)` requested on a rail in a
history, `none` when the history holds no call on the rail. -/
def last_window (r : Regulator) (tr : List Event) : Option (Nat × Nat) :=
  tr.foldl (fun acc e => match e with
    | Event.regulator_set_voltage rg a b _ => if rg = r then some (a, b) else acc
    | _ => acc) none

/-- The bytes of the text `0 -1 -2147483648`. -/
def uv_table_negative : List Nat :=
  [48, 32, 45, 49, 32, 45, 50, 49, 52, 55, 52, 56, 51, 54, 52, 56]

/-! ## Wi-Fi memory preallocation (mach-wave.c) -/

def PREALLOC_WLAN_SEC_NUM : Nat := 4

def PREALLOC_WLAN_BUF_NUM : Nat := 160

def PREALLOC_WLAN_SECTION_HEADER : Nat := 24

def WLAN_SECTION_SIZE_0 : Nat := PREALLOC_WLAN_BUF_NUM * 128

def WLAN_SECTION_SIZE_1 : Nat := PREALLOC_WLAN_BUF_NUM * 128

def WLAN_SECTION_SIZE_2 : Nat := PREALLOC_WLAN_BUF_NUM * 512

def WLAN_SECTION_SIZE_3 : Nat := PREALLOC_WLAN_BUF_NUM * 1024

/-- A `void *` as `wave_mem_prealloc` returns it: the null pointer, the address
of the array `wlan_static_skb`, or a block obtained from `kmalloc`. -/
inductive Pointer where
  | NULL
  | wlan_static_skb
  | kmalloc (addr : Nat)
  deriving DecidableEq, Repr

structure wifi_mem_prealloc where
  mem_ptr : Pointer
  size : Nat
  deriving DecidableEq, Repr

/-- The initial contents of `wifi_mem_array`. -/
def wifi_mem_array : List wifi_mem_prealloc :=
  [ ⟨Pointer.NULL, WLAN_SECTION_SIZE_0 + PREALLOC_WLAN_SECTION_HEADER⟩,
    ⟨Pointer.NULL, WLAN_SECTION_SIZE_1 + PREALLOC_WLAN_SECTION_HEADER⟩,
    ⟨Pointer.NULL, WLAN_SECTION_SIZE_2 + PREALLOC_WLAN_SECTION_HEADER⟩,
    ⟨Pointer.NULL, WLAN_SECTION_SIZE_3 + PREALLOC_WLAN_SECTION_HEADER⟩ ]

/-- The function `wave_mem_prealloc(section, size)`; `arr` is the array
`wifi_mem_array` at the call and `sect` the `int` argument `section`.  An
access to `arr` outside its bounds has no defined result: `none`. -/
def wave_mem_prealloc (arr : List wifi_mem_prealloc) (sect : Int) (size : Nat) :
    Option Pointer :=
  if sect = PREALLOC_WLAN_SEC_NUM then some Pointer.wlan_static_skb
  else if sect < 0 ∨ sect > PREALLOC_WLAN_SEC_NUM then some Pointer.NULL
  else
    match arr.get? sect.toNat with
    | none => none
    | some e => if e.size < size then some Pointer.NULL else some e.mem_ptr

/-- The second loop of `wave_init_wifi_mem`: every section gets the block
`kmalloc` returns for its size; the loop stops at the first failed
allocation. -/
def wifi_mem_alloc (kmalloc : Nat → Pointer) : List wifi_mem_prealloc → List wifi_mem_prealloc
  | [] => []
  | e :: rest =>
    if kmalloc e.size = Pointer.NULL then { e with mem_ptr := Pointer.NULL } :: rest
    else { e with mem_ptr := kmalloc e.size } :: wifi_mem_alloc kmalloc rest

/-- The array `wifi_mem_array` after `wave_init_wifi_mem` on a platform where
`kmalloc` hands out the block at address `0x1000 + size`. -/
def wifi_mem_array_ready : List wifi_mem_prealloc :=
  wifi_mem_alloc (fun size => Pointer.kmalloc (0x1000 + size)) wifi_mem_array

/-! ## Transitions without relock -/

/-- Between the states `s` and `s1` only the dividers of `S5P_CLK_DIV0` and the
MCS bits were written: the registers written are `S5P_CLK_DIV0` and
`S5P_ARM_MCS_CON`, and the PLL, mux, MFC/G3D divider and DRAM refresh registers
hold what they held. -/
def dividers_only (s s1 : State) : Prop :=
  written_regs s1.hw.trace =
    written_regs s.hw.trace ++ [Reg.S5P_CLK_DIV0, Reg.S5P_ARM_MCS_CON] ∧
  s1.hw.regs.APLL_CON = s.hw.regs.APLL_CON ∧
  s1.hw.regs.APLL_LOCK = s.hw.regs.APLL_LOCK ∧
  s1.hw.regs.CLK_SRC0 = s.hw.regs.CLK_SRC0 ∧
  s1.hw.regs.CLK_SRC2 = s.hw.regs.CLK_SRC2 ∧
  s1.hw.regs.CLK_DIV2 = s.hw.regs.CLK_DIV2 ∧
  s1.hw.regs.DMC0_TIMINGAREF = s.hw.regs.DMC0_TIMINGAREF ∧
  s1.hw.regs.DMC1_TIMINGAREF = s.hw.regs.DMC1_TIMINGAREF

instance (s s1 : State) : Decidable (dividers_only s s1) := by
  unfold dividers_only; infer_instance

/-! ## Busy-polls -/

/-- The PLL word matches the level applied: for some level `k`, `S5P_APLL_CON`
holds the constant of `k` and `s5pv210_getspeed(0)` reads back the frequency
of `k`. -/
def pll_word_matches (env : Env) (s : State) : Prop :=
  ∃ k, k < 5 ∧ s.hw.regs.APLL_CON = apll_val k ∧
    s5pv210_getspeed env s.hw 0 = freq_table_frequency k

instance (env : Env) (s : State) : Decidable (pll_word_matches env s) := by
  unfold pll_word_matches; infer_instance

/-! ## Sequences of DVFS lock and unlock calls -/

/-- A call of the DVFS limit interface: `s5pv210_lock_dvfs_high_level(nToken,
perf_level)` or `s5pv210_unlock_dvfs_high_level(nToken)`. -/
inductive dvfs_call where
  | lock (nToken perf_level : Nat)
  | unlock (nToken : Nat)
  deriving DecidableEq, Repr

/-- The token number of a call. -/
def dvfs_call.nToken : dvfs_call → Nat
  | dvfs_call.lock t _ => t
  | dvfs_call.unlock t => t

def dvfs_apply (env : Env) (s : State) : dvfs_call → State
  | dvfs_call.lock t p => s5pv210_lock_dvfs_high_level t p s
  | dvfs_call.unlock t => s5pv210_unlock_dvfs_high_level env t s

/-- The state after a sequence of lock and unlock calls. -/
def dvfs_calls (env : Env) (s : State) (calls : List dvfs_call) : State :=
  calls.foldl (dvfs_apply env) s

/-- The token `t` is held: its bit is set in `g_dvfs_high_lock_token` (the
test of line 207). -/
def token_held (s : State) (t : Nat) : Prop :=
  s.g_dvfs_high_lock_token &&& shl32 1 t ≠ 0

instance (s : State) (t : Nat) : Decidable (token_held s t) := by
  unfold token_held; infer_instance

/-- The limit `g_dvfs_high_lock_limit` is the minimum of `g_dvfslockval` over
the held tokens: some held token has it as its value and no held token has a
smaller one. -/
def limit_is_minimum (env : Env) (s : State) : Prop :=
  (∃ t, t < env.DVFS_LOCK_TOKEN_NUM ∧ (token_held s t ∧
    s.g_dvfslockval.getD t 0 = s.g_dvfs_high_lock_limit)) ∧
  ∀ t, t < env.DVFS_LOCK_TOKEN_NUM → token_held s t →
    s.g_dvfs_high_lock_limit ≤ s.g_dvfslockval.getD t 0

instance (env : Env) (s : State) : Decidable (limit_is_minimum env s) := by
  unfold limit_is_minimum; infer_instance

/-- The DVFS variables are consistent: the value array has one entry per
token, only bits of token numbers are set in the mask, a token not held has
the value `MAX_PERF_LEVEL`, a held token a value below it, the limit is the
minimum over the held tokens when there is one and at least `MAX_PERF_LEVEL`
when there is none. -/
def dvfs_invariant (env : Env) (s : State) : Prop :=
  s.g_dvfslockval.length = env.DVFS_LOCK_TOKEN_NUM ∧
  (∀ i, s.g_dvfs_high_lock_token.testBit i = true → i < env.DVFS_LOCK_TOKEN_NUM) ∧
  (∀ t, t < env.DVFS_LOCK_TOKEN_NUM → s.g_dvfs_high_lock_token.testBit t = false →
    s.g_dvfslockval.getD t 0 = MAX_PERF_LEVEL) ∧
  (∀ t, t < env.DVFS_LOCK_TOKEN_NUM → s.g_dvfs_high_lock_token.testBit t = true →
    s.g_dvfslockval.getD t 0 ≤ MAX_PERF_LEVEL - 1) ∧
  (s.g_dvfs_high_lock_token ≠ 0 →
    (∃ t, t < env.DVFS_LOCK_TOKEN_NUM ∧ s.g_dvfs_high_lock_token.testBit t = true ∧
      s.g_dvfslockval.getD t 0 = s.g_dvfs_high_lock_limit) ∧
    ∀ t, t < env.DVFS_LOCK_TOKEN_NUM → s.g_dvfs_high_lock_token.testBit t = true →
      s.g_dvfs_high_lock_limit ≤ s.g_dvfslockval.getD t 0) ∧
  (s.g_dvfs_high_lock_token = 0 → MAX_PERF_LEVEL ≤ s.g_dvfs_high_lock_limit)

/-! ## A platform whose DMC1 clock does not run at 200 MHz -/

/-- The concrete platform with the clock of DMC1 (`hclk_msys`) running at
166 MHz. -/
def wave_env_dmc1_166 : Env :=
  { wave_env with
    clk_get_rate := fun c regs =>
      match c with
      | Clk.cpu_clk => armclk_get_rate wave_layout regs
      | Clk.dmc0_clk => 166000000
      | Clk.dmc1_clk => 166000000 }

/-- The state of that platform after a successful `s5pv210_cpu_init`: the DMC1
refresh register holds 1560 and `s5pv210_dram_conf[1]` is 166 MHz with the
refresh counter 1560 * 1000. -/
def state_after_init_166 : State :=
  (s5pv210_cpu_init wave_env_dmc1_166 (fun _ => 0) 0 (LPDDR <<< 8) 0 state_at_boot).2


/-! ## Busy-polls -/

theorem poll_mono (env : Env) (r : Reg) (c : Nat → Bool) :
    ∀ (n : Nat) (tr tr1 : List Event), poll env r c n tr = some tr1 →
      ∀ m, n ≤ m → poll env r c m tr = some tr1 := by
  intro n
  induction n with
  | zero => intro tr tr1 h; simp [poll] at h
  | succ k ih =>
    intro tr tr1 h m hm
    obtain ⟨j, rfl⟩ : ∃ j, m = j + 1 := ⟨m - 1, by omega⟩
    simp only [poll] at h ⊢
    by_cases hc : c (env.readl tr r) = true
    · simp only [hc, if_true] at h ⊢
      exact ih _ _ h j (by omega)
    · simp only [hc] at h ⊢
      exact h

theorem effects_append (a b : List Event) : effects (a ++ b) = effects a ++ effects b := by
  simp [effects]

theorem effects_readl (r : Reg) (v : Nat) : effects [Event.readl r v] = [] := rfl

theorem effects_writel (v : Nat) (r : Reg) : effects [Event.writel v r] = [Event.writel v r] :=
  rfl

theorem effects_regulator (r : Regulator) (a b : Nat) (ret : Int) :
    effects [Event.regulator_set_voltage r a b ret] = [Event.regulator_set_voltage r a b ret] :=
  rfl

theorem effects_notify (a b : Nat) (p : Phase) :
    effects [Event.cpufreq_notify_transition a b p] = [Event.cpufreq_notify_transition a b p] :=
  rfl

theorem poll_effects (env : Env) (r : Reg) (c : Nat → Bool) :
    ∀ (n : Nat) (tr tr1 : List Event), poll env r c n tr = some tr1 →
      effects tr1 = effects tr := by
  intro n
  induction n with
  | zero => intro tr tr1 h; simp [poll] at h
  | succ k ih =>
    intro tr tr1 h
    simp only [poll] at h
    by_cases hc : c (env.readl tr r) = true
    · simp only [hc, if_true] at h
      rw [ih _ _ h, effects_append, effects_readl, List.append_nil]
    · simp only [hc] at h
      cases h
      rw [effects_append, effects_readl, List.append_nil]

theorem poll_converges (env : Env) (r : Reg) (c : Nat → Bool) (tr : List Event)
    (h : ∃ n, (poll env r c n tr).isSome) : converges (fun n => poll env r c n tr) := by
  obtain ⟨n, hn⟩ := h
  obtain ⟨y, hy⟩ := Option.isSome_iff_exists.mp hn
  exact ⟨n, y, fun m hm => poll_mono env r c n tr y hy m hm⟩

theorem converges_some {β : Type} (y : β) : converges (fun _ => some y) :=
  ⟨0, y, fun _ _ => rfl⟩

theorem converges_bind {α β : Type} (f : Nat → Option α) (g : Nat → α → Option β)
    (hf : converges f) (hg : ∀ a, converges (fun n => g n a)) :
    converges (fun n => (f n).bind (g n)) := by
  obtain ⟨n1, a, h1⟩ := hf
  obtain ⟨n2, b, h2⟩ := hg a
  refine ⟨max n1 n2, b, fun n hn => ?_⟩
  show (f n).bind (g n) = some b
  rw [h1 n (le_trans (le_max_left _ _) hn)]
  exact h2 n (le_trans (le_max_right _ _) hn)

theorem converges_map {α β : Type} (f : Nat → Option α) (g : α → β)
    (hf : converges f) : converges (fun n => (f n).map g) := by
  obtain ⟨n1, a, h1⟩ := hf
  refine ⟨n1, g a, fun n hn => ?_⟩
  show (f n).map g = some (g a)
  rw [h1 n hn]
  rfl

theorem do_while_readl_eq_some (env : Env) (r : Reg) (c : Nat → Bool) (fuel : Nat)
    (h h1 : Hw) :
    do_while_readl env r c fuel h = some h1 ↔
      ∃ tr, poll env r c fuel h.trace = some tr ∧ h1 = { regs := h.regs, trace := tr } := by
  unfold do_while_readl
  rw [Option.map_eq_some']
  constructor
  · rintro ⟨tr, h, rfl⟩; exact ⟨tr, h, rfl⟩
  · rintro ⟨tr, h, rfl⟩; exact ⟨tr, h, rfl⟩

theorem do_while_readl_converges (env : Env) (r : Reg) (c : Nat → Bool) (h : Hw)
    (hp : ∃ n, (poll env r c n h.trace).isSome) :
    converges (fun n => do_while_readl env r c n h) :=
  converges_map _ _ (poll_converges env r c h.trace hp)

/-! ## The steps of the sequencer -/

theorem raw_writel_regs (v : Nat) (r : Reg) (h : Hw) :
    (__raw_writel v r h).regs = h.regs.set r (v % 4294967296) := rfl

theorem raw_writel_trace (v : Nat) (r : Reg) (h : Hw) :
    (__raw_writel v r h).trace = h.trace ++ [Event.writel (v % 4294967296) r] := rfl

theorem set_refresh_DMC1 (conf : List dram_conf) (freq : Nat) (h : Hw) :
    s5pv210_set_refresh conf DMC1 freq h =
      { regs := { h.regs with DMC1_TIMINGAREF := refresh_word conf DMC1 freq },
        trace := h.trace ++ [Event.writel (refresh_word conf DMC1 freq) Reg.DMC1_TIMINGAREF] } := by
  simp [s5pv210_set_refresh, DMC0, DMC1, __raw_writel, Regs.set, refresh_word]

theorem target_pll_begin_spec (env : Env) (conf : List dram_conf) (fuel : Nat) (h h1 : Hw)
    (hr : target_pll_begin env conf fuel h = some h1) :
    h1.regs = { h.regs with
        CLK_DIV2 := rmw (clkdiv2_mask env) (clkdiv2_tmp env) h.regs.CLK_DIV2,
        CLK_SRC2 := rmw (clksrc2_mask env) (clksrc2_val env 1) h.regs.CLK_SRC2,
        DMC1_TIMINGAREF := refresh_word conf DMC1 133000,
        CLK_SRC0 := rmw env.S5P_CLKSRC0_MUX200_MASK
          (shl32 1 env.S5P_CLKSRC0_MUX200_SHIFT) h.regs.CLK_SRC0 } ∧
      effects h1.trace = effects h.trace ++
        [ Event.writel (rmw (clkdiv2_mask env) (clkdiv2_tmp env) h.regs.CLK_DIV2)
            Reg.S5P_CLK_DIV2,
          Event.writel (rmw (clksrc2_mask env) (clksrc2_val env 1) h.regs.CLK_SRC2)
            Reg.S5P_CLK_SRC2,
          Event.writel (refresh_word conf DMC1 133000) Reg.DMC1_TIMINGAREF,
          Event.writel (rmw env.S5P_CLKSRC0_MUX200_MASK
            (shl32 1 env.S5P_CLKSRC0_MUX200_SHIFT) h.regs.CLK_SRC0) Reg.S5P_CLK_SRC0 ] := by
  simp only [target_pll_begin, Option.bind_eq_bind, Option.bind_eq_some,
    do_while_readl_eq_some, set_refresh_DMC1] at hr
  obtain ⟨_, ⟨tr1, hp1, rfl⟩, _, ⟨tr2, hp2, rfl⟩, tr3, hp3, rfl⟩ := hr
  have e1 := poll_effects _ _ _ _ _ _ hp1
  have e2 := poll_effects _ _ _ _ _ _ hp2
  have e3 := poll_effects _ _ _ _ _ _ hp3
  simp only [raw_writel_trace, effects_append, effects_writel] at e1 e2 e3
  refine ⟨?_, ?_⟩
  · simp [__raw_writel, __raw_readl, Regs.set, Regs.get,
      rmw, clkdiv2_mask, clkdiv2_tmp, clksrc2_mask, clksrc2_val]
  · simp only [e3, e2, e1]
    simp [__raw_writel, __raw_readl, Regs.set, Regs.get,
      rmw, clkdiv2_mask, clkdiv2_tmp, clksrc2_mask, clksrc2_val]


theorem apll_val_lt (index : Nat) : apll_val index < 4294967296 := by
  unfold apll_val
  split
  · decide
  · split <;> decide

theorem target_pll_begin_converges (env : Env) (conf : List dram_conf) (h : Hw)
    (hack : hw_acknowledges env) :
    converges (fun n => target_pll_begin env conf n h) := by
  unfold target_pll_begin
  simp only [Option.bind_eq_bind]
  refine converges_bind _ _ (do_while_readl_converges _ _ _ _ (hack _).1) (fun h1 => ?_)
  refine converges_bind _ _ (do_while_readl_converges _ _ _ _ (hack _).2.1) (fun h2 => ?_)
  exact do_while_readl_converges _ _ _ _ (hack _).2.2.1

theorem target_divider_spec (env : Env) (index fuel : Nat) (h h1 : Hw)
    (hr : target_divider env index fuel h = some h1) :
    h1.regs = { h.regs with
        CLK_DIV0 := rmw (clkdiv0_mask env) (clkdiv0_val env index) h.regs.CLK_DIV0,
        ARM_MCS_CON := mcs_word index h.regs.ARM_MCS_CON } ∧
      effects h1.trace = effects h.trace ++
        [ Event.writel (rmw (clkdiv0_mask env) (clkdiv0_val env index) h.regs.CLK_DIV0)
            Reg.S5P_CLK_DIV0,
          Event.writel (mcs_word index h.regs.ARM_MCS_CON) Reg.S5P_ARM_MCS_CON ] := by
  simp only [target_divider, Option.bind_eq_bind, Option.bind_eq_some,
    do_while_readl_eq_some] at hr
  obtain ⟨_, ⟨tr1, hp1, rfl⟩, hr⟩ := hr
  have e1 := poll_effects _ _ _ _ _ _ hp1
  simp only [raw_writel_trace, effects_append, effects_writel] at e1
  simp only [Option.some.injEq] at hr
  subst hr
  refine ⟨?_, ?_⟩
  · by_cases hi : index ≥ L3 <;>
      simp [__raw_writel, __raw_readl, Regs.set, Regs.get, rmw, mcs_word, hi]
  · simp only [raw_writel_trace, effects_append, effects_writel, e1]
    by_cases hi : index ≥ L3 <;>
      simp [__raw_writel, __raw_readl, Regs.set, Regs.get, rmw, mcs_word, hi]

theorem target_divider_converges (env : Env) (index : Nat) (h : Hw)
    (hack : hw_acknowledges env) :
    converges (fun n => target_divider env index n h) := by
  unfold target_divider
  simp only [Option.bind_eq_bind]
  refine converges_bind _ _ (do_while_readl_converges _ _ _ _ (hack _).2.2.2.1) (fun h1 => ?_)
  exact converges_some _

theorem target_pll_end_spec (env : Env) (conf : List dram_conf) (index fuel : Nat) (h h1 : Hw)
    (hr : target_pll_end env conf index fuel h = some h1) :
    h1.regs = { h.regs with
        APLL_LOCK := 0x2cf,
        APLL_CON := apll_val index,
        CLK_SRC2 := rmw (clksrc2_mask env) (clksrc2_val env 0) h.regs.CLK_SRC2,
        CLK_DIV2 := rmw (clkdiv2_mask env) (clkdiv2_val env index) h.regs.CLK_DIV2,
        CLK_SRC0 := rmw env.S5P_CLKSRC0_MUX200_MASK
          (shl32 0 env.S5P_CLKSRC0_MUX200_SHIFT) h.regs.CLK_SRC0,
        DMC1_TIMINGAREF := refresh_word conf DMC1 200000 } ∧
      effects h1.trace = effects h.trace ++
        [ Event.writel 0x2cf Reg.S5P_APLL_LOCK,
          Event.writel (apll_val index) Reg.S5P_APLL_CON,
          Event.writel (rmw (clksrc2_mask env) (clksrc2_val env 0) h.regs.CLK_SRC2)
            Reg.S5P_CLK_SRC2,
          Event.writel (rmw (clkdiv2_mask env) (clkdiv2_val env index) h.regs.CLK_DIV2)
            Reg.S5P_CLK_DIV2,
          Event.writel (rmw env.S5P_CLKSRC0_MUX200_MASK
            (shl32 0 env.S5P_CLKSRC0_MUX200_SHIFT) h.regs.CLK_SRC0) Reg.S5P_CLK_SRC0,
          Event.writel (refresh_word conf DMC1 200000) Reg.DMC1_TIMINGAREF ] := by
  simp only [target_pll_end, Option.bind_eq_bind, Option.bind_eq_some,
    do_while_readl_eq_some, set_refresh_DMC1] at hr
  obtain ⟨_, ⟨tr1, hp1, rfl⟩, _, ⟨tr2, hp2, rfl⟩, _, ⟨tr3, hp3, rfl⟩, _, ⟨tr4, hp4, rfl⟩, hr⟩ := hr
  have e1 := poll_effects _ _ _ _ _ _ hp1
  have e2 := poll_effects _ _ _ _ _ _ hp2
  have e3 := poll_effects _ _ _ _ _ _ hp3
  have e4 := poll_effects _ _ _ _ _ _ hp4
  simp only [raw_writel_trace, effects_append, effects_writel] at e1 e2 e3 e4
  simp only [Option.some.injEq] at hr
  subst hr
  have hm := Nat.mod_eq_of_lt (apll_val_lt index)
  refine ⟨?_, ?_⟩
  · simp [__raw_writel, __raw_readl, Regs.set, Regs.get, hm,
      rmw, clkdiv2_mask, clkdiv2_val, clksrc2_mask, clksrc2_val]
  · simp only [effects_append, effects_writel, e4, e3, e2, e1]
    simp [__raw_writel, __raw_readl, Regs.set, Regs.get, hm,
      rmw, clkdiv2_mask, clkdiv2_val, clksrc2_mask, clksrc2_val]

theorem target_pll_end_converges (env : Env) (conf : List dram_conf) (index : Nat) (h : Hw)
    (hack : hw_acknowledges env) :
    converges (fun n => target_pll_end env conf index n h) := by
  unfold target_pll_end
  simp only [Option.bind_eq_bind]
  refine converges_bind _ _ (do_while_readl_converges _ _ _ _ (hack _).2.2.2.2) (fun h1 => ?_)
  refine converges_bind _ _ (do_while_readl_converges _ _ _ _ (hack _).2.1) (fun h2 => ?_)
  refine converges_bind _ _ (do_while_readl_converges _ _ _ _ (hack _).1) (fun h3 => ?_)
  refine converges_bind _ _ (do_while_readl_converges _ _ _ _ (hack _).2.2.1) (fun h4 => ?_)
  exact converges_some _


theorem target_clock_spec (env : Env) (s : State) (index fuel : Nat) (h h1 : Hw)
    (hr : target_clock env s index fuel h = some h1) :
    h1.regs = clock_regs env s.s5pv210_dram_conf index (pll_changing index s.freqs.old) h.regs ∧
    effects h1.trace = effects h.trace ++
      clock_effects env s.s5pv210_dram_conf s.freqs index (pll_changing index s.freqs.old)
        h.regs := by
  cases hp : pll_changing index s.freqs.old
  · simp only [target_clock, hp, Option.bind_eq_bind, Option.bind_eq_some, Bool.false_eq_true,
      if_false, Option.some.injEq, exists_eq_left'] at hr
    obtain ⟨hb, hrb, hr⟩ := hr
    subst hr
    obtain ⟨rb, eb⟩ := target_divider_spec _ _ _ _ _ hrb
    refine ⟨?_, ?_⟩
    · simp [cpufreq_notify_transition, clock_regs, rb]
    · simp [cpufreq_notify_transition, clock_effects, effects_append, effects_notify, eb,
        divider_writes]
  · simp only [target_clock, hp, Option.bind_eq_bind, Option.bind_eq_some,
      if_true, Option.some.injEq] at hr
    obtain ⟨ha, hra, hb, hrb, hc, hrc, hr⟩ := hr
    subst hr
    obtain ⟨rb, eb⟩ := target_divider_spec _ _ _ _ _ hrb
    obtain ⟨ra, ea⟩ := target_pll_begin_spec _ _ _ _ _ hra
    obtain ⟨rc, ec⟩ := target_pll_end_spec _ _ _ _ _ _ hrc
    refine ⟨?_, ?_⟩
    · simp [cpufreq_notify_transition, clock_regs, rb, ra, rc]
    · simp [cpufreq_notify_transition, clock_effects, effects_append, effects_notify, eb, ea, ec,
        rb, ra, divider_writes, pll_begin_writes, pll_end_writes]

theorem target_clock_converges (env : Env) (s : State) (index : Nat) (h : Hw)
    (hack : hw_acknowledges env) :
    converges (fun n => target_clock env s index n h) := by
  unfold target_clock
  cases hp : pll_changing index s.freqs.old
  · simp only [Option.bind_eq_bind, Bool.false_eq_true, if_false, Option.some_bind]
    refine converges_bind _ _ (target_divider_converges _ _ _ hack) (fun h2 => ?_)
    exact converges_some _
  · simp only [Option.bind_eq_bind, if_true]
    refine converges_bind _ _ (target_pll_begin_converges _ _ _ hack) (fun h1 => ?_)
    refine converges_bind _ _ (target_divider_converges _ _ _ hack) (fun h2 => ?_)
    refine converges_bind _ _ (target_pll_end_converges _ _ _ _ hack) (fun h3 => ?_)
    exact converges_some _

/-! ## The paths through `s5pv210_target` -/

theorem target_locked (env : Env) (fuel : Nat) (s : State) (target_freq relation : Nat)
    (hgate : ¬ passes_gate s relation) :
    s5pv210_target env fuel s target_freq relation = some (-EINVAL, s) := by
  simp only [passes_gate, not_or, not_not, Bool.not_eq_false] at hgate
  simp [s5pv210_target, hgate.1, hgate.2]

theorem target_admitted_eq (env : Env) (fuel : Nat) (s : State) (target_freq relation : Nat)
    (hgate : passes_gate s relation) :
    s5pv210_target env fuel s target_freq relation =
      target_transition env fuel (target_admitted s relation) target_freq (stripped relation) := by
  unfold passes_gate at hgate
  cases s
  by_cases he : relation &&& ENABLE_FURTHER_CPUFREQ = 0 <;>
  by_cases hd : relation &&& DISABLE_FURTHER_CPUFREQ = 0 <;>
  simp_all [s5pv210_target, target_admitted, stripped]

theorem transition_no_entry (env : Env) (fuel : Nat) (s : State) (target_freq relation : Nat)
    (hlook : env.cpufreq_frequency_table_target target_freq relation = none) :
    target_transition env fuel s target_freq relation =
      some (-EINVAL, { s with freqs := { s.freqs with old := s5pv210_getspeed env s.hw 0 } }) := by
  simp only [target_transition, hlook]

theorem transition_same_freq (env : Env) (fuel : Nat) (s : State) (target_freq relation : Nat)
    (found : Fin 5)
    (hlook : env.cpufreq_frequency_table_target target_freq relation = some found)
    (hsame : freq_table_frequency (target_index env s found) = s5pv210_getspeed env s.hw 0) :
    target_transition env fuel s target_freq relation =
      some (0, target_resolved env s (target_index env s found)) := by
  unfold target_index at hsame
  simp only [target_transition, hlook, hsame, if_true]
  simp only [target_resolved, target_index, hsame]

theorem transition_change (env : Env) (fuel : Nat) (s : State) (target_freq relation : Nat)
    (found : Fin 5)
    (hlook : env.cpufreq_frequency_table_target target_freq relation = some found)
    (hne : freq_table_frequency (target_index env s found) ≠ s5pv210_getspeed env s.hw 0) :
    target_transition env fuel s target_freq relation =
      (let index := target_index env s found
       let s1 := target_resolved env s index
       let arm_volt := (s.dvs_conf.getD index ⟨0, 0⟩).arm_volt
       let int_volt := (s.dvs_conf.getD index ⟨0, 0⟩).int_volt
       let up := target_voltage_up env s1 arm_volt int_volt
       let s2 : State := { s1 with hw := up.2 }
       if up.1 ≠ 0 then some (up.1, s2)
       else
         (target_clock env s2 index fuel up.2).map
           (fun h => ((0 : Int), target_finish env s2 arm_volt int_volt h))) := by
  unfold target_index at hne
  simp only [target_transition, hlook, hne, if_false]
  simp only [target_resolved, target_index, target_finish]
  split_ifs with h1
  · rfl
  · simp only [ne_eq, not_not] at h1
    rw [h1]
    cases target_clock env _ _ fuel _ <;> rfl


theorem voltage_up_regs (env : Env) (s : State) (a b : Nat) :
    (target_voltage_up env s a b).2.regs = s.hw.regs := by
  unfold target_voltage_up regulator_call
  simp only
  split_ifs <;> rfl

theorem voltage_down_regs (env : Env) (s : State) (a b : Nat) :
    (target_voltage_down env s a b).regs = s.hw.regs := by
  unfold target_voltage_down regulator_call
  simp only
  split_ifs <;> rfl

theorem voltage_up_trace (env : Env) (s : State) (a b : Nat) :
    ∃ calls, (target_voltage_up env s a b).2.trace = s.hw.trace ++ calls ∧
      ∀ ev ∈ calls, ∃ rg x y ret, ev = Event.regulator_set_voltage rg x y ret := by
  unfold target_voltage_up regulator_call
  simp only
  split_ifs
  · exact ⟨[_], rfl, by simp⟩
  · refine ⟨_, List.append_assoc _ _ _, ?_⟩
    intro ev hev
    simp only [List.singleton_append, List.mem_cons, List.mem_singleton, List.not_mem_nil,
      or_false] at hev
    rcases hev with rfl | rfl <;> exact ⟨_, _, _, _, rfl⟩
  · exact ⟨[], by simp, by simp⟩
  · exact ⟨[], by simp, by simp⟩

theorem voltage_down_trace (env : Env) (s : State) (a b : Nat) :
    ∃ calls, (target_voltage_down env s a b).trace = s.hw.trace ++ calls ∧
      ∀ ev ∈ calls, ∃ rg x y ret, ev = Event.regulator_set_voltage rg x y ret := by
  unfold target_voltage_down regulator_call
  simp only
  split_ifs
  · refine ⟨_, List.append_assoc _ _ _, ?_⟩
    intro ev hev
    simp only [List.singleton_append, List.mem_cons, List.mem_singleton, List.not_mem_nil,
      or_false] at hev
    rcases hev with rfl | rfl <;> exact ⟨_, _, _, _, rfl⟩
  · exact ⟨[], by simp, by simp⟩
  · exact ⟨[], by simp, by simp⟩

theorem voltage_up_not_faster (env : Env) (s : State) (a b : Nat)
    (h : ¬ s.freqs.new > s.freqs.old) : target_voltage_up env s a b = (0, s.hw) := by
  unfold target_voltage_up
  rw [if_neg h]

/-- A request changes, of the driver variables, only the gate, `freqs` and the
hardware. -/
theorem transition_frame (env : Env) (fuel : Nat) (s s1 : State) (target_freq relation : Nat)
    (ret : Int) (hret : target_transition env fuel s target_freq relation = some (ret, s1)) :
    ∃ fr h, s1 = { s with freqs := fr, hw := h } := by
  cases hlook : env.cpufreq_frequency_table_target target_freq relation with
  | none =>
    rw [transition_no_entry env fuel s _ _ hlook] at hret
    cases hret
    exact ⟨_, s.hw, rfl⟩
  | some found =>
    by_cases hsame : freq_table_frequency (target_index env s found) = s5pv210_getspeed env s.hw 0
    · rw [transition_same_freq env fuel s _ _ found hlook hsame] at hret
      cases hret
      exact ⟨_, s.hw, rfl⟩
    · rw [transition_change env fuel s _ _ found hlook hsame] at hret
      simp only at hret
      split_ifs at hret
      · cases hret
        exact ⟨_, _, rfl⟩
      · rw [Option.map_eq_some'] at hret
        obtain ⟨h, -, hh⟩ := hret
        cases hh
        exact ⟨_, _, rfl⟩

theorem transition_converges (env : Env) (s : State) (target_freq relation : Nat)
    (hack : hw_acknowledges env) :
    converges (fun n => target_transition env n s target_freq relation) := by
  cases hlook : env.cpufreq_frequency_table_target target_freq relation with
  | none =>
    simp only [transition_no_entry env _ s _ _ hlook]
    exact converges_some _
  | some found =>
    by_cases hsame : freq_table_frequency (target_index env s found) = s5pv210_getspeed env s.hw 0
    · simp only [transition_same_freq env _ s _ _ found hlook hsame]
      exact converges_some _
    · simp only [transition_change env _ s _ _ found hlook hsame]
      split_ifs
      · exact converges_some _
      · exact converges_map _ _ (target_clock_converges _ _ _ _ hack)

theorem target_converges (env : Env) (s : State) (target_freq relation : Nat)
    (hack : hw_acknowledges env) :
    converges (fun n => s5pv210_target env n s target_freq relation) := by
  by_cases hgate : passes_gate s relation
  · simp only [target_admitted_eq env _ s _ _ hgate]
    exact transition_converges _ _ _ _ hack
  · simp only [target_locked env _ s _ _ hgate]
    exact converges_some _

theorem target_gate_after (env : Env) (fuel : Nat) (s s1 : State) (target_freq relation : Nat)
    (ret : Int) (hret : s5pv210_target env fuel s target_freq relation = some (ret, s1)) :
    s1.no_cpufreq_access = (target_admitted s relation).no_cpufreq_access := by
  by_cases hgate : passes_gate s relation
  · rw [target_admitted_eq env fuel s _ _ hgate] at hret
    obtain ⟨fr, h, rfl⟩ := transition_frame _ _ _ _ _ _ _ hret
    rfl
  · rw [target_locked env fuel s _ _ hgate] at hret
    cases hret
    simp only [passes_gate, not_or, not_not, Bool.not_eq_false] at hgate
    simp [target_admitted, hgate.1, hgate.2]


/-! ## Access gate -/

/-- C1: while the gate is LOCKED_OUT, a request without the enable-further
flag returns `-EINVAL`, a negative value, for every target frequency and
relation and whatever the fuel, and the state at the return is the state at
the call: no register is written, the history gets no register write, no
regulator call and no notification, and the gate stays LOCKED_OUT. -/
theorem C1_lockout_rejects (env : Env) (fuel : Nat) (s : State) (target_freq relation : Nat)
    (hlock : s.no_cpufreq_access = true)
    (hflag : relation &&& ENABLE_FURTHER_CPUFREQ = 0) :
    s5pv210_target env fuel s target_freq relation = some (-EINVAL, s) ∧ -EINVAL < 0 := by
  refine ⟨target_locked env fuel s _ _ ?_, by decide⟩
  simp [passes_gate, hlock, hflag]

theorem C1_lockout_rejects_witness :
    (state_at L1 true).no_cpufreq_access = true ∧
    (0 : Nat) &&& ENABLE_FURTHER_CPUFREQ = 0 ∧
    (s5pv210_target wave_env 1 (state_at L1 true) 1200000 0 =
      some (-EINVAL, state_at L1 true) ∧ -EINVAL < 0) :=
  ⟨by decide, by decide,
    C1_lockout_rejects wave_env 1 (state_at L1 true) 1200000 0 (by decide) (by decide)⟩

/-- C2: whenever a request whose relation carries the disable-further flag
returns, with whatever return value (success, no-op, failed table search,
regulator failure, lockout), the gate is LOCKED_OUT at the return; and when the
hardware acknowledges, the request does return for every large enough fuel. -/
theorem C2_disable_further_locks (env : Env) (s : State) (target_freq relation : Nat)
    (hflag : relation &&& DISABLE_FURTHER_CPUFREQ ≠ 0) :
    (∀ fuel ret s1, s5pv210_target env fuel s target_freq relation = some (ret, s1) →
      s1.no_cpufreq_access = true) ∧
    (hw_acknowledges env → ∃ n0 ret s1, ∀ fuel, n0 ≤ fuel →
      s5pv210_target env fuel s target_freq relation = some (ret, s1)) := by
  refine ⟨fun fuel ret s1 hret => ?_, fun hack => ?_⟩
  · rw [target_gate_after env fuel s s1 _ _ ret hret]
    simp [target_admitted, hflag]
  · obtain ⟨n0, ⟨ret, s1⟩, h⟩ := target_converges env s target_freq relation hack
    exact ⟨n0, ret, s1, h⟩

theorem C2_disable_further_locks_witness :
    DISABLE_FURTHER_CPUFREQ &&& DISABLE_FURTHER_CPUFREQ ≠ 0 ∧
    ((∀ fuel ret s1, s5pv210_target wave_env fuel (state_at L0 false) SLEEP_FREQ
        DISABLE_FURTHER_CPUFREQ = some (ret, s1) → s1.no_cpufreq_access = true) ∧
     (hw_acknowledges wave_env → ∃ n0 ret s1, ∀ fuel, n0 ≤ fuel →
        s5pv210_target wave_env fuel (state_at L0 false) SLEEP_FREQ DISABLE_FURTHER_CPUFREQ =
          some (ret, s1))) :=
  ⟨by decide,
    C2_disable_further_locks wave_env (state_at L0 false) SLEEP_FREQ DISABLE_FURTHER_CPUFREQ
      (by decide)⟩

/-- A hardware that shows every status register acknowledged at the first read
acknowledges. -/
theorem acknowledges_of_readl (env : Env)
    (h : env.readl = fun _ r => if r = Reg.S5P_APLL_CON then 0x1 <<< 29 else 0) :
    hw_acknowledges env := by
  intro tr
  refine ⟨⟨1, ?_⟩, ⟨1, ?_⟩, ⟨1, ?_⟩, ⟨1, ?_⟩, ⟨1, ?_⟩⟩ <;> simp [poll, h]

/-- C3: a request carrying the enable-further flag behaves from the LOCKED_OUT
state exactly as from the OPEN state: same return value, same registers, same
history and same driver variables at the return, for every target frequency,
relation and fuel; when the disable-further flag is not set as well, the gate
is OPEN at the return.  When the hardware acknowledges, the call does return
from both states, for every large enough fuel, with one and the same return
value and final state. -/
theorem C3_enable_further_opens (env : Env) (fuel : Nat) (s : State) (target_freq relation : Nat)
    (hflag : relation &&& ENABLE_FURTHER_CPUFREQ ≠ 0) :
    s5pv210_target env fuel { s with no_cpufreq_access := true } target_freq relation =
      s5pv210_target env fuel { s with no_cpufreq_access := false } target_freq relation ∧
    (relation &&& DISABLE_FURTHER_CPUFREQ = 0 → ∀ ret s1,
      s5pv210_target env fuel { s with no_cpufreq_access := true } target_freq relation =
        some (ret, s1) → s1.no_cpufreq_access = false) ∧
    (hw_acknowledges env → ∃ n0 ret s1,
      (∀ fuel2, n0 ≤ fuel2 →
        s5pv210_target env fuel2 { s with no_cpufreq_access := true } target_freq relation =
          some (ret, s1) ∧
        s5pv210_target env fuel2 { s with no_cpufreq_access := false } target_freq relation =
          some (ret, s1)) ∧
      s1.no_cpufreq_access = decide (relation &&& DISABLE_FURTHER_CPUFREQ ≠ 0)) := by
  have heq : ∀ fuel2,
      s5pv210_target env fuel2 { s with no_cpufreq_access := true } target_freq relation =
        s5pv210_target env fuel2 { s with no_cpufreq_access := false } target_freq relation := by
    intro fuel2
    rw [target_admitted_eq env fuel2 _ _ _ (Or.inl hflag),
      target_admitted_eq env fuel2 _ _ _ (Or.inl hflag)]
    simp [target_admitted, hflag]
  refine ⟨heq fuel, fun hd ret s1 hret => ?_, fun hack => ?_⟩
  · rw [target_gate_after env fuel _ s1 _ _ ret hret]
    simp [target_admitted, hflag, hd]
  · obtain ⟨n0, ⟨ret, s1⟩, h⟩ :=
      target_converges env { s with no_cpufreq_access := true } target_freq relation hack
    refine ⟨n0, ret, s1, fun fuel2 hfuel2 => ⟨h fuel2 hfuel2, ?_⟩, ?_⟩
    · rw [← heq fuel2]
      exact h fuel2 hfuel2
    · rw [target_gate_after env n0 _ s1 _ _ ret (h n0 (le_refl _))]
      by_cases hd : relation &&& DISABLE_FURTHER_CPUFREQ = 0 <;>
        simp [target_admitted, hflag, hd]

theorem C3_enable_further_opens_witness :
    ENABLE_FURTHER_CPUFREQ &&& ENABLE_FURTHER_CPUFREQ ≠ 0 ∧
    hw_acknowledges wave_env ∧
    (s5pv210_target wave_env 1 { state_at L0 false with no_cpufreq_access := true } SLEEP_FREQ
        ENABLE_FURTHER_CPUFREQ).map
      (fun p => (p.1, p.2.no_cpufreq_access, s5pv210_getspeed wave_env p.2.hw 0)) =
      some (0, false, 800000) ∧
    (s5pv210_target wave_env 1 { state_at L0 false with no_cpufreq_access := true } SLEEP_FREQ
        (ENABLE_FURTHER_CPUFREQ ||| DISABLE_FURTHER_CPUFREQ)).map
      (fun p => (p.1, p.2.no_cpufreq_access, s5pv210_getspeed wave_env p.2.hw 0)) =
      some (0, true, 800000) ∧
    (s5pv210_target wave_env 1 { state_at L0 false with no_cpufreq_access := true } SLEEP_FREQ
        ENABLE_FURTHER_CPUFREQ =
      s5pv210_target wave_env 1 { state_at L0 false with no_cpufreq_access := false } SLEEP_FREQ
        ENABLE_FURTHER_CPUFREQ ∧
    (ENABLE_FURTHER_CPUFREQ &&& DISABLE_FURTHER_CPUFREQ = 0 → ∀ ret s1,
      s5pv210_target wave_env 1 { state_at L0 false with no_cpufreq_access := true } SLEEP_FREQ
        ENABLE_FURTHER_CPUFREQ = some (ret, s1) → s1.no_cpufreq_access = false) ∧
    (hw_acknowledges wave_env → ∃ n0 ret s1,
      (∀ fuel2, n0 ≤ fuel2 →
        s5pv210_target wave_env fuel2 { state_at L0 false with no_cpufreq_access := true }
          SLEEP_FREQ ENABLE_FURTHER_CPUFREQ = some (ret, s1) ∧
        s5pv210_target wave_env fuel2 { state_at L0 false with no_cpufreq_access := false }
          SLEEP_FREQ ENABLE_FURTHER_CPUFREQ = some (ret, s1)) ∧
      s1.no_cpufreq_access = decide (ENABLE_FURTHER_CPUFREQ &&& DISABLE_FURTHER_CPUFREQ ≠ 0))) :=
  ⟨by decide, acknowledges_of_readl _ rfl, by decide, by decide,
    C3_enable_further_opens wave_env 1 (state_at L0 false) SLEEP_FREQ ENABLE_FURTHER_CPUFREQ
      (by decide)⟩

/-! ## No-op and regulator failures -/

/-- C4: when the request passes the gate and the frequency of the resolved
level (after the DVFS clamp) equals the frequency `s5pv210_getspeed(0)` reads
back, `s5pv210_target` returns 0 for every fuel and leaves the hardware as it
was: the registers are unchanged and the history is unchanged, so there is no
register write, no regulator call and neither notification. -/
theorem C4_same_frequency_noop (env : Env) (fuel : Nat) (s : State)
    (target_freq relation : Nat) (found : Fin 5)
    (hgate : passes_gate s relation)
    (hlook : env.cpufreq_frequency_table_target target_freq (stripped relation) = some found)
    (hsame : freq_table_frequency (target_index env s found) = s5pv210_getspeed env s.hw 0) :
    ∃ s1, s5pv210_target env fuel s target_freq relation = some (0, s1) ∧
      s1.hw.regs = s.hw.regs ∧ s1.hw.trace = s.hw.trace := by
  rw [target_admitted_eq env fuel s _ _ hgate,
    transition_same_freq env fuel (target_admitted s relation) _ _ found hlook hsame]
  exact ⟨_, rfl, rfl, rfl⟩

theorem C4_same_frequency_noop_witness :
    passes_gate (state_at L1 false) 0 ∧
    wave_env.cpufreq_frequency_table_target 800000 (stripped 0) = some 2 ∧
    freq_table_frequency (target_index wave_env (state_at L1 false) 2) =
      s5pv210_getspeed wave_env (state_at L1 false).hw 0 ∧
    ∃ s1, s5pv210_target wave_env 1 (state_at L1 false) 800000 0 = some (0, s1) ∧
      s1.hw.regs = (state_at L1 false).hw.regs ∧ s1.hw.trace = (state_at L1 false).hw.trace :=
  ⟨by decide, by decide, by decide,
    C4_same_frequency_noop wave_env 1 (state_at L1 false) 800000 0 2 (by decide) (by decide)
      (by decide)⟩


theorem effects_regulator_calls (calls : List Event)
    (h : ∀ ev ∈ calls, ∃ rg x y ret, ev = Event.regulator_set_voltage rg x y ret) :
    effects calls = calls := by
  unfold effects
  rw [List.filter_eq_self]
  intro ev hev
  obtain ⟨rg, x, y, ret, rfl⟩ := h ev hev
  rfl

theorem mem_of_mem_effects (ev : Event) (tr : List Event) (h : ev ∈ effects tr) : ev ∈ tr := by
  unfold effects at h
  exact (List.mem_filter.mp h).1

theorem admitted_hw (s : State) (r : Nat) : (target_admitted s r).hw = s.hw := rfl

theorem admitted_dvs_conf (s : State) (r : Nat) : (target_admitted s r).dvs_conf = s.dvs_conf :=
  rfl

theorem admitted_dram_conf (s : State) (r : Nat) :
    (target_admitted s r).s5pv210_dram_conf = s.s5pv210_dram_conf := rfl

theorem admitted_index (env : Env) (s : State) (r : Nat) (found : Fin 5) :
    target_index env (target_admitted s r) found = target_index env s found := rfl

theorem resolved_hw (env : Env) (s : State) (i : Nat) : (target_resolved env s i).hw = s.hw :=
  rfl

theorem resolved_freqs (env : Env) (s : State) (i : Nat) :
    (target_resolved env s i).freqs = ⟨0, s5pv210_getspeed env s.hw 0, freq_table_frequency i⟩ :=
  rfl

theorem resolved_arm_regulator (env : Env) (s : State) (r i : Nat) :
    (target_resolved env (target_admitted s r) i).arm_regulator = s.arm_regulator := rfl

theorem resolved_internal_regulator (env : Env) (s : State) (r i : Nat) :
    (target_resolved env (target_admitted s r) i).internal_regulator = s.internal_regulator :=
  rfl

theorem voltage_up_ret (env : Env) (s : State) (a b : Nat)
    (hup : s.freqs.new > s.freqs.old)
    (harm : IS_ERR_OR_NULL s.arm_regulator = false)
    (hint : IS_ERR_OR_NULL s.internal_regulator = false) :
    (target_voltage_up env s a b).1 =
      if env.regulator_set_voltage s.hw.trace Regulator.arm_regulator a arm_volt_max ≠ 0 then
        env.regulator_set_voltage s.hw.trace Regulator.arm_regulator a arm_volt_max
      else
        env.regulator_set_voltage
          (s.hw.trace ++ [Event.regulator_set_voltage Regulator.arm_regulator a arm_volt_max
            (env.regulator_set_voltage s.hw.trace Regulator.arm_regulator a arm_volt_max)])
          Regulator.internal_regulator b int_volt_max := by
  unfold target_voltage_up regulator_call
  simp only [hup, harm, hint, if_true, Bool.not_false, Bool.and_self]
  split_ifs <;> rfl

/-- A transition whose voltage-up step reports no error completes for every
large enough fuel: it returns 0, the registers are those of the clock
sequence, and the driver events are the calls of the voltage-up step, the
clock sequence between its two notifications, and the calls of the
voltage-down step. -/
theorem transition_completes (env : Env) (s : State) (target_freq relation : Nat)
    (found : Fin 5) (hack : hw_acknowledges env)
    (hlook : env.cpufreq_frequency_table_target target_freq relation = some found)
    (hne : freq_table_frequency (target_index env s found) ≠ s5pv210_getspeed env s.hw 0)
    (hup : (target_voltage_up env (target_resolved env s (target_index env s found))
      (s.dvs_conf.getD (target_index env s found) ⟨0, 0⟩).arm_volt
      (s.dvs_conf.getD (target_index env s found) ⟨0, 0⟩).int_volt).1 = 0) :
    ∃ n0 h,
      (∀ fuel, n0 ≤ fuel → target_transition env fuel s target_freq relation =
        some (0, { target_resolved env s (target_index env s found) with hw := h })) ∧
      h.regs = clock_regs env s.s5pv210_dram_conf (target_index env s found)
        (pll_changing (target_index env s found) (s5pv210_getspeed env s.hw 0)) s.hw.regs ∧
      ∃ ups downs,
        effects h.trace = effects s.hw.trace ++ ups ++
          clock_effects env s.s5pv210_dram_conf
            ⟨0, s5pv210_getspeed env s.hw 0, freq_table_frequency (target_index env s found)⟩
            (target_index env s found)
            (pll_changing (target_index env s found) (s5pv210_getspeed env s.hw 0)) s.hw.regs ++
          downs ∧
        (∀ ev ∈ ups, ∃ rg x y ret, ev = Event.regulator_set_voltage rg x y ret) ∧
        (∀ ev ∈ downs, ∃ rg x y ret, ev = Event.regulator_set_voltage rg x y ret) := by
  generalize hidx : target_index env s found = idx at hne hup ⊢
  generalize harm : (s.dvs_conf.getD idx ⟨0, 0⟩).arm_volt = arm at hup ⊢
  generalize hint : (s.dvs_conf.getD idx ⟨0, 0⟩).int_volt = int at hup ⊢
  obtain ⟨n0, h1, hconv⟩ := target_clock_converges env
    { target_resolved env s idx with hw := (target_voltage_up env (target_resolved env s idx)
        arm int).2 } idx (target_voltage_up env (target_resolved env s idx) arm int).2 hack
  obtain ⟨hregs, heff⟩ := target_clock_spec _ _ _ _ _ _ (hconv n0 (le_refl _))
  obtain ⟨ups, hups, hups_reg⟩ := voltage_up_trace env (target_resolved env s idx) arm int
  obtain ⟨downs, hdowns, hdowns_reg⟩ := voltage_down_trace env
    { target_resolved env s idx with hw := h1 } arm int
  refine ⟨n0, target_voltage_down env { target_resolved env s idx with hw := h1 } arm int,
    fun fuel hfuel => ?_, ?_, ups, downs, ?_, hups_reg, hdowns_reg⟩
  · have hc := hconv fuel hfuel
    dsimp only at hc
    rw [transition_change env fuel s _ _ found hlook (by rw [hidx]; exact hne)]
    dsimp only
    rw [hidx, harm, hint, hup, if_neg (by simp), hc]
    rfl
  · rw [voltage_down_regs, hregs, voltage_up_regs]
    rfl
  · rw [hdowns, effects_append, effects_regulator_calls downs hdowns_reg]
    show effects h1.trace ++ downs = _
    rw [heff, hups, effects_append, effects_regulator_calls ups hups_reg, voltage_up_regs]
    rfl


/-- C5: on a scale-up request that passes the gate, with both regulators
present, when the ARM-rail call returns the non-zero code `e`, or the ARM-rail
call returns 0 and the internal-rail call returns the non-zero code `e`,
`s5pv210_target` returns exactly `e` for every fuel; the registers are
unchanged, the only events added to the history are regulator calls (no
register write, no notification), and the frequency read back is the old
one. -/
theorem C5_scale_up_regulator_failure (env : Env) (fuel : Nat) (s : State)
    (target_freq relation : Nat) (found : Fin 5) (e : Int)
    (hgate : passes_gate s relation)
    (hlook : env.cpufreq_frequency_table_target target_freq (stripped relation) = some found)
    (hup : freq_table_frequency (target_index env s found) > s5pv210_getspeed env s.hw 0)
    (harm : IS_ERR_OR_NULL s.arm_regulator = false)
    (hint : IS_ERR_OR_NULL s.internal_regulator = false)
    (he : e ≠ 0)
    (hfail :
      env.regulator_set_voltage s.hw.trace Regulator.arm_regulator
        (s.dvs_conf.getD (target_index env s found) ⟨0, 0⟩).arm_volt arm_volt_max = e ∨
      (env.regulator_set_voltage s.hw.trace Regulator.arm_regulator
        (s.dvs_conf.getD (target_index env s found) ⟨0, 0⟩).arm_volt arm_volt_max = 0 ∧
       env.regulator_set_voltage
        (s.hw.trace ++ [Event.regulator_set_voltage Regulator.arm_regulator
          (s.dvs_conf.getD (target_index env s found) ⟨0, 0⟩).arm_volt arm_volt_max 0])
        Regulator.internal_regulator
        (s.dvs_conf.getD (target_index env s found) ⟨0, 0⟩).int_volt int_volt_max = e)) :
    ∃ s1, s5pv210_target env fuel s target_freq relation = some (e, s1) ∧
      s1.hw.regs = s.hw.regs ∧
      (∃ calls, s1.hw.trace = s.hw.trace ++ calls ∧
        ∀ ev ∈ calls, ∃ rg x y ret, ev = Event.regulator_set_voltage rg x y ret) ∧
      s5pv210_getspeed env s1.hw 0 = s5pv210_getspeed env s.hw 0 := by
  have hret : (target_voltage_up env
      (target_resolved env (target_admitted s relation) (target_index env s found))
      (s.dvs_conf.getD (target_index env s found) ⟨0, 0⟩).arm_volt
      (s.dvs_conf.getD (target_index env s found) ⟨0, 0⟩).int_volt).1 = e := by
    rw [voltage_up_ret env
      (target_resolved env (target_admitted s relation) (target_index env s found)) _ _
      hup harm hint]
    simp only [resolved_hw, admitted_hw]
    rcases hfail with h1 | ⟨h1, h2⟩
    · rw [h1, if_pos he]
    · rw [h1, if_neg (by simp)]
      exact h2
  rw [target_admitted_eq env fuel s _ _ hgate,
    transition_change env fuel (target_admitted s relation) _ _ found hlook (ne_of_gt hup)]
  simp only [admitted_index, admitted_dvs_conf, hret, ne_eq, he, not_false_eq_true, if_true]
  refine ⟨_, rfl, ?_, ?_, ?_⟩
  · exact voltage_up_regs env _ _ _
  · exact voltage_up_trace env _ _ _
  · unfold s5pv210_getspeed
    simp only [voltage_up_regs, resolved_hw, admitted_hw]

theorem C5_scale_up_regulator_failure_witness :
    passes_gate (state_at L1 false) 0 ∧
    wave_env_int_fails.cpufreq_frequency_table_target 1000000 (stripped 0) = some 1 ∧
    freq_table_frequency (target_index wave_env_int_fails (state_at L1 false) 1) >
      s5pv210_getspeed wave_env_int_fails (state_at L1 false).hw 0 ∧
    IS_ERR_OR_NULL (state_at L1 false).arm_regulator = false ∧
    IS_ERR_OR_NULL (state_at L1 false).internal_regulator = false ∧
    -EINVAL ≠ 0 ∧
    ∃ s1, s5pv210_target wave_env_int_fails 1 (state_at L1 false) 1000000 0 =
        some (-EINVAL, s1) ∧
      s1.hw.regs = (state_at L1 false).hw.regs ∧
      (∃ calls, s1.hw.trace = (state_at L1 false).hw.trace ++ calls ∧
        ∀ ev ∈ calls, ∃ rg x y ret, ev = Event.regulator_set_voltage rg x y ret) ∧
      s5pv210_getspeed wave_env_int_fails s1.hw 0 =
        s5pv210_getspeed wave_env_int_fails (state_at L1 false).hw 0 :=
  ⟨by decide, by decide, by decide, by decide, by decide, by decide,
    C5_scale_up_regulator_failure wave_env_int_fails 1 (state_at L1 false) 1000000 0 1 (-EINVAL)
      (by decide) (by decide) (by decide) (by decide) (by decide) (by decide)
      (Or.inr ⟨by decide, by decide⟩)⟩

/-- C6: on a scale-down request that passes the gate, when the hardware
acknowledges the busy-polls, `s5pv210_target` returns 0 for every large enough
fuel whatever the regulator calls return; at the return the clock sequence to
the new level is complete: the registers are those the sequence leaves,
`S5P_CLK_DIV0` holds the divider row of the new level, and the post-change
notification for the new frequency is in the history. -/
theorem C6_scale_down_returns_zero (env : Env) (s : State) (target_freq relation : Nat)
    (found : Fin 5) (hack : hw_acknowledges env)
    (hgate : passes_gate s relation)
    (hlook : env.cpufreq_frequency_table_target target_freq (stripped relation) = some found)
    (hdown : freq_table_frequency (target_index env s found) < s5pv210_getspeed env s.hw 0) :
    ∃ n0 s1,
      (∀ fuel, n0 ≤ fuel → s5pv210_target env fuel s target_freq relation = some (0, s1)) ∧
      s1.hw.regs = clock_regs env s.s5pv210_dram_conf (target_index env s found)
        (pll_changing (target_index env s found) (s5pv210_getspeed env s.hw 0)) s.hw.regs ∧
      s1.hw.regs.CLK_DIV0 = rmw (clkdiv0_mask env)
        (clkdiv0_val env (target_index env s found)) s.hw.regs.CLK_DIV0 ∧
      s1.freqs.new = freq_table_frequency (target_index env s found) ∧
      Event.cpufreq_notify_transition (s5pv210_getspeed env s.hw 0)
        (freq_table_frequency (target_index env s found)) Phase.CPUFREQ_POSTCHANGE ∈
          s1.hw.trace := by
  have hup : (target_voltage_up env
      (target_resolved env (target_admitted s relation)
        (target_index env (target_admitted s relation) found))
      ((target_admitted s relation).dvs_conf.getD
        (target_index env (target_admitted s relation) found) ⟨0, 0⟩).arm_volt
      ((target_admitted s relation).dvs_conf.getD
        (target_index env (target_admitted s relation) found) ⟨0, 0⟩).int_volt).1 = 0 := by
    rw [voltage_up_not_faster]
    exact not_lt_of_gt hdown
  obtain ⟨n0, h, hrun, hregs, ups, downs, heff, -, -⟩ :=
    transition_completes env (target_admitted s relation) target_freq (stripped relation) found
      hack hlook (ne_of_lt hdown) hup
  refine ⟨n0, { target_resolved env (target_admitted s relation)
    (target_index env (target_admitted s relation) found) with hw := h },
    fun fuel hfuel => ?_, hregs, ?_, rfl, ?_⟩
  · rw [target_admitted_eq env fuel s _ _ hgate]
    exact hrun fuel hfuel
  · show h.regs.CLK_DIV0 = _
    rw [hregs]
    unfold clock_regs
    split_ifs <;> rfl
  · apply mem_of_mem_effects
    show _ ∈ effects h.trace
    rw [heff]
    simp only [admitted_hw, admitted_index, clock_effects, List.mem_append, List.mem_singleton,
      or_true, true_or]

theorem C6_scale_down_returns_zero_witness :
    hw_acknowledges wave_env_regulators_fail ∧
    passes_gate (state_at L0 false) 0 ∧
    wave_env_regulators_fail.cpufreq_frequency_table_target 800000 (stripped 0) = some 2 ∧
    freq_table_frequency (target_index wave_env_regulators_fail (state_at L0 false) 2) <
      s5pv210_getspeed wave_env_regulators_fail (state_at L0 false).hw 0 ∧
    ∃ n0 s1,
      (∀ fuel, n0 ≤ fuel →
        s5pv210_target wave_env_regulators_fail fuel (state_at L0 false) 800000 0 =
          some (0, s1)) ∧
      s1.hw.regs = clock_regs wave_env_regulators_fail (state_at L0 false).s5pv210_dram_conf
        (target_index wave_env_regulators_fail (state_at L0 false) 2)
        (pll_changing (target_index wave_env_regulators_fail (state_at L0 false) 2)
          (s5pv210_getspeed wave_env_regulators_fail (state_at L0 false).hw 0))
        (state_at L0 false).hw.regs ∧
      s1.hw.regs.CLK_DIV0 = rmw (clkdiv0_mask wave_env_regulators_fail)
        (clkdiv0_val wave_env_regulators_fail
          (target_index wave_env_regulators_fail (state_at L0 false) 2))
        (state_at L0 false).hw.regs.CLK_DIV0 ∧
      s1.freqs.new =
        freq_table_frequency (target_index wave_env_regulators_fail (state_at L0 false) 2) ∧
      Event.cpufreq_notify_transition
        (s5pv210_getspeed wave_env_regulators_fail (state_at L0 false).hw 0)
        (freq_table_frequency (target_index wave_env_regulators_fail (state_at L0 false) 2))
        Phase.CPUFREQ_POSTCHANGE ∈ s1.hw.trace :=
  ⟨acknowledges_of_readl _ rfl, by decide, by decide, by decide,
    C6_scale_down_returns_zero wave_env_regulators_fail (state_at L0 false) 800000 0 2
      (acknowledges_of_readl _ rfl) (by decide) (by decide) (by decide)⟩


/-! ## Words and fields -/

theorem testBit_not32 (x i : Nat) :
    (not32 x).testBit i = (decide (i < 32) && !x.testBit i) := by
  unfold not32
  have h : (0xFFFFFFFF : Nat) = 2 ^ 32 - 1 := by norm_num
  have h2 : (4294967296 : Nat) = 2 ^ 32 := by norm_num
  rw [h, h2, Nat.testBit_xor, Nat.testBit_two_pow_sub_one, Nat.testBit_mod_two_pow]
  by_cases hi : i < 32 <;> simp [hi]

theorem testBit_mod32 (x i : Nat) :
    (x % 4294967296).testBit i = (decide (i < 32) && x.testBit i) := by
  have h2 : (4294967296 : Nat) = 2 ^ 32 := by norm_num
  rw [h2, Nat.testBit_mod_two_pow]

theorem testBit_of_lt32 {x : Nat} (h : x < 4294967296) (i : Nat) :
    x.testBit i = (decide (i < 32) && x.testBit i) := by
  rw [← testBit_mod32, Nat.mod_eq_of_lt h]

theorem rmw_lt (mask val x : Nat) : rmw mask val x < 4294967296 :=
  Nat.mod_lt _ (by norm_num)

/-- After a read-modify-write the field holds the value written. -/
theorem rmw_and_mask (x m v : Nat) (hv : v &&& m = v) (hlt : v < 4294967296) :
    rmw m v x &&& m = v := by
  unfold rmw
  apply Nat.eq_of_testBit_eq
  intro i
  have h1 := congrArg (fun n => Nat.testBit n i) hv
  have h2 := testBit_of_lt32 hlt i
  simp only [Nat.testBit_and, Nat.testBit_or, testBit_mod32, testBit_not32] at h1 h2 ⊢
  revert h1 h2
  cases x.testBit i <;> cases m.testBit i <;> cases v.testBit i <;>
    cases decide (i < 32) <;> simp

/-- A read-modify-write keeps the bits outside the mask. -/
theorem rmw_keep (x m v : Nat) (hv : v &&& m = v) :
    rmw m v x &&& not32 m = x &&& not32 m := by
  unfold rmw
  apply Nat.eq_of_testBit_eq
  intro i
  have h1 := congrArg (fun n => Nat.testBit n i) hv
  simp only [Nat.testBit_and, Nat.testBit_or, testBit_mod32, testBit_not32] at h1 ⊢
  revert h1
  cases x.testBit i <;> cases m.testBit i <;> cases v.testBit i <;>
    cases decide (i < 32) <;> simp

/-- Writing back the field a 32-bit word held, into a word that differs from
it only inside the mask, restores the word. -/
theorem rmw_restore (x y m v : Nat) (hx : x < 4294967296) (hxv : x &&& m = v)
    (hy : y &&& not32 m = x &&& not32 m) : rmw m v y = x := by
  unfold rmw
  rw [hy, ← hxv]
  apply Nat.eq_of_testBit_eq
  intro i
  have h2 := testBit_of_lt32 hx i
  simp only [Nat.testBit_and, Nat.testBit_or, testBit_mod32, testBit_not32] at h2 ⊢
  revert h2
  cases x.testBit i <;> cases m.testBit i <;> cases decide (i < 32) <;> simp

theorem and_submask (x m M : Nat) (h : m &&& M = m) : x &&& m = (x &&& M) &&& m := by
  apply Nat.eq_of_testBit_eq
  intro i
  have h1 := congrArg (fun n => Nat.testBit n i) h
  simp only [Nat.testBit_and] at h1 ⊢
  revert h1
  cases x.testBit i <;> cases m.testBit i <;> cases M.testBit i <;> simp

theorem shl32_lt (x n : Nat) : shl32 x n < 4294967296 :=
  Nat.mod_lt _ (by norm_num)

theorem or_lt32 {a b : Nat} (ha : a < 4294967296) (hb : b < 4294967296) :
    a ||| b < 4294967296 := by
  have h2 : (4294967296 : Nat) = 2 ^ 32 := by norm_num
  rw [h2] at ha hb ⊢
  exact Nat.or_lt_two_pow ha hb

theorem clkdiv0_val_lt (env : Env) (i : Nat) : clkdiv0_val env i < 4294967296 := by
  unfold clkdiv0_val
  repeat first | exact shl32_lt _ _ | apply or_lt32

theorem clkdiv2_val_lt (env : Env) (i : Nat) : clkdiv2_val env i < 4294967296 := by
  unfold clkdiv2_val
  repeat first | exact shl32_lt _ _ | apply or_lt32

/-! ## Levels -/

theorem target_index_le (env : Env) (s : State) (found : Fin 5) :
    target_index env s found ≤ found.val := by
  unfold target_index target_dvfs_limit
  split_ifs <;> omega

theorem target_index_lt (env : Env) (s : State) (found : Fin 5) :
    target_index env s found < 5 :=
  lt_of_le_of_lt (target_index_le env s found) found.isLt

theorem freq_table_injective (i k : Nat) (hi : i < 5) (hk : k < 5)
    (h : freq_table_frequency i = freq_table_frequency k) : i = k := by
  interval_cases i <;> interval_cases k <;> first | rfl | (exact absurd h (by decide))

theorem clkdiv2_val_const (env : Env) (i k : Nat) (hi : i < 5) (hk : k < 5) :
    clkdiv2_val env i = clkdiv2_val env k := by
  interval_cases i <;> interval_cases k <;> rfl

theorem pll_changing_false (i k : Nat) (hk : k < 5)
    (h : pll_changing i (freq_table_frequency k) = false) : L1 ≤ i ∧ L1 ≤ k := by
  unfold pll_changing at h
  simp only [Bool.or_eq_false_iff, decide_eq_false_iff_not, not_le, ge_iff_le] at h
  obtain ⟨h1, h2⟩ := h
  refine ⟨h1, ?_⟩
  interval_cases k
  · exact absurd h2 (by decide)
  · exact absurd h2 (by decide)
  all_goals decide

theorem apll_val_slow (i : Nat) (h : L1 ≤ i) : apll_val i = APLL_VAL_800 := by
  unfold apll_val
  have h0 : i ≠ OC1 := by unfold L1 at h; unfold OC1; omega
  have h1 : i ≠ L0 := by unfold L1 at h; unfold L0; omega
  rw [if_neg h0, if_neg h1]

/-- The registers of level `k` read back the frequency of level `k`. -/
theorem holds_level_rate (env : Env) (hlay : clock_layout_ok env) (k : Nat) (hk : k < 5)
    (regs : Regs) (h : holds_level env k regs) :
    armclk_get_rate env regs = freq_table_frequency k * 1000 := by
  obtain ⟨h0, -, hpll⟩ := h
  obtain ⟨-, -, -, hsub, hfield⟩ := hlay
  unfold armclk_get_rate
  rw [and_submask regs.CLK_DIV0 _ _ hsub, h0, hfield k hk, hpll]
  interval_cases k <;> decide

/-- The clock sequence to level `i`, begun at level `k`, leaves the registers
of level `i`. -/
theorem clock_regs_holds_level (env : Env) (hlay : clock_layout_ok env)
    (conf : List dram_conf) (i k : Nat) (hi : i < 5) (hk : k < 5) (regs : Regs)
    (h : holds_level env k regs) :
    holds_level env i (clock_regs env conf i (pll_changing i (freq_table_frequency k)) regs) := by
  obtain ⟨h0, h2, hpll⟩ := h
  obtain ⟨hf0, hf2, -, -, -⟩ := hlay
  cases hp : pll_changing i (freq_table_frequency k)
  · obtain ⟨hil, hkl⟩ := pll_changing_false i k hk hp
    refine ⟨?_, ?_, ?_⟩
    · exact rmw_and_mask _ _ _ (hf0 i hi) (clkdiv0_val_lt env i)
    · show regs.CLK_DIV2 &&& clkdiv2_mask env = clkdiv2_val env i
      rw [h2, clkdiv2_val_const env k i hk hi]
    · show regs.APLL_CON = apll_val i
      rw [hpll, apll_val_slow i hil, apll_val_slow k hkl]
  · refine ⟨?_, ?_, rfl⟩
    · exact rmw_and_mask _ _ _ (hf0 i hi) (clkdiv0_val_lt env i)
    · exact rmw_and_mask _ _ _ (hf2 i hi) (clkdiv2_val_lt env i)


/-! ## DVFS high-level lock -/

theorem transition_freqs (env : Env) (fuel : Nat) (s s1 : State) (target_freq relation : Nat)
    (found : Fin 5) (ret : Int)
    (hlook : env.cpufreq_frequency_table_target target_freq relation = some found)
    (hret : target_transition env fuel s target_freq relation = some (ret, s1)) :
    s1.freqs = ⟨0, s5pv210_getspeed env s.hw 0, freq_table_frequency (target_index env s found)⟩ := by
  by_cases hsame : freq_table_frequency (target_index env s found) = s5pv210_getspeed env s.hw 0
  · rw [transition_same_freq env fuel s _ _ found hlook hsame] at hret
    cases hret
    rfl
  · rw [transition_change env fuel s _ _ found hlook hsame] at hret
    simp only at hret
    split_ifs at hret
    · cases hret
      rfl
    · rw [Option.map_eq_some'] at hret
      obtain ⟨h, -, hh⟩ := hret
      cases hh
      rfl

theorem lock_token0 (s0 : State) (perf_level : Nat) (htok : s0.g_dvfs_high_lock_token = 0)
    (hlevel : perf_level ≤ MAX_PERF_LEVEL - 1) :
    (s5pv210_lock_dvfs_high_level 0 perf_level s0).g_dvfs_high_lock_token = 1 ∧
    (s5pv210_lock_dvfs_high_level 0 perf_level s0).g_dvfs_high_lock_limit =
      min perf_level s0.g_dvfs_high_lock_limit := by
  have h1 : ¬ (perf_level > MAX_PERF_LEVEL - 1) := not_lt.mpr hlevel
  have h2 : shl32 1 0 = 1 := by decide
  unfold s5pv210_lock_dvfs_high_level
  simp only [htok, h2, Nat.zero_and, ne_eq, not_true_eq_false, if_false, h1, Nat.zero_or]
  split_ifs with h3
  · exact ⟨rfl, (min_eq_left (le_of_lt h3)).symm⟩
  · exact ⟨rfl, (min_eq_right (not_lt.mp h3)).symm⟩

theorem freq_table_antitone (i k : Nat) (hk : k < 5) (h : i ≤ k) :
    freq_table_frequency k ≤ freq_table_frequency i := by
  interval_cases k <;> interval_cases i <;> decide

/-- C7 as stated fails: after `s5pv210_lock_dvfs_high_level(0, L2)` with no
token held before, a request for 1200000 kHz resolves in the table search to
OC1, a level faster than L2, and `s5pv210_target` uses OC1: it returns 0 with
`freqs.new` = 1200000 and the frequency read back is 1200000 kHz; the final
index 0 is not `>= L2`. -/
theorem C7_ceiling_counterexample :
    wave_env.CONFIG_DVFS_LIMIT = true ∧
    (state_at L1 false).g_dvfs_high_lock_token = 0 ∧
    wave_env.cpufreq_frequency_table_target 1200000 (stripped 0) = some 0 ∧
    ((0 : Fin 5).val < L2) ∧
    ¬ (L2 ≤ target_index wave_env (s5pv210_lock_dvfs_high_level 0 L2 (state_at L1 false)) 0) ∧
    (s5pv210_target wave_env 1 (s5pv210_lock_dvfs_high_level 0 L2 (state_at L1 false))
        1200000 0).map (fun p => (p.1, p.2.freqs.new, s5pv210_getspeed wave_env p.2.hw 0)) =
      some (0, freq_table_frequency OC1, 1200000) := by
  decide

/-- C7 amended: in the `CONFIG_DVFS_LIMIT` build, after
`s5pv210_lock_dvfs_high_level(0, L2)` with no token held before, the level a
request uses is L2 or faster (final index `<= L2`) and never slower than the
level the table search found; when the limit before the lock was L2 or slower,
a search result of L2 or faster is used unchanged and a slower one is raised
to L2.  Whenever a request that passes the gate returns, `freqs.new` is the
frequency of that level, at least the 400000 kHz of L2. -/
theorem C7_high_lock_is_floor (env : Env) (s0 : State) (found : Fin 5)
    (hcfg : env.CONFIG_DVFS_LIMIT = true) (htok : s0.g_dvfs_high_lock_token = 0) :
    target_index env (s5pv210_lock_dvfs_high_level 0 L2 s0) found ≤ L2 ∧
    target_index env (s5pv210_lock_dvfs_high_level 0 L2 s0) found ≤ found.val ∧
    (L2 ≤ s0.g_dvfs_high_lock_limit →
      target_index env (s5pv210_lock_dvfs_high_level 0 L2 s0) found = min found.val L2) ∧
    (∀ fuel target_freq relation ret s1,
      passes_gate (s5pv210_lock_dvfs_high_level 0 L2 s0) relation →
      env.cpufreq_frequency_table_target target_freq (stripped relation) = some found →
      s5pv210_target env fuel (s5pv210_lock_dvfs_high_level 0 L2 s0) target_freq relation =
        some (ret, s1) →
      s1.freqs.new = freq_table_frequency
          (target_index env (s5pv210_lock_dvfs_high_level 0 L2 s0) found) ∧
        freq_table_frequency L2 ≤ s1.freqs.new) := by
  obtain ⟨ht, hl⟩ := lock_token0 s0 L2 htok (by decide)
  have hidx : target_index env (s5pv210_lock_dvfs_high_level 0 L2 s0) found =
      min found.val (min L2 s0.g_dvfs_high_lock_limit) := by
    unfold target_index target_dvfs_limit
    rw [ht, hl]
    simp only [hcfg, if_true, ne_eq, one_ne_zero, not_false_eq_true]
    split_ifs with h
    · exact (min_eq_right (le_of_lt h)).symm
    · exact (min_eq_left (not_lt.mp h)).symm
  have hle : target_index env (s5pv210_lock_dvfs_high_level 0 L2 s0) found ≤ L2 := by
    rw [hidx]
    exact le_trans (min_le_right _ _) (min_le_left _ _)
  refine ⟨hle, target_index_le _ _ _, fun h => ?_, ?_⟩
  · rw [hidx, min_eq_left h]
  · intro fuel target_freq relation ret s1 hgate hlook hret
    rw [target_admitted_eq env fuel _ _ _ hgate] at hret
    have hf := transition_freqs env fuel _ s1 _ _ found ret hlook hret
    have hnew : s1.freqs.new = freq_table_frequency
        (target_index env (s5pv210_lock_dvfs_high_level 0 L2 s0) found) := by
      rw [hf]
      rfl
    refine ⟨hnew, ?_⟩
    rw [hnew]
    exact freq_table_antitone _ L2 (by decide) hle

theorem C7_high_lock_is_floor_witness :
    wave_env.CONFIG_DVFS_LIMIT = true ∧
    (state_at L1 false).g_dvfs_high_lock_token = 0 ∧
    (target_index wave_env (s5pv210_lock_dvfs_high_level 0 L2 (state_at L1 false)) 4 ≤ L2 ∧
    target_index wave_env (s5pv210_lock_dvfs_high_level 0 L2 (state_at L1 false)) 4 ≤
      (4 : Fin 5).val ∧
    (L2 ≤ (state_at L1 false).g_dvfs_high_lock_limit →
      target_index wave_env (s5pv210_lock_dvfs_high_level 0 L2 (state_at L1 false)) 4 =
        min (4 : Fin 5).val L2) ∧
    (∀ fuel target_freq relation ret s1,
      passes_gate (s5pv210_lock_dvfs_high_level 0 L2 (state_at L1 false)) relation →
      wave_env.cpufreq_frequency_table_target target_freq (stripped relation) = some 4 →
      s5pv210_target wave_env fuel (s5pv210_lock_dvfs_high_level 0 L2 (state_at L1 false))
        target_freq relation = some (ret, s1) →
      s1.freqs.new = freq_table_frequency
          (target_index wave_env (s5pv210_lock_dvfs_high_level 0 L2 (state_at L1 false)) 4) ∧
        freq_table_frequency L2 ≤ s1.freqs.new)) :=
  ⟨by decide, by decide,
    C7_high_lock_is_floor wave_env (state_at L1 false) 4 (by decide) (by decide)⟩


/-! ## Transitions between levels -/

theorem voltage_up_ok (env : Env) (s : State) (a b : Nat)
    (hreg : ∀ tr rg x y, env.regulator_set_voltage tr rg x y = 0) :
    (target_voltage_up env s a b).1 = 0 := by
  unfold target_voltage_up regulator_call
  simp only [hreg]
  split_ifs <;> rfl

theorem getspeed_of_holds_level (env : Env) (hlay : clock_layout_ok env)
    (hrate : env.clk_get_rate Clk.cpu_clk = armclk_get_rate env) (k : Nat) (hk : k < 5)
    (h : Hw) (hholds : holds_level env k h.regs) :
    s5pv210_getspeed env h 0 = freq_table_frequency k := by
  unfold s5pv210_getspeed
  rw [if_neg (by simp), hrate, holds_level_rate env hlay k hk _ hholds]
  exact Nat.mul_div_cancel _ (by norm_num)

/-- From the registers of level `k`, a request that passes the gate and
resolves to another level completes when the regulators succeed and the
hardware acknowledges: it returns 0 for every large enough fuel and leaves the
registers of the level it resolved to, which read back its frequency. -/
theorem target_reaches_level (env : Env) (s : State) (target_freq relation : Nat)
    (found : Fin 5) (k : Nat)
    (hlay : clock_layout_ok env)
    (hrate : env.clk_get_rate Clk.cpu_clk = armclk_get_rate env)
    (hack : hw_acknowledges env)
    (hreg : ∀ tr rg x y, env.regulator_set_voltage tr rg x y = 0)
    (hgate : passes_gate s relation)
    (hlook : env.cpufreq_frequency_table_target target_freq (stripped relation) = some found)
    (hk : k < 5) (hholds : holds_level env k s.hw.regs)
    (hne : target_index env s found ≠ k) :
    ∃ n0 h,
      (∀ fuel, n0 ≤ fuel → s5pv210_target env fuel s target_freq relation =
        some (0, { target_resolved env (target_admitted s relation) (target_index env s found)
          with hw := h })) ∧
      h.regs = clock_regs env s.s5pv210_dram_conf (target_index env s found)
        (pll_changing (target_index env s found) (freq_table_frequency k)) s.hw.regs ∧
      holds_level env (target_index env s found) h.regs ∧
      s5pv210_getspeed env h 0 = freq_table_frequency (target_index env s found) := by
  have hold : s5pv210_getspeed env s.hw 0 = freq_table_frequency k :=
    getspeed_of_holds_level env hlay hrate k hk s.hw hholds
  have hi := target_index_lt env s found
  have hnef : freq_table_frequency (target_index env s found) ≠ s5pv210_getspeed env s.hw 0 := by
    rw [hold]
    exact fun h => hne (freq_table_injective _ _ hi hk h)
  obtain ⟨n0, h, hrun, hregs, -⟩ :=
    transition_completes env (target_admitted s relation) target_freq (stripped relation) found
      hack hlook hnef (voltage_up_ok env _ _ _ hreg)
  simp only [admitted_hw, admitted_index, admitted_dram_conf, hold] at hregs
  have hlevel : holds_level env (target_index env s found) h.regs := by
    rw [hregs]
    exact clock_regs_holds_level env hlay _ _ k hi hk _ hholds
  refine ⟨n0, h, fun fuel hfuel => ?_, hregs, hlevel, ?_⟩
  · rw [target_admitted_eq env fuel s _ _ hgate]
    exact hrun fuel hfuel
  · exact getspeed_of_holds_level env hlay hrate _ hi h hlevel

theorem pll_changing_symm (a b : Nat) (ha : a < 5) (hb : b < 5) :
    pll_changing a (freq_table_frequency b) = pll_changing b (freq_table_frequency a) := by
  interval_cases a <;> interval_cases b <;> rfl

/-- The clock sequence to `b` followed by the clock sequence back to `a`
restores the divider registers and the PLL word of level `a`. -/
theorem clock_regs_round_trip (env : Env) (hlay : clock_layout_ok env)
    (conf : List dram_conf) (a b : Nat) (ha : a < 5) (hb : b < 5) (regs : Regs)
    (hwords : dividers_32bit regs) (hholds : holds_level env a regs) :
    (clock_regs env conf a (pll_changing a (freq_table_frequency b))
      (clock_regs env conf b (pll_changing b (freq_table_frequency a)) regs)).CLK_DIV0 =
        regs.CLK_DIV0 ∧
    (clock_regs env conf a (pll_changing a (freq_table_frequency b))
      (clock_regs env conf b (pll_changing b (freq_table_frequency a)) regs)).CLK_DIV2 =
        regs.CLK_DIV2 ∧
    (clock_regs env conf a (pll_changing a (freq_table_frequency b))
      (clock_regs env conf b (pll_changing b (freq_table_frequency a)) regs)).APLL_CON =
        regs.APLL_CON := by
  obtain ⟨h0, h2, hpll⟩ := hholds
  obtain ⟨hf0, hf2, htmp, -, -⟩ := hlay
  obtain ⟨hw0, hw2⟩ := hwords
  rw [pll_changing_symm a b ha hb]
  have hdiv0 : rmw (clkdiv0_mask env) (clkdiv0_val env a)
      (rmw (clkdiv0_mask env) (clkdiv0_val env b) regs.CLK_DIV0) = regs.CLK_DIV0 :=
    rmw_restore _ _ _ _ hw0 h0 (rmw_keep _ _ _ (hf0 b hb))
  cases hp : pll_changing b (freq_table_frequency a)
  · exact ⟨hdiv0, rfl, rfl⟩
  · refine ⟨hdiv0, ?_, hpll.symm⟩
    refine rmw_restore _ _ _ _ hw2 h2 ?_
    rw [rmw_keep _ _ _ htmp]
    show rmw (clkdiv2_mask env) (clkdiv2_val env b)
      (rmw (clkdiv2_mask env) (clkdiv2_tmp env) regs.CLK_DIV2) &&& not32 (clkdiv2_mask env) = _
    rw [rmw_keep _ _ _ (hf2 b hb), rmw_keep _ _ _ htmp]


/-- C8: round trip. From a state with the gate OPEN whose registers hold the
configuration of level `a` (32-bit words in the two divider registers), with
the regulators succeeding and the hardware acknowledging every busy-poll, a
request that resolves to another level `b` followed by a request that resolves
back to `a` both return 0 for every large enough fuel, and afterwards
`S5P_CLK_DIV0`, `S5P_CLK_DIV2` and `S5P_APLL_CON` are identical to their values
before the first request.  This holds for every pair of distinct levels, in
particular for adjacent ones.  The level a request resolves to is the result
of the table search after the DVFS clamp. -/
theorem C8_round_trip_restores_registers (env : Env) (s : State)
    (f1 r1 f2 r2 : Nat) (found1 found2 : Fin 5) (a b : Nat)
    (hlay : clock_layout_ok env)
    (hrate : env.clk_get_rate Clk.cpu_clk = armclk_get_rate env)
    (hack : hw_acknowledges env)
    (hreg : ∀ tr rg x y, env.regulator_set_voltage tr rg x y = 0)
    (hopen : s.no_cpufreq_access = false)
    (hflags : r1 &&& DISABLE_FURTHER_CPUFREQ = 0 ∨ r2 &&& ENABLE_FURTHER_CPUFREQ ≠ 0)
    (ha : a < 5) (hab : a ≠ b)
    (hwords : dividers_32bit s.hw.regs) (hholds : holds_level env a s.hw.regs)
    (hlook1 : env.cpufreq_frequency_table_target f1 (stripped r1) = some found1)
    (hb : target_index env s found1 = b)
    (hlook2 : env.cpufreq_frequency_table_target f2 (stripped r2) = some found2)
    (ha2 : target_index env s found2 = a) :
    ∃ n0 s1 s2,
      (∀ fuel, n0 ≤ fuel →
        s5pv210_target env fuel s f1 r1 = some (0, s1) ∧
        s5pv210_target env fuel s1 f2 r2 = some (0, s2)) ∧
      s2.hw.regs.CLK_DIV0 = s.hw.regs.CLK_DIV0 ∧
      s2.hw.regs.CLK_DIV2 = s.hw.regs.CLK_DIV2 ∧
      s2.hw.regs.APLL_CON = s.hw.regs.APLL_CON := by
  have hblt : b < 5 := hb ▸ target_index_lt env s found1
  obtain ⟨n1, h1, hrun1, hregs1, hlevel1, -⟩ :=
    target_reaches_level env s f1 r1 found1 a hlay hrate hack hreg (Or.inr hopen) hlook1 ha
      hholds (by rw [hb]; exact fun h => hab h.symm)
  rw [hb] at hrun1 hregs1 hlevel1
  have hgate2 : passes_gate
      ({ target_resolved env (target_admitted s r1) b with hw := h1 } : State) r2 := by
    rcases hflags with hd | he
    · by_cases he : r2 &&& ENABLE_FURTHER_CPUFREQ = 0
      · right
        show (target_admitted s r1).no_cpufreq_access = false
        unfold target_admitted
        simp [hd, hopen]
      · exact Or.inl he
    · exact Or.inl he
  obtain ⟨n2, h2, hrun2, hregs2, -, -⟩ :=
    target_reaches_level env { target_resolved env (target_admitted s r1) b with hw := h1 }
      f2 r2 found2 b hlay hrate hack hreg hgate2 hlook2 hblt hlevel1
      (by
        show target_index env s found2 ≠ b
        rw [ha2]
        exact hab)
  have hidx2 : target_index env
      ({ target_resolved env (target_admitted s r1) b with hw := h1 } : State) found2 = a := ha2
  rw [hidx2] at hrun2 hregs2
  have hround := clock_regs_round_trip env hlay s.s5pv210_dram_conf a b ha hblt s.hw.regs
    hwords hholds
  refine ⟨max n1 n2, _, _, fun fuel hfuel => ⟨hrun1 fuel (le_trans (le_max_left _ _) hfuel),
    hrun2 fuel (le_trans (le_max_right _ _) hfuel)⟩, ?_, ?_, ?_⟩
  · show h2.regs.CLK_DIV0 = _
    rw [hregs2]
    show (clock_regs env s.s5pv210_dram_conf a _ h1.regs).CLK_DIV0 = _
    rw [hregs1]
    exact hround.1
  · show h2.regs.CLK_DIV2 = _
    rw [hregs2]
    show (clock_regs env s.s5pv210_dram_conf a _ h1.regs).CLK_DIV2 = _
    rw [hregs1]
    exact hround.2.1
  · show h2.regs.APLL_CON = _
    rw [hregs2]
    show (clock_regs env s.s5pv210_dram_conf a _ h1.regs).APLL_CON = _
    rw [hregs1]
    exact hround.2.2

theorem C8_round_trip_restores_registers_witness :
    clock_layout_ok wave_env ∧
    wave_env.clk_get_rate Clk.cpu_clk = armclk_get_rate wave_env ∧
    hw_acknowledges wave_env ∧
    (∀ tr rg x y, wave_env.regulator_set_voltage tr rg x y = 0) ∧
    (state_at L0 false).no_cpufreq_access = false ∧
    dividers_32bit (state_at L0 false).hw.regs ∧
    holds_level wave_env L0 (state_at L0 false).hw.regs ∧
    wave_env.cpufreq_frequency_table_target 1200000 (stripped 0) = some 0 ∧
    target_index wave_env (state_at L0 false) 0 = OC1 ∧
    wave_env.cpufreq_frequency_table_target 1000000 (stripped 0) = some 1 ∧
    target_index wave_env (state_at L0 false) 1 = L0 ∧
    ∃ n0 s1 s2,
      (∀ fuel, n0 ≤ fuel →
        s5pv210_target wave_env fuel (state_at L0 false) 1200000 0 = some (0, s1) ∧
        s5pv210_target wave_env fuel s1 1000000 0 = some (0, s2)) ∧
      s2.hw.regs.CLK_DIV0 = (state_at L0 false).hw.regs.CLK_DIV0 ∧
      s2.hw.regs.CLK_DIV2 = (state_at L0 false).hw.regs.CLK_DIV2 ∧
      s2.hw.regs.APLL_CON = (state_at L0 false).hw.regs.APLL_CON :=
  ⟨by decide, rfl, acknowledges_of_readl _ rfl, fun _ _ _ _ => rfl, by decide, by decide,
    by decide, by decide, by decide, by decide, by decide,
    C8_round_trip_restores_registers wave_env (state_at L0 false) 1200000 0 1000000 0 0 1 L0 OC1
      (by decide) rfl (acknowledges_of_readl _ rfl) (fun _ _ _ _ => rfl) (by decide)
      (Or.inl (by decide)) (by decide) (by decide) (by decide) (by decide) (by decide)
      (by decide) (by decide) (by decide)⟩

/-- C9: from a state whose registers hold the configuration of a level `k`, a
request that passes the gate and resolves to a level `i` other than `k` (the
result of the table search after the DVFS clamp), with the regulators
succeeding and the hardware acknowledging every busy-poll, returns 0 for every
large enough fuel; afterwards the ARM clock derived from the registers (APLL
output of `S5P_APLL_CON` over the APLL divider plus one) is the table
frequency of `i` in Hz and `s5pv210_getspeed(0)` reports that frequency in
kHz. -/
theorem C9_transition_reaches_frequency (env : Env) (s : State) (target_freq relation : Nat)
    (found : Fin 5) (k : Nat)
    (hlay : clock_layout_ok env)
    (hrate : env.clk_get_rate Clk.cpu_clk = armclk_get_rate env)
    (hack : hw_acknowledges env)
    (hreg : ∀ tr rg x y, env.regulator_set_voltage tr rg x y = 0)
    (hgate : passes_gate s relation)
    (hlook : env.cpufreq_frequency_table_target target_freq (stripped relation) = some found)
    (hk : k < 5) (hholds : holds_level env k s.hw.regs)
    (hne : target_index env s found ≠ k) :
    ∃ n0 s1,
      (∀ fuel, n0 ≤ fuel → s5pv210_target env fuel s target_freq relation = some (0, s1)) ∧
      armclk_get_rate env s1.hw.regs =
        freq_table_frequency (target_index env s found) * 1000 ∧
      s5pv210_getspeed env s1.hw 0 = freq_table_frequency (target_index env s found) := by
  obtain ⟨n0, h, hrun, -, hlevel, hspeed⟩ :=
    target_reaches_level env s target_freq relation found k hlay hrate hack hreg hgate hlook hk
      hholds hne
  exact ⟨n0, _, hrun,
    holds_level_rate env hlay _ (target_index_lt env s found) _ hlevel, hspeed⟩

theorem C9_transition_reaches_frequency_witness :
    clock_layout_ok wave_env ∧
    wave_env.clk_get_rate Clk.cpu_clk = armclk_get_rate wave_env ∧
    hw_acknowledges wave_env ∧
    (∀ tr rg x y, wave_env.regulator_set_voltage tr rg x y = 0) ∧
    passes_gate (state_at L1 false) 0 ∧
    wave_env.cpufreq_frequency_table_target 1000000 (stripped 0) = some 1 ∧
    holds_level wave_env L1 (state_at L1 false).hw.regs ∧
    target_index wave_env (state_at L1 false) 1 = L0 ∧
    freq_table_frequency L0 = 1000000 ∧
    pll_changing L0 (s5pv210_getspeed wave_env (state_at L1 false).hw 0) = true ∧
    (s5pv210_target wave_env 1 (state_at L1 false) 1000000 0).map
      (fun p => (p.1, p.2.hw.regs.APLL_CON, s5pv210_getspeed wave_env p.2.hw 0)) =
        some (0, APLL_VAL_1000, 1000000) ∧
    ∃ n0 s1,
      (∀ fuel, n0 ≤ fuel →
        s5pv210_target wave_env fuel (state_at L1 false) 1000000 0 = some (0, s1)) ∧
      armclk_get_rate wave_env s1.hw.regs =
        freq_table_frequency (target_index wave_env (state_at L1 false) 1) * 1000 ∧
      s5pv210_getspeed wave_env s1.hw 0 =
        freq_table_frequency (target_index wave_env (state_at L1 false) 1) :=
  ⟨by decide, rfl, acknowledges_of_readl _ rfl, fun _ _ _ _ => rfl, by decide, by decide,
    by decide, by decide, by decide, by decide, by decide,
    C9_transition_reaches_frequency wave_env (state_at L1 false) 1000000 0 1 L1
      (by decide) rfl (acknowledges_of_readl _ rfl) (fun _ _ _ _ => rfl) (by decide) (by decide)
      (by decide) (by decide) (by decide)⟩

/-- C10: lockout window. After a request carrying the disable-further flag has
returned, every request of every following sequence of requests none of which
carries the enable-further flag returns `-EINVAL`, whatever the fuel, and the
state after the sequence is the state at the return of the disable-further
request: no register, regulator or notification is touched, the gate stays
LOCKED_OUT and the frequency read back is unchanged. -/
theorem C10_lockout_window_pins_frequency (env : Env) (fuel : Nat) (s s1 : State)
    (target_freq relation : Nat) (ret : Int)
    (hflag : relation &&& DISABLE_FURTHER_CPUFREQ ≠ 0)
    (hret : s5pv210_target env fuel s target_freq relation = some (ret, s1))
    (reqs : List (Nat × Nat)) (hreqs : ∀ q ∈ reqs, q.2 &&& ENABLE_FURTHER_CPUFREQ = 0)
    (fuel2 : Nat) :
    target_calls env fuel2 s1 reqs = some (List.replicate reqs.length (-EINVAL), s1) ∧
    s1.no_cpufreq_access = true := by
  have hlock : s1.no_cpufreq_access = true := by
    rw [target_gate_after env fuel s s1 _ _ ret hret]
    simp [target_admitted, hflag]
  refine ⟨?_, hlock⟩
  induction reqs with
  | nil => rfl
  | cons q rest ih =>
    obtain ⟨f, r⟩ := q
    have hq : r &&& ENABLE_FURTHER_CPUFREQ = 0 := hreqs (f, r) (List.mem_cons_self _ _)
    have hgate : ¬ passes_gate s1 r := by
      simp [passes_gate, hq, hlock]
    simp only [target_calls, target_locked env fuel2 s1 f r hgate,
      ih (fun q hq => hreqs q (List.mem_cons_of_mem _ hq)), List.length_cons,
      List.replicate_succ]

theorem C10_lockout_window_pins_frequency_witness :
    DISABLE_FURTHER_CPUFREQ &&& DISABLE_FURTHER_CPUFREQ ≠ 0 ∧
    s5pv210_target wave_env 1 (state_at L0 false) 800000 DISABLE_FURTHER_CPUFREQ =
      some (0, state_after_suspend_prepare) ∧
    (∀ q ∈ [((1200000 : Nat), (0 : Nat))], q.2 &&& ENABLE_FURTHER_CPUFREQ = 0) ∧
    s5pv210_getspeed wave_env (state_at L0 false).hw 0 = 1000000 ∧
    s5pv210_getspeed wave_env state_after_suspend_prepare.hw 0 = 800000 ∧
    s5pv210_target wave_env 1 state_after_suspend_prepare 1200000 0 =
      some (-EINVAL, state_after_suspend_prepare) ∧
    (target_calls wave_env 1 state_after_suspend_prepare [(1200000, 0)] =
      some (List.replicate [((1200000 : Nat), (0 : Nat))].length (-EINVAL),
        state_after_suspend_prepare) ∧
    state_after_suspend_prepare.no_cpufreq_access = true) :=
  ⟨by decide, by decide, by decide, by decide, by decide, by decide,
    C10_lockout_window_pins_frequency wave_env 1 (state_at L0 false) state_after_suspend_prepare
      800000 DISABLE_FURTHER_CPUFREQ 0 (by decide) (by decide) [(1200000, 0)] (by decide) 1⟩


/-! ## Relation flags and invalid requests -/

/-- The request after the gate does not look at the gate: with another gate
value it returns the same value and the same state but for the gate. -/
theorem transition_gate_irrelevant (env : Env) (fuel : Nat) (s : State)
    (target_freq relation : Nat) (b : Bool) :
    target_transition env fuel { s with no_cpufreq_access := b } target_freq relation =
      (target_transition env fuel s target_freq relation).map
        (fun p => (p.1, { p.2 with no_cpufreq_access := b })) := by
  cases hlook : env.cpufreq_frequency_table_target target_freq relation with
  | none =>
    rw [transition_no_entry env fuel s _ _ hlook, transition_no_entry env fuel _ _ _ hlook]
    rfl
  | some found =>
    by_cases hsame : freq_table_frequency (target_index env s found) = s5pv210_getspeed env s.hw 0
    · rw [transition_same_freq env fuel s _ _ found hlook hsame,
        transition_same_freq env fuel { s with no_cpufreq_access := b } _ _ found hlook hsame]
      rfl
    · rw [transition_change env fuel s _ _ found hlook hsame,
        transition_change env fuel { s with no_cpufreq_access := b } _ _ found hlook hsame]
      dsimp only
      by_cases hup : (target_voltage_up env (target_resolved env s (target_index env s found))
          (s.dvs_conf.getD (target_index env s found) ⟨0, 0⟩).arm_volt
          (s.dvs_conf.getD (target_index env s found) ⟨0, 0⟩).int_volt).1 = 0
      · have hup2 : (target_voltage_up env
            (target_resolved env { s with no_cpufreq_access := b }
              (target_index env { s with no_cpufreq_access := b } found))
            (s.dvs_conf.getD (target_index env { s with no_cpufreq_access := b } found)
              ⟨0, 0⟩).arm_volt
            (s.dvs_conf.getD (target_index env { s with no_cpufreq_access := b } found)
              ⟨0, 0⟩).int_volt).1 = 0 := hup
        rw [if_neg (by simpa using hup), if_neg (by simpa using hup2), Option.map_map]
        rfl
      · have hup2 : ¬ (target_voltage_up env
            (target_resolved env { s with no_cpufreq_access := b }
              (target_index env { s with no_cpufreq_access := b } found))
            (s.dvs_conf.getD (target_index env { s with no_cpufreq_access := b } found)
              ⟨0, 0⟩).arm_volt
            (s.dvs_conf.getD (target_index env { s with no_cpufreq_access := b } found)
              ⟨0, 0⟩).int_volt).1 = 0 := hup
        rw [if_pos hup, if_pos hup2]
        rfl

theorem stripped_or_flags (r flags : Nat)
    (hflags : flags &&& not32 (ENABLE_FURTHER_CPUFREQ ||| DISABLE_FURTHER_CPUFREQ) = 0) :
    stripped (r ||| flags) = stripped r := by
  unfold stripped
  apply Nat.eq_of_testBit_eq
  intro i
  have h1 := congrArg (fun n => Nat.testBit n i) hflags
  simp only [Nat.testBit_and, Nat.testBit_or, Nat.zero_testBit] at h1 ⊢
  revert h1
  cases r.testBit i <;> cases flags.testBit i <;>
    cases (not32 (ENABLE_FURTHER_CPUFREQ ||| DISABLE_FURTHER_CPUFREQ)).testBit i <;> simp

theorem stripped_of_base (r : Nat) (hlt : r < 4294967296)
    (hbase : r &&& (ENABLE_FURTHER_CPUFREQ ||| DISABLE_FURTHER_CPUFREQ) = 0) :
    stripped r = r := by
  unfold stripped
  apply Nat.eq_of_testBit_eq
  intro i
  have h1 := congrArg (fun n => Nat.testBit n i) hbase
  have h2 := testBit_of_lt32 hlt i
  simp only [Nat.testBit_and, testBit_not32, Nat.zero_testBit] at h1 h2 ⊢
  revert h1 h2
  cases r.testBit i <;> cases (ENABLE_FURTHER_CPUFREQ ||| DISABLE_FURTHER_CPUFREQ).testBit i <;>
    cases decide (i < 32) <;> simp

/-- C11: the two flags are stripped before the table search. The relation the
driver hands to `cpufreq_frequency_table_target` is `relation AND NOT 0x30`
(`stripped`); for a base relation `r` (a 32-bit word without the two flags)
that is `r` itself, with or without flags OR-ed in.  From an OPEN state the
request with the flags and the request without them search the table with the
same relation, and return the same value with the same `freqs` (so the same
level: `freqs.new` is the table frequency of the index used) and the same
hardware; only the gate at the return can differ. -/
theorem C11_flags_stripped_before_lookup (env : Env) (fuel : Nat) (s : State)
    (target_freq r flags : Nat)
    (hopen : s.no_cpufreq_access = false)
    (hlt : r < 4294967296)
    (hbase : r &&& (ENABLE_FURTHER_CPUFREQ ||| DISABLE_FURTHER_CPUFREQ) = 0)
    (hflags : flags &&& not32 (ENABLE_FURTHER_CPUFREQ ||| DISABLE_FURTHER_CPUFREQ) = 0) :
    stripped (r ||| flags) = r ∧
    stripped r = r ∧
    s5pv210_target env fuel s target_freq (r ||| flags) =
      target_transition env fuel (target_admitted s (r ||| flags)) target_freq r ∧
    env.cpufreq_frequency_table_target target_freq (stripped (r ||| flags)) =
      env.cpufreq_frequency_table_target target_freq (stripped r) ∧
    (s5pv210_target env fuel s target_freq (r ||| flags)).map
        (fun p => (p.1, p.2.freqs, p.2.hw)) =
      (s5pv210_target env fuel s target_freq r).map (fun p => (p.1, p.2.freqs, p.2.hw)) := by
  have h1 : stripped (r ||| flags) = r := by
    rw [stripped_or_flags r flags hflags, stripped_of_base r hlt hbase]
  have h2 : stripped r = r := stripped_of_base r hlt hbase
  refine ⟨h1, h2, ?_, by rw [h1, h2], ?_⟩
  · rw [target_admitted_eq env fuel s _ _ (Or.inr hopen), h1]
  · rw [target_admitted_eq env fuel s _ _ (Or.inr hopen),
      target_admitted_eq env fuel s _ _ (Or.inr hopen), h1, h2]
    have e1 := transition_gate_irrelevant env fuel s target_freq r
      (target_admitted s (r ||| flags)).no_cpufreq_access
    have e2 := transition_gate_irrelevant env fuel s target_freq r
      (target_admitted s r).no_cpufreq_access
    have a1 : target_admitted s (r ||| flags) =
        { s with no_cpufreq_access := (target_admitted s (r ||| flags)).no_cpufreq_access } := rfl
    have a2 : target_admitted s r =
        { s with no_cpufreq_access := (target_admitted s r).no_cpufreq_access } := rfl
    rw [a1, a2, e1, e2, Option.map_map, Option.map_map]
    rfl

theorem C11_flags_stripped_before_lookup_witness :
    (state_at L0 false).no_cpufreq_access = false ∧
    (0 : Nat) < 4294967296 ∧
    (0 : Nat) &&& (ENABLE_FURTHER_CPUFREQ ||| DISABLE_FURTHER_CPUFREQ) = 0 ∧
    DISABLE_FURTHER_CPUFREQ &&&
      not32 (ENABLE_FURTHER_CPUFREQ ||| DISABLE_FURTHER_CPUFREQ) = 0 ∧
    (stripped (0 ||| DISABLE_FURTHER_CPUFREQ) = 0 ∧
    stripped 0 = 0 ∧
    s5pv210_target wave_env 1 (state_at L0 false) SLEEP_FREQ (0 ||| DISABLE_FURTHER_CPUFREQ) =
      target_transition wave_env 1
        (target_admitted (state_at L0 false) (0 ||| DISABLE_FURTHER_CPUFREQ)) SLEEP_FREQ 0 ∧
    wave_env.cpufreq_frequency_table_target SLEEP_FREQ
        (stripped (0 ||| DISABLE_FURTHER_CPUFREQ)) =
      wave_env.cpufreq_frequency_table_target SLEEP_FREQ (stripped 0) ∧
    (s5pv210_target wave_env 1 (state_at L0 false) SLEEP_FREQ
        (0 ||| DISABLE_FURTHER_CPUFREQ)).map (fun p => (p.1, p.2.freqs, p.2.hw)) =
      (s5pv210_target wave_env 1 (state_at L0 false) SLEEP_FREQ 0).map
        (fun p => (p.1, p.2.freqs, p.2.hw))) :=
  ⟨by decide, by decide, by decide, by decide,
    C11_flags_stripped_before_lookup wave_env 1 (state_at L0 false) SLEEP_FREQ 0
      DISABLE_FURTHER_CPUFREQ (by decide) (by decide) (by decide) (by decide)⟩


/-- C12 as stated fails: from an OPEN gate, the request for 800000 kHz with
relation `2 | DISABLE_FURTHER_CPUFREQ` passes the gate, the table search with
the stripped relation 2 finds no entry, and `s5pv210_target` returns `-EINVAL`
with the hardware untouched, but the gate is LOCKED_OUT at the return: the gate
state after the call differs from the state before it. -/
theorem C12_gate_unchanged_counterexample :
    (state_at L1 false).no_cpufreq_access = false ∧
    wave_env.cpufreq_frequency_table_target 800000 (stripped (2 ||| DISABLE_FURTHER_CPUFREQ)) =
      none ∧
    (s5pv210_target wave_env 1 (state_at L1 false) 800000 (2 ||| DISABLE_FURTHER_CPUFREQ)).map
        (fun p => (p.1, p.2.hw, p.2.no_cpufreq_access)) =
      some (-EINVAL, (state_at L1 false).hw, true) ∧
    ¬ ((s5pv210_target wave_env 1 (state_at L1 false) 800000
        (2 ||| DISABLE_FURTHER_CPUFREQ)).map (fun p => p.2.no_cpufreq_access) =
      some (state_at L1 false).no_cpufreq_access) := by
  decide

/-- C12 amended: a request that passes the gate and whose table search finds no
entry returns `-EINVAL`, a negative value, for every fuel, and touches no
hardware: registers and history are unchanged (no register write, no
regulator call, no notification).  Of the driver variables only `freqs.old`
(set to the frequency read back) and the gate change: at the return the gate is
LOCKED_OUT when the relation carries the disable-further flag, OPEN when it
carries the enable-further flag only, and as before the call when it carries
neither. -/
theorem C12_no_entry_rejected (env : Env) (fuel : Nat) (s : State) (target_freq relation : Nat)
    (hgate : passes_gate s relation)
    (hlook : env.cpufreq_frequency_table_target target_freq (stripped relation) = none) :
    s5pv210_target env fuel s target_freq relation =
      some (-EINVAL, { target_admitted s relation with
        freqs := { s.freqs with old := s5pv210_getspeed env s.hw 0 } }) ∧
    -EINVAL < 0 ∧
    ({ target_admitted s relation with
        freqs := { s.freqs with old := s5pv210_getspeed env s.hw 0 } } : State).hw = s.hw ∧
    (relation &&& DISABLE_FURTHER_CPUFREQ ≠ 0 →
      (target_admitted s relation).no_cpufreq_access = true) ∧
    (relation &&& DISABLE_FURTHER_CPUFREQ = 0 → relation &&& ENABLE_FURTHER_CPUFREQ ≠ 0 →
      (target_admitted s relation).no_cpufreq_access = false) ∧
    (relation &&& DISABLE_FURTHER_CPUFREQ = 0 → relation &&& ENABLE_FURTHER_CPUFREQ = 0 →
      (target_admitted s relation).no_cpufreq_access = s.no_cpufreq_access) := by
  refine ⟨?_, by decide, rfl, ?_, ?_, ?_⟩
  · rw [target_admitted_eq env fuel s _ _ hgate,
      transition_no_entry env fuel (target_admitted s relation) _ _ hlook]
    rfl
  · intro hd
    simp [target_admitted, hd]
  · intro hd he
    simp [target_admitted, hd, he]
  · intro hd he
    simp [target_admitted, hd, he]

theorem C12_no_entry_rejected_witness :
    passes_gate (state_at L1 false) 2 ∧
    wave_env.cpufreq_frequency_table_target 800000 (stripped 2) = none ∧
    (s5pv210_target wave_env 1 (state_at L1 false) 800000 2 =
      some (-EINVAL, { target_admitted (state_at L1 false) 2 with
        freqs := { (state_at L1 false).freqs with
          old := s5pv210_getspeed wave_env (state_at L1 false).hw 0 } }) ∧
    -EINVAL < 0 ∧
    ({ target_admitted (state_at L1 false) 2 with
        freqs := { (state_at L1 false).freqs with
          old := s5pv210_getspeed wave_env (state_at L1 false).hw 0 } } : State).hw =
      (state_at L1 false).hw ∧
    ((2 : Nat) &&& DISABLE_FURTHER_CPUFREQ ≠ 0 →
      (target_admitted (state_at L1 false) 2).no_cpufreq_access = true) ∧
    ((2 : Nat) &&& DISABLE_FURTHER_CPUFREQ = 0 → (2 : Nat) &&& ENABLE_FURTHER_CPUFREQ ≠ 0 →
      (target_admitted (state_at L1 false) 2).no_cpufreq_access = false) ∧
    ((2 : Nat) &&& DISABLE_FURTHER_CPUFREQ = 0 → (2 : Nat) &&& ENABLE_FURTHER_CPUFREQ = 0 →
      (target_admitted (state_at L1 false) 2).no_cpufreq_access =
        (state_at L1 false).no_cpufreq_access)) :=
  ⟨by decide, by decide,
    C12_no_entry_rejected wave_env 1 (state_at L1 false) 800000 2 (by decide) (by decide)⟩

/-- C13: `s5pv210_getspeed(cpu)` is 0 for every cpu index other than 0,
whatever the clock service is (the clock is not read), and for cpu 0 it is the
rate of the ARM clock in Hz divided by 1000 with truncation: the quotient `q`
with `1000 * q <= rate < 1000 * (q + 1)`. -/
theorem C13_getspeed (env : Env) (h : Hw) (cpu : Nat) :
    (cpu ≠ 0 → ∀ env2 : Env, ∀ h2 : Hw, s5pv210_getspeed env2 h2 cpu = 0) ∧
    s5pv210_getspeed env h 0 = env.clk_get_rate Clk.cpu_clk h.regs / 1000 ∧
    1000 * s5pv210_getspeed env h 0 ≤ env.clk_get_rate Clk.cpu_clk h.regs ∧
    env.clk_get_rate Clk.cpu_clk h.regs < 1000 * (s5pv210_getspeed env h 0 + 1) := by
  have h0 : s5pv210_getspeed env h 0 = env.clk_get_rate Clk.cpu_clk h.regs / 1000 := by
    unfold s5pv210_getspeed
    rw [if_neg (by simp)]
  refine ⟨fun hcpu env2 h2 => ?_, h0, ?_, ?_⟩
  · unfold s5pv210_getspeed
    rw [if_pos hcpu]
  · rw [h0]
    exact Nat.mul_div_le _ _
  · rw [h0]
    exact Nat.lt_mul_div_succ _ (by norm_num)

theorem C13_getspeed_witness :
    s5pv210_getspeed wave_env (state_at L1 false).hw 1 = 0 ∧
    s5pv210_getspeed wave_env (state_at L1 false).hw 0 = 800000 :=
  ⟨(C13_getspeed wave_env (state_at L1 false).hw 1).1 (by decide) wave_env _, by decide⟩


/-! ## Voltage table -/

theorem store_scan_length (sscanf : List Nat → Option (Int × Nat)) :
    ∀ (n : Nat) (buf : List Nat), (store_scan sscanf n buf).length ≤ n := by
  intro n
  induction n with
  | zero => intro buf; simp [store_scan]
  | succ k ih =>
    intro buf
    unfold store_scan
    cases h : sscanf buf with
    | none => simp
    | some p =>
      obtain ⟨val, consumed⟩ := p
      simp only [List.length_cons]
      exact Nat.succ_le_succ (ih _)

theorem store_clamp_le (u : Int) : store_clamp u ≤ 1350000 := by
  unfold store_clamp arm_volt_max
  simp only
  split_ifs with h
  · omega
  · rw [Int.mul_emod]
    have h0 : 0 ≤ u % 4294967296 := Int.emod_nonneg _ (by norm_num)
    generalize u % 4294967296 = r at h h0
    have h1 : (1000 : Int) % 4294967296 = 1000 := by norm_num
    have h2 : r ≤ 1350 := by omega
    rw [h1, Int.emod_eq_of_lt (by omega) (by omega)]
    omega

theorem store_clamp_in_range (u : Int) (h0 : 0 ≤ u) (h1 : u ≤ 1350) :
    store_clamp u = (u * 1000).toNat := by
  unfold store_clamp arm_volt_max
  simp only
  split_ifs with h <;> omega

theorem store_apply_length :
    ∀ (vs : List Int) (dvs : List s5pv210_dvs_conf) (i : Nat),
      (store_apply dvs i vs).length = dvs.length := by
  intro vs
  induction vs with
  | nil => intro dvs i; rfl
  | cons u rest ih =>
    intro dvs i
    unfold store_apply
    rw [ih, List.length_set]

theorem getD_set_ne (dvs : List s5pv210_dvs_conf) (i j : Nat) (x d : s5pv210_dvs_conf)
    (h : i ≠ j) : (dvs.set i x).getD j d = dvs.getD j d := by
  simp only [List.getD_eq_getElem?_getD, List.getElem?_set_ne h]

theorem getD_set_eq (dvs : List s5pv210_dvs_conf) (i : Nat) (x d : s5pv210_dvs_conf)
    (h : i < dvs.length) : (dvs.set i x).getD i d = x := by
  simp [List.getD_eq_getElem?_getD, List.getElem?_set, h]

theorem store_apply_outside :
    ∀ (vs : List Int) (dvs : List s5pv210_dvs_conf) (i j : Nat),
      (j < i ∨ i + vs.length ≤ j) →
      (store_apply dvs i vs).getD j ⟨0, 0⟩ = dvs.getD j ⟨0, 0⟩ := by
  intro vs
  induction vs with
  | nil => intro dvs i j _; rfl
  | cons u rest ih =>
    intro dvs i j h
    unfold store_apply
    rw [ih _ (i + 1) j (by simp only [List.length_cons] at h; omega)]
    exact getD_set_ne _ _ _ _ _ (by simp only [List.length_cons] at h; omega)

theorem store_apply_int_volt :
    ∀ (vs : List Int) (dvs : List s5pv210_dvs_conf) (i j : Nat),
      ((store_apply dvs i vs).getD j ⟨0, 0⟩).int_volt = (dvs.getD j ⟨0, 0⟩).int_volt := by
  intro vs
  induction vs with
  | nil => intro dvs i j; rfl
  | cons u rest ih =>
    intro dvs i j
    unfold store_apply
    rw [ih]
    by_cases hij : i = j
    · subst hij
      by_cases hlen : i < dvs.length
      · rw [getD_set_eq _ _ _ _ hlen]
      · rw [List.set_eq_of_length_le (not_lt.mp hlen)]
    · rw [getD_set_ne _ _ _ _ _ hij]

theorem store_apply_arm_volt :
    ∀ (vs : List Int) (dvs : List s5pv210_dvs_conf) (i k : Nat),
      k < vs.length → i + k < dvs.length →
      ((store_apply dvs i vs).getD (i + k) ⟨0, 0⟩).arm_volt = store_clamp (vs.getD k 0) := by
  intro vs
  induction vs with
  | nil => intro dvs i k hk; simp at hk
  | cons u rest ih =>
    intro dvs i k hk hlen
    unfold store_apply
    cases k with
    | zero =>
      rw [store_apply_outside rest _ (i + 1) (i + 0) (Or.inl (by omega))]
      rw [Nat.add_zero, getD_set_eq _ _ _ _ (by omega)]
      rfl
    | succ m =>
      have := ih (dvs.set i { dvs.getD i ⟨0, 0⟩ with arm_volt := store_clamp u }) (i + 1) m
        (by simp only [List.length_cons] at hk; omega) (by rw [List.length_set]; omega)
      rw [show i + (m + 1) = i + 1 + m by omega, this]
      rfl

/-- C14 as stated fails in its last part: called with `count` = 4294967295, the
largest `size_t` of the 32-bit target, `store_UV_mV_table` returns -1 and not
`count`, while the table is written as for any other `count`. -/
theorem C14_return_count_counterexample :
    (store_UV_mV_table sscanf_d (state_at L1 false) uv_table_input 4294967295).1 = -1 ∧
    (store_UV_mV_table sscanf_d (state_at L1 false) uv_table_input 4294967295).1 ≠
      ((4294967295 : Nat) : Int) ∧
    (store_UV_mV_table sscanf_d (state_at L1 false) uv_table_input 4294967295).2.dvs_conf =
      [⟨1200000, 1100000⟩, ⟨1100000, 1100000⟩, ⟨1350000, 1100000⟩, ⟨1350000, 1100000⟩,
        ⟨900000, 1100000⟩] := by
  decide

/-- C14 amended: `store_UV_mV_table` returns `count` converted to `ssize_t`,
which is `count` itself when `count` is at most 2147483647 and the negative
number `count - 4294967296` when `count` is larger (`size_t` has 32 bits); the
values `u` it parses are at most `MAX_PERF_LEVEL + 1` = 5 (the first loop stops
at the first position where `sscanf` finds no integer) and are assigned by
position: for every `i` below their number, `dvs_conf[i].arm_volt` becomes the
clamped value, at most 1350000 uV, and equal to `u[i] * 1000` when
`0 <= u[i] <= 1350`; the entries from their number on, every `int_volt`, and
all other driver variables are unchanged. -/
theorem C14_store_UV_mV_table (sscanf : List Nat → Option (Int × Nat)) (s : State)
    (buf : List Nat) (count : Nat) (hlen : s.dvs_conf.length = MAX_PERF_LEVEL + 1) :
    (count ≤ 2147483647 → (store_UV_mV_table sscanf s buf count).1 = (count : Int)) ∧
    (2147483648 ≤ count → count ≤ 4294967295 →
      (store_UV_mV_table sscanf s buf count).1 = (count : Int) - 4294967296 ∧
      (store_UV_mV_table sscanf s buf count).1 < 0) ∧
    (store_scan sscanf (MAX_PERF_LEVEL + 1) buf).length ≤ 5 ∧
    (∀ i, i < (store_scan sscanf (MAX_PERF_LEVEL + 1) buf).length →
      ((store_UV_mV_table sscanf s buf count).2.dvs_conf.getD i ⟨0, 0⟩).arm_volt =
        store_clamp ((store_scan sscanf (MAX_PERF_LEVEL + 1) buf).getD i 0) ∧
      ((store_UV_mV_table sscanf s buf count).2.dvs_conf.getD i ⟨0, 0⟩).arm_volt ≤ 1350000 ∧
      (0 ≤ (store_scan sscanf (MAX_PERF_LEVEL + 1) buf).getD i 0 →
        (store_scan sscanf (MAX_PERF_LEVEL + 1) buf).getD i 0 ≤ 1350 →
        (((store_UV_mV_table sscanf s buf count).2.dvs_conf.getD i ⟨0, 0⟩).arm_volt : Int) =
          (store_scan sscanf (MAX_PERF_LEVEL + 1) buf).getD i 0 * 1000)) ∧
    (∀ i, (store_scan sscanf (MAX_PERF_LEVEL + 1) buf).length ≤ i →
      (store_UV_mV_table sscanf s buf count).2.dvs_conf.getD i ⟨0, 0⟩ =
        s.dvs_conf.getD i ⟨0, 0⟩) ∧
    (∀ i, ((store_UV_mV_table sscanf s buf count).2.dvs_conf.getD i ⟨0, 0⟩).int_volt =
      (s.dvs_conf.getD i ⟨0, 0⟩).int_volt) ∧
    (store_UV_mV_table sscanf s buf count).2 =
      { s with dvs_conf := (store_UV_mV_table sscanf s buf count).2.dvs_conf } := by
  have hret : (store_UV_mV_table sscanf s buf count).1 = ssize_t_of_size_t count := rfl
  have hn : (store_scan sscanf (MAX_PERF_LEVEL + 1) buf).length ≤ 5 :=
    store_scan_length sscanf (MAX_PERF_LEVEL + 1) buf
  have hlen5 : s.dvs_conf.length = 5 := hlen
  refine ⟨fun hc => ?_, fun hc1 hc2 => ?_, hn, fun i hi => ?_, fun i hi => ?_, fun i => ?_, rfl⟩
  · rw [hret]
    unfold ssize_t_of_size_t
    rw [Nat.mod_eq_of_lt (by omega), if_pos (by omega)]
  · rw [hret]
    unfold ssize_t_of_size_t
    rw [Nat.mod_eq_of_lt (by omega), if_neg (by omega)]
    exact ⟨rfl, by omega⟩
  · have harm : ((store_UV_mV_table sscanf s buf count).2.dvs_conf.getD i ⟨0, 0⟩).arm_volt =
        store_clamp ((store_scan sscanf (MAX_PERF_LEVEL + 1) buf).getD i 0) := by
      have := store_apply_arm_volt (store_scan sscanf (MAX_PERF_LEVEL + 1) buf) s.dvs_conf 0 i hi
        (by omega)
      rw [Nat.zero_add] at this
      exact this
    refine ⟨harm, ?_, fun h0 h1 => ?_⟩
    · rw [harm]
      exact store_clamp_le _
    · rw [harm, store_clamp_in_range _ h0 h1]
      exact Int.toNat_of_nonneg (by omega)
  · exact store_apply_outside _ _ 0 i (Or.inr (by omega))
  · exact store_apply_int_volt _ _ 0 i

theorem C14_store_UV_mV_table_witness :
    (state_at L1 false).dvs_conf.length = MAX_PERF_LEVEL + 1 ∧
    store_scan sscanf_d (MAX_PERF_LEVEL + 1) uv_table_input = [1200, 1100, -5, 2000] ∧
    (store_UV_mV_table sscanf_d (state_at L1 false) uv_table_input 23).2.dvs_conf =
      [⟨1200000, 1100000⟩, ⟨1100000, 1100000⟩, ⟨1350000, 1100000⟩, ⟨1350000, 1100000⟩,
        ⟨900000, 1100000⟩] ∧
    (store_UV_mV_table sscanf_d (state_at L1 false) uv_table_input 23).1 = ((23 : Nat) : Int) ∧
    (store_scan sscanf_d (MAX_PERF_LEVEL + 1) uv_table_input).length ≤ 5 :=
  ⟨by decide, by decide, by decide,
    (C14_store_UV_mV_table sscanf_d (state_at L1 false) uv_table_input 23 (by decide)).1
      (by decide),
    (C14_store_UV_mV_table sscanf_d (state_at L1 false) uv_table_input 23 (by decide)).2.2.1⟩


theorem probe_match_table (f : Nat) :
    probe_match f s5pv210_freq_table 0 =
      if f = 1200000 then some 0
      else if f = 1000000 then some 1
      else if f = 800000 then some 2
      else if f = 400000 then some 3
      else if f = 200000 then some 4
      else none := by
  simp only [probe_match, s5pv210_freq_table, CPUFREQ_TABLE_END]
  norm_num
  split_ifs <;> first | rfl | (exfalso; omega)

theorem probe_match_some (f i : Nat) (h : probe_match f s5pv210_freq_table 0 = some i) :
    i < 5 ∧ freq_table_frequency i = f := by
  rw [probe_match_table] at h
  split_ifs at h with h0 h1 h2 h3 h4
  · cases h; exact ⟨by decide, h0.symm⟩
  · cases h; exact ⟨by decide, h1.symm⟩
  · cases h; exact ⟨by decide, h2.symm⟩
  · cases h; exact ⟨by decide, h3.symm⟩
  · cases h; exact ⟨by decide, h4.symm⟩

theorem probe_match_none (f : Nat) (h : probe_match f s5pv210_freq_table 0 = none) :
    ∀ k, k < 5 → freq_table_frequency k ≠ f := by
  rw [probe_match_table] at h
  split_ifs at h with h0 h1 h2 h3 h4
  intro k hk
  interval_cases k
  · exact fun hh => h0 hh.symm
  · exact fun hh => h1 hh.symm
  · exact fun hh => h2 hh.symm
  · exact fun hh => h3 hh.symm
  · exact fun hh => h4 hh.symm

theorem probe_patch_length (dvs : List s5pv210_dvs_conf) (e : s5pv210_cpufreq_voltage) :
    (probe_patch dvs e).length = dvs.length := by
  unfold probe_patch
  split
  · exact List.length_set _ _ _
  · rfl

theorem probe_patch_getD (dvs : List s5pv210_dvs_conf) (e : s5pv210_cpufreq_voltage)
    (j : Nat) (hj : j < 5) (hlen : dvs.length = 5) :
    (probe_patch dvs e).getD j ⟨0, 0⟩ =
      if e.freq = freq_table_frequency j then ⟨e.varm, e.vint⟩ else dvs.getD j ⟨0, 0⟩ := by
  unfold probe_patch
  cases hm : probe_match e.freq s5pv210_freq_table 0 with
  | none =>
    have hne := probe_match_none e.freq hm j hj
    simp only
    rw [if_neg (fun hh => hne hh.symm)]
  | some i =>
    obtain ⟨hi, hfi⟩ := probe_match_some e.freq i hm
    simp only
    by_cases hij : i = j
    · subst hij
      rw [getD_set_eq _ _ _ _ (by omega), if_pos hfi.symm]
    · rw [getD_set_ne _ _ _ _ _ hij,
        if_neg (fun hh => hij (freq_table_injective i j hi hj (hfi.trans hh)))]

theorem probe_patch_unmatched (dvs : List s5pv210_dvs_conf) (e : s5pv210_cpufreq_voltage)
    (h : ∀ k, k < 5 → freq_table_frequency k ≠ e.freq) : probe_patch dvs e = dvs := by
  unfold probe_patch
  cases hm : probe_match e.freq s5pv210_freq_table 0 with
  | none => rfl
  | some i =>
    obtain ⟨hi, hfi⟩ := probe_match_some e.freq i hm
    exact absurd hfi (h i hi)

theorem probe_fold_getD (j : Nat) (hj : j < 5) :
    ∀ (volt : List s5pv210_cpufreq_voltage) (dvs : List s5pv210_dvs_conf), dvs.length = 5 →
      (volt.foldl probe_patch dvs).getD j ⟨0, 0⟩ =
        ((last_override volt (freq_table_frequency j)).map
          (fun e => (⟨e.varm, e.vint⟩ : s5pv210_dvs_conf))).getD (dvs.getD j ⟨0, 0⟩) := by
  intro volt
  induction volt with
  | nil => intro dvs _; rfl
  | cons e rest ih =>
    intro dvs hlen
    rw [List.foldl_cons, ih _ (by rw [probe_patch_length]; exact hlen),
      probe_patch_getD dvs e j hj hlen]
    unfold last_override
    rw [List.reverse_cons, List.find?_append]
    cases hrest : rest.reverse.find? (fun e => decide (e.freq = freq_table_frequency j)) with
    | some x => rfl
    | none =>
      by_cases he : e.freq = freq_table_frequency j
      · simp [List.find?_cons, he]
      · simp [List.find?_cons, he]

/-- C15: the probe patches exactly the matching entries.  After
`s5pv210_cpufreq_probe` with a platform table `volt`, for every level `j` the
entry `dvs_conf[j]` is `(varm, vint)` of the last entry of `volt` whose `freq`
is the table frequency of `j`, and the entry before the probe when no entry of
`volt` has that frequency; an entry whose frequency is not in the table
changes nothing.  With the board table `smdkc110_cpufreq_volt` on the default
voltages, the ARM voltages become 1175000, 1150000, 1125000, 925000 and
875000 uV for OC1, L0, L1, L2, L3 (the entry for 1320000 kHz matches no
level). -/
theorem C15_probe_overrides (volt : List s5pv210_cpufreq_voltage)
    (vddarm vddint : regulator_ptr) (s : State) (j : Nat)
    (hlen : s.dvs_conf.length = 5) (hj : j < 5) :
    (s5pv210_cpufreq_probe (some volt) vddarm vddint s).dvs_conf.getD j ⟨0, 0⟩ =
      ((last_override volt (freq_table_frequency j)).map
        (fun e => (⟨e.varm, e.vint⟩ : s5pv210_dvs_conf))).getD (s.dvs_conf.getD j ⟨0, 0⟩) ∧
    (∀ e : s5pv210_cpufreq_voltage, (∀ k, k < 5 → freq_table_frequency k ≠ e.freq) →
      (s5pv210_cpufreq_probe (some [e]) vddarm vddint s).dvs_conf = s.dvs_conf) ∧
    (s5pv210_cpufreq_probe (some smdkc110_cpufreq_volt) vddarm vddint
        { s with dvs_conf := dvs_conf_init }).dvs_conf =
      [⟨1175000, 1100000⟩, ⟨1150000, 1100000⟩, ⟨1125000, 1100000⟩, ⟨925000, 1100000⟩,
        ⟨875000, 1100000⟩] := by
  have hd : ∀ (v : List s5pv210_cpufreq_voltage) (s0 : State),
      (s5pv210_cpufreq_probe (some v) vddarm vddint s0).dvs_conf =
        v.foldl probe_patch s0.dvs_conf := by
    intro v s0
    unfold s5pv210_cpufreq_probe
    split_ifs <;> rfl
  refine ⟨?_, fun e he => ?_, ?_⟩
  · rw [hd]
    exact probe_fold_getD j hj volt s.dvs_conf hlen
  · rw [hd]
    exact probe_patch_unmatched _ e he
  · rw [hd]
    show List.foldl probe_patch dvs_conf_init smdkc110_cpufreq_volt = _
    decide

theorem C15_probe_overrides_witness :
    (state_at L1 false).dvs_conf.length = 5 ∧ (0 : Nat) < 5 ∧
    last_override smdkc110_cpufreq_volt (freq_table_frequency 0) =
      some ⟨1200000, 1175000, 1100000⟩ ∧
    (s5pv210_cpufreq_probe (some smdkc110_cpufreq_volt) regulator_ptr.valid regulator_ptr.valid
        (state_at L1 false)).dvs_conf.getD 0 ⟨0, 0⟩ =
      ((last_override smdkc110_cpufreq_volt (freq_table_frequency 0)).map
        (fun e => (⟨e.varm, e.vint⟩ : s5pv210_dvs_conf))).getD
          ((state_at L1 false).dvs_conf.getD 0 ⟨0, 0⟩) :=
  ⟨by decide, by decide, by decide,
    (C15_probe_overrides smdkc110_cpufreq_volt regulator_ptr.valid regulator_ptr.valid
      (state_at L1 false) 0 (by decide) (by decide)).1⟩


/-! ## Notifiers -/

/-- C16: the power-management notifier.  On `PM_SUSPEND_PREPARE` it issues the
request for `SLEEP_FREQ` (800000 kHz) with `DISABLE_FURTHER_CPUFREQ` and
returns `NOTIFY_BAD` when the request returns a negative value and `NOTIFY_OK`
otherwise; on `PM_POST_SUSPEND` and on `PM_POST_RESTORE` it issues the request
for `SLEEP_FREQ` with `ENABLE_FURTHER_CPUFREQ` and returns `NOTIFY_OK`
whatever the request returns; for every other event it returns `NOTIFY_DONE`
with the state unchanged, whatever the request function is (no request is
issued). -/
theorem C16_pm_notifier (driver_target : State → Nat → Nat → Option (Int × State))
    (s : State) :
    SLEEP_FREQ = 800000 ∧
    s5pv210_cpufreq_notifier_event driver_target PM_SUSPEND_PREPARE s =
      (driver_target s SLEEP_FREQ DISABLE_FURTHER_CPUFREQ).map
        (fun p => (if p.1 < 0 then Notify.NOTIFY_BAD else Notify.NOTIFY_OK, p.2)) ∧
    s5pv210_cpufreq_notifier_event driver_target PM_POST_SUSPEND s =
      (driver_target s SLEEP_FREQ ENABLE_FURTHER_CPUFREQ).map
        (fun p => (Notify.NOTIFY_OK, p.2)) ∧
    s5pv210_cpufreq_notifier_event driver_target PM_POST_RESTORE s =
      (driver_target s SLEEP_FREQ ENABLE_FURTHER_CPUFREQ).map
        (fun p => (Notify.NOTIFY_OK, p.2)) ∧
    (∀ event, event ≠ PM_SUSPEND_PREPARE → event ≠ PM_POST_SUSPEND →
      event ≠ PM_POST_RESTORE →
      ∀ other : State → Nat → Nat → Option (Int × State),
        s5pv210_cpufreq_notifier_event other event s = some (Notify.NOTIFY_DONE, s)) := by
  refine ⟨rfl, ?_, ?_, ?_, ?_⟩
  · unfold s5pv210_cpufreq_notifier_event
    rw [if_pos rfl]
    cases driver_target s SLEEP_FREQ DISABLE_FURTHER_CPUFREQ with
    | none => rfl
    | some p =>
      obtain ⟨ret, s1⟩ := p
      by_cases h : ret < 0 <;> simp [h]
  · unfold s5pv210_cpufreq_notifier_event
    rw [if_neg (by decide), if_pos (Or.inr rfl)]
    cases driver_target s SLEEP_FREQ ENABLE_FURTHER_CPUFREQ with
    | none => rfl
    | some p => rfl
  · unfold s5pv210_cpufreq_notifier_event
    rw [if_neg (by decide), if_pos (Or.inl rfl)]
    cases driver_target s SLEEP_FREQ ENABLE_FURTHER_CPUFREQ with
    | none => rfl
    | some p => rfl
  · intro event h1 h2 h3 other
    unfold s5pv210_cpufreq_notifier_event
    rw [if_neg h1, if_neg (by rintro (h | h); exact h3 h; exact h2 h)]

theorem C16_pm_notifier_witness :
    (s5pv210_cpufreq_notifier_event (cpufreq_driver_target wave_env 1) PM_SUSPEND_PREPARE
        (state_at L0 false)).map
      (fun p => (p.1, p.2.no_cpufreq_access, s5pv210_getspeed wave_env p.2.hw 0)) =
        some (Notify.NOTIFY_OK, true, 800000) ∧
    (s5pv210_cpufreq_notifier_event (cpufreq_driver_target wave_env 1) PM_SUSPEND_PREPARE
        (state_at L1 true)).map (fun p => p.1) = some Notify.NOTIFY_BAD ∧
    (s5pv210_cpufreq_notifier_event (cpufreq_driver_target wave_env 1) PM_POST_SUSPEND
        (state_at L1 true)).map (fun p => (p.1, p.2.no_cpufreq_access)) =
      some (Notify.NOTIFY_OK, false) ∧
    s5pv210_cpufreq_notifier_event (cpufreq_driver_target wave_env 1) 1 (state_at L1 true) =
      some (Notify.NOTIFY_DONE, state_at L1 true) :=
  ⟨by decide, by decide, by decide,
    (C16_pm_notifier (cpufreq_driver_target wave_env 1) (state_at L1 true)).2.2.2.2 1
      (by decide) (by decide) (by decide) (cpufreq_driver_target wave_env 1)⟩

/-- C17: the reboot notifier.  For every event value it issues the request for
`SLEEP_FREQ` (800000 kHz) with `DISABLE_FURTHER_CPUFREQ` and returns
`NOTIFY_BAD` when the request returns a negative value and `NOTIFY_DONE`
otherwise.  In particular, with the request handed to `s5pv210_target`, a
reboot event delivered while the gate is LOCKED_OUT yields `NOTIFY_BAD` and
leaves the state unchanged. -/
theorem C17_reboot_notifier (driver_target : State → Nat → Nat → Option (Int × State))
    (event : Nat) (s : State) :
    SLEEP_FREQ = 800000 ∧
    s5pv210_cpufreq_reboot_notifier_event driver_target event s =
      (driver_target s SLEEP_FREQ DISABLE_FURTHER_CPUFREQ).map
        (fun p => (if p.1 < 0 then Notify.NOTIFY_BAD else Notify.NOTIFY_DONE, p.2)) ∧
    (∀ (env : Env) (fuel : Nat), s.no_cpufreq_access = true →
      s5pv210_cpufreq_reboot_notifier_event (cpufreq_driver_target env fuel) event s =
        some (Notify.NOTIFY_BAD, s)) := by
  have hgen : ∀ dt : State → Nat → Nat → Option (Int × State),
      s5pv210_cpufreq_reboot_notifier_event dt event s =
        (dt s SLEEP_FREQ DISABLE_FURTHER_CPUFREQ).map
          (fun p => (if p.1 < 0 then Notify.NOTIFY_BAD else Notify.NOTIFY_DONE, p.2)) := by
    intro dt
    unfold s5pv210_cpufreq_reboot_notifier_event
    cases dt s SLEEP_FREQ DISABLE_FURTHER_CPUFREQ with
    | none => rfl
    | some p =>
      obtain ⟨ret, s1⟩ := p
      by_cases h : ret < 0 <;> simp [h]
  refine ⟨rfl, hgen driver_target, fun env fuel hlock => ?_⟩
  rw [hgen]
  unfold cpufreq_driver_target
  rw [target_locked env fuel s _ _ (by simp [passes_gate, hlock]; decide)]
  rfl

theorem C17_reboot_notifier_witness :
    (state_at L1 true).no_cpufreq_access = true ∧
    s5pv210_cpufreq_reboot_notifier_event (cpufreq_driver_target wave_env 1) 1
        (state_at L1 true) = some (Notify.NOTIFY_BAD, state_at L1 true) ∧
    (s5pv210_cpufreq_reboot_notifier_event (cpufreq_driver_target wave_env 1) 1
        (state_at L0 false)).map
      (fun p => (p.1, p.2.no_cpufreq_access, s5pv210_getspeed wave_env p.2.hw 0)) =
        some (Notify.NOTIFY_DONE, true, 800000) :=
  ⟨by decide,
    (C17_reboot_notifier (cpufreq_driver_target wave_env 1) 1 (state_at L1 true)).2.2
      wave_env 1 (by decide),
    by decide⟩


/-! ## The order of events in a transition -/

theorem written_regs_append (a b : List Event) :
    written_regs (a ++ b) = written_regs a ++ written_regs b := by
  simp [written_regs]

theorem regulator_calls_append (a b : List Event) :
    regulator_calls (a ++ b) = regulator_calls a ++ regulator_calls b := by
  simp [regulator_calls]

theorem register_writes_append (a b : List Event) :
    register_writes (a ++ b) = register_writes a ++ register_writes b := by
  simp [register_writes]

theorem written_regs_effects (tr : List Event) : written_regs (effects tr) = written_regs tr := by
  induction tr with
  | nil => rfl
  | cons e rest ih =>
    have h1 : effects (e :: rest) = effects [e] ++ effects rest := effects_append [e] rest
    have h2 : written_regs (e :: rest) = written_regs [e] ++ written_regs rest :=
      written_regs_append [e] rest
    rw [h1, h2, written_regs_append, ih]
    cases e <;> rfl

theorem regulator_calls_effects (tr : List Event) :
    regulator_calls (effects tr) = regulator_calls tr := by
  induction tr with
  | nil => rfl
  | cons e rest ih =>
    have h1 : effects (e :: rest) = effects [e] ++ effects rest := effects_append [e] rest
    have h2 : regulator_calls (e :: rest) = regulator_calls [e] ++ regulator_calls rest :=
      regulator_calls_append [e] rest
    rw [h1, h2, regulator_calls_append, ih]
    cases e <;> rfl

theorem register_writes_effects (tr : List Event) :
    register_writes (effects tr) = register_writes tr := by
  induction tr with
  | nil => rfl
  | cons e rest ih =>
    have h1 : effects (e :: rest) = effects [e] ++ effects rest := effects_append [e] rest
    have h2 : register_writes (e :: rest) = register_writes [e] ++ register_writes rest :=
      register_writes_append [e] rest
    rw [h1, h2, register_writes_append, ih]
    cases e <;> rfl

theorem clock_effects_eq (env : Env) (conf : List dram_conf) (freqs : cpufreq_freqs)
    (index : Nat) (pll : Bool) (regs : Regs) :
    clock_effects env conf freqs index pll regs =
      [Event.cpufreq_notify_transition freqs.old freqs.new Phase.CPUFREQ_PRECHANGE] ++
      clock_writes env conf index pll regs ++
      [Event.cpufreq_notify_transition freqs.old freqs.new Phase.CPUFREQ_POSTCHANGE] := by
  unfold clock_effects clock_writes
  simp only [List.append_assoc]

theorem clock_writes_writel (env : Env) (conf : List dram_conf) (index : Nat) (pll : Bool)
    (regs : Regs) :
    ∀ ev ∈ clock_writes env conf index pll regs, ∃ v r, ev = Event.writel v r := by
  intro ev hev
  cases pll
  · simp only [clock_writes, divider_writes, Bool.false_eq_true, if_false, List.nil_append,
      List.append_nil, List.mem_cons, List.mem_singleton, List.not_mem_nil, or_false] at hev
    rcases hev with h | h <;> exact ⟨_, _, h⟩
  · simp only [clock_writes, pll_begin_writes, divider_writes, pll_end_writes, if_true,
      List.cons_append, List.nil_append, List.mem_cons, List.mem_singleton, List.not_mem_nil,
      or_false] at hev
    rcases hev with h | h | h | h | h | h | h | h | h | h | h | h <;> exact ⟨_, _, h⟩

theorem regulator_calls_clock_writes (env : Env) (conf : List dram_conf) (index : Nat)
    (pll : Bool) (regs : Regs) : regulator_calls (clock_writes env conf index pll regs) = [] := by
  cases pll <;> rfl

theorem written_regs_relock (env : Env) (conf : List dram_conf) (index : Nat) (regs : Regs) :
    written_regs (clock_writes env conf index true regs) =
      [Reg.S5P_CLK_DIV2, Reg.S5P_CLK_SRC2, Reg.DMC1_TIMINGAREF, Reg.S5P_CLK_SRC0,
       Reg.S5P_CLK_DIV0, Reg.S5P_ARM_MCS_CON, Reg.S5P_APLL_LOCK, Reg.S5P_APLL_CON,
       Reg.S5P_CLK_SRC2, Reg.S5P_CLK_DIV2, Reg.S5P_CLK_SRC0, Reg.DMC1_TIMINGAREF] := rfl

theorem written_regs_regulator_calls (calls : List Event)
    (h : ∀ ev ∈ calls, ∃ rg x y ret, ev = Event.regulator_set_voltage rg x y ret) :
    written_regs calls = [] := by
  induction calls with
  | nil => rfl
  | cons e rest ih =>
    obtain ⟨rg, x, y, ret, rfl⟩ := h e (List.mem_cons_self _ _)
    have h2 := written_regs_append [Event.regulator_set_voltage rg x y ret] rest
    rw [List.singleton_append] at h2
    rw [h2, ih (fun ev hev => h ev (List.mem_cons_of_mem _ hev))]
    rfl

theorem register_writes_regulator_calls (calls : List Event)
    (h : ∀ ev ∈ calls, ∃ rg x y ret, ev = Event.regulator_set_voltage rg x y ret) :
    register_writes calls = [] := by
  induction calls with
  | nil => rfl
  | cons e rest ih =>
    obtain ⟨rg, x, y, ret, rfl⟩ := h e (List.mem_cons_self _ _)
    have h2 := register_writes_append [Event.regulator_set_voltage rg x y ret] rest
    rw [List.singleton_append] at h2
    rw [h2, ih (fun ev hev => h ev (List.mem_cons_of_mem _ hev))]
    rfl

theorem register_writes_clock_writes (env : Env) (conf : List dram_conf) (index : Nat)
    (pll : Bool) (regs : Regs) :
    register_writes (clock_writes env conf index pll regs) =
      clock_writes env conf index pll regs := by
  cases pll <;> rfl

theorem voltage_up_absent (env : Env) (s : State) (a b : Nat)
    (habs : IS_ERR_OR_NULL s.arm_regulator = true ∨ IS_ERR_OR_NULL s.internal_regulator = true) :
    target_voltage_up env s a b = (0, s.hw) := by
  unfold target_voltage_up
  rcases habs with h | h <;> simp [h]

theorem voltage_down_absent (env : Env) (s : State) (a b : Nat)
    (habs : IS_ERR_OR_NULL s.arm_regulator = true ∨ IS_ERR_OR_NULL s.internal_regulator = true) :
    target_voltage_down env s a b = s.hw := by
  unfold target_voltage_down
  rcases habs with h | h <;> simp [h]

theorem voltage_down_not_slower (env : Env) (s : State) (a b : Nat)
    (h : ¬ s.freqs.new < s.freqs.old) : target_voltage_down env s a b = s.hw := by
  unfold target_voltage_down
  rw [if_neg h]

theorem voltage_up_present (env : Env) (s : State) (a b : Nat)
    (hup : s.freqs.new > s.freqs.old)
    (harm : IS_ERR_OR_NULL s.arm_regulator = false)
    (hint : IS_ERR_OR_NULL s.internal_regulator = false)
    (hret : (target_voltage_up env s a b).1 = 0) :
    (target_voltage_up env s a b).2.trace = s.hw.trace ++
      [Event.regulator_set_voltage Regulator.arm_regulator a arm_volt_max 0,
       Event.regulator_set_voltage Regulator.internal_regulator b int_volt_max 0] := by
  unfold target_voltage_up regulator_call at hret ⊢
  simp only [hup, harm, hint, if_true, Bool.not_false, Bool.and_self] at hret ⊢
  by_cases h0 : env.regulator_set_voltage s.hw.trace Regulator.arm_regulator a arm_volt_max = 0
  · simp only [h0, ne_eq, not_true_eq_false, if_false] at hret ⊢
    rw [hret, List.append_assoc]
    rfl
  · simp only [ne_eq, h0, not_false_eq_true, if_true] at hret

theorem voltage_down_present (env : Env) (s : State) (a b : Nat)
    (hdown : s.freqs.new < s.freqs.old)
    (harm : IS_ERR_OR_NULL s.arm_regulator = false)
    (hint : IS_ERR_OR_NULL s.internal_regulator = false) :
    ∃ e1 e2 : Int, (target_voltage_down env s a b).trace = s.hw.trace ++
      [Event.regulator_set_voltage Regulator.internal_regulator b int_volt_max e1,
       Event.regulator_set_voltage Regulator.arm_regulator a arm_volt_max e2] := by
  unfold target_voltage_down regulator_call
  simp only [hdown, harm, hint, if_true, Bool.not_false, Bool.and_self]
  exact ⟨_, _, List.append_assoc _ _ _⟩

/-- A frequency-changing request whose voltage-up step reports no error runs
the clock sequence on the hardware the voltage-up step left and ends with the
voltage-down step. -/
theorem transition_runs (env : Env) (s : State) (target_freq relation : Nat)
    (found : Fin 5) (hack : hw_acknowledges env)
    (hlook : env.cpufreq_frequency_table_target target_freq relation = some found)
    (hne : freq_table_frequency (target_index env s found) ≠ s5pv210_getspeed env s.hw 0)
    (hup : (target_voltage_up env (target_resolved env s (target_index env s found))
      (s.dvs_conf.getD (target_index env s found) ⟨0, 0⟩).arm_volt
      (s.dvs_conf.getD (target_index env s found) ⟨0, 0⟩).int_volt).1 = 0) :
    ∃ n0 h1,
      (∀ fuel, n0 ≤ fuel → target_transition env fuel s target_freq relation =
        some (0, target_finish env (target_resolved env s (target_index env s found))
          (s.dvs_conf.getD (target_index env s found) ⟨0, 0⟩).arm_volt
          (s.dvs_conf.getD (target_index env s found) ⟨0, 0⟩).int_volt h1)) ∧
      h1.regs = clock_regs env s.s5pv210_dram_conf (target_index env s found)
        (pll_changing (target_index env s found) (s5pv210_getspeed env s.hw 0)) s.hw.regs ∧
      effects h1.trace =
        effects (target_voltage_up env (target_resolved env s (target_index env s found))
          (s.dvs_conf.getD (target_index env s found) ⟨0, 0⟩).arm_volt
          (s.dvs_conf.getD (target_index env s found) ⟨0, 0⟩).int_volt).2.trace ++
        ([Event.cpufreq_notify_transition (s5pv210_getspeed env s.hw 0)
            (freq_table_frequency (target_index env s found)) Phase.CPUFREQ_PRECHANGE] ++
          clock_writes env s.s5pv210_dram_conf (target_index env s found)
            (pll_changing (target_index env s found) (s5pv210_getspeed env s.hw 0)) s.hw.regs ++
          [Event.cpufreq_notify_transition (s5pv210_getspeed env s.hw 0)
            (freq_table_frequency (target_index env s found)) Phase.CPUFREQ_POSTCHANGE]) := by
  generalize hidx : target_index env s found = idx at hne hup ⊢
  generalize harm : (s.dvs_conf.getD idx ⟨0, 0⟩).arm_volt = arm at hup ⊢
  generalize hint : (s.dvs_conf.getD idx ⟨0, 0⟩).int_volt = int at hup ⊢
  obtain ⟨n0, h1, hconv⟩ := target_clock_converges env
    { target_resolved env s idx with hw := (target_voltage_up env (target_resolved env s idx)
        arm int).2 } idx (target_voltage_up env (target_resolved env s idx) arm int).2 hack
  obtain ⟨hregs, heff⟩ := target_clock_spec _ _ _ _ _ _ (hconv n0 (le_refl _))
  refine ⟨n0, h1, fun fuel hfuel => ?_, ?_, ?_⟩
  · have hc := hconv fuel hfuel
    dsimp only at hc
    rw [transition_change env fuel s _ _ found hlook (by rw [hidx]; exact hne)]
    dsimp only
    rw [hidx, harm, hint, hup, if_neg (by simp), hc]
    rfl
  · rw [hregs, voltage_up_regs]
    rfl
  · rw [heff, clock_effects_eq, voltage_up_regs]
    rfl


/-- A frequency-changing request that passes the gate and whose voltage-up step
reports no error returns 0 from some fuel on; `h1` is the hardware after the
clock sequence. -/
theorem target_runs (env : Env) (s : State) (target_freq relation : Nat)
    (found : Fin 5) (hack : hw_acknowledges env)
    (hgate : passes_gate s relation)
    (hlook : env.cpufreq_frequency_table_target target_freq (stripped relation) = some found)
    (hne : freq_table_frequency (target_index env s found) ≠ s5pv210_getspeed env s.hw 0)
    (hup : (target_voltage_up env
      (target_resolved env (target_admitted s relation) (target_index env s found))
      (s.dvs_conf.getD (target_index env s found) ⟨0, 0⟩).arm_volt
      (s.dvs_conf.getD (target_index env s found) ⟨0, 0⟩).int_volt).1 = 0) :
    ∃ n0 h1,
      (∀ fuel, n0 ≤ fuel → s5pv210_target env fuel s target_freq relation =
        some (0, target_finish env
          (target_resolved env (target_admitted s relation) (target_index env s found))
          (s.dvs_conf.getD (target_index env s found) ⟨0, 0⟩).arm_volt
          (s.dvs_conf.getD (target_index env s found) ⟨0, 0⟩).int_volt h1)) ∧
      h1.regs = clock_regs env s.s5pv210_dram_conf (target_index env s found)
        (pll_changing (target_index env s found) (s5pv210_getspeed env s.hw 0)) s.hw.regs ∧
      effects h1.trace =
        effects (target_voltage_up env
          (target_resolved env (target_admitted s relation) (target_index env s found))
          (s.dvs_conf.getD (target_index env s found) ⟨0, 0⟩).arm_volt
          (s.dvs_conf.getD (target_index env s found) ⟨0, 0⟩).int_volt).2.trace ++
        ([Event.cpufreq_notify_transition (s5pv210_getspeed env s.hw 0)
            (freq_table_frequency (target_index env s found)) Phase.CPUFREQ_PRECHANGE] ++
          clock_writes env s.s5pv210_dram_conf (target_index env s found)
            (pll_changing (target_index env s found) (s5pv210_getspeed env s.hw 0)) s.hw.regs ++
          [Event.cpufreq_notify_transition (s5pv210_getspeed env s.hw 0)
            (freq_table_frequency (target_index env s found)) Phase.CPUFREQ_POSTCHANGE]) := by
  obtain ⟨n0, h1, hrun, hregs, heff⟩ :=
    transition_runs env (target_admitted s relation) target_freq (stripped relation) found
      hack hlook hne hup
  refine ⟨n0, h1, fun fuel hfuel => ?_, hregs, heff⟩
  rw [target_admitted_eq env fuel s _ _ hgate]
  exact hrun fuel hfuel

/-- C18: an absent regulator is a no-op path.  When the ARM-rail handle or the
internal-rail handle is absent (NULL or an error value), a frequency-changing
request that passes the gate returns 0 from some fuel on, in either direction;
the registers are those of the complete clock sequence, the events added to
the history are exactly the pre-change notification, the register writes of
the clock sequence and the post-change notification, and the regulator calls
of the history are those it held before: no regulator call is made. -/
theorem C18_absent_regulator_noop (env : Env) (s : State) (target_freq relation : Nat)
    (found : Fin 5) (hack : hw_acknowledges env)
    (hgate : passes_gate s relation)
    (hlook : env.cpufreq_frequency_table_target target_freq (stripped relation) = some found)
    (hne : freq_table_frequency (target_index env s found) ≠ s5pv210_getspeed env s.hw 0)
    (habs : IS_ERR_OR_NULL s.arm_regulator = true ∨
      IS_ERR_OR_NULL s.internal_regulator = true) :
    ∃ n0 s1,
      (∀ fuel, n0 ≤ fuel → s5pv210_target env fuel s target_freq relation = some (0, s1)) ∧
      s1.hw.regs = clock_regs env s.s5pv210_dram_conf (target_index env s found)
        (pll_changing (target_index env s found) (s5pv210_getspeed env s.hw 0)) s.hw.regs ∧
      effects s1.hw.trace = effects s.hw.trace ++
        ([Event.cpufreq_notify_transition (s5pv210_getspeed env s.hw 0)
            (freq_table_frequency (target_index env s found)) Phase.CPUFREQ_PRECHANGE] ++
          clock_writes env s.s5pv210_dram_conf (target_index env s found)
            (pll_changing (target_index env s found) (s5pv210_getspeed env s.hw 0)) s.hw.regs ++
          [Event.cpufreq_notify_transition (s5pv210_getspeed env s.hw 0)
            (freq_table_frequency (target_index env s found)) Phase.CPUFREQ_POSTCHANGE]) ∧
      regulator_calls s1.hw.trace = regulator_calls s.hw.trace := by
  have hupeq := voltage_up_absent env
    (target_resolved env (target_admitted s relation) (target_index env s found))
    (s.dvs_conf.getD (target_index env s found) ⟨0, 0⟩).arm_volt
    (s.dvs_conf.getD (target_index env s found) ⟨0, 0⟩).int_volt habs
  obtain ⟨n0, h1, hrun, hregs, heff⟩ :=
    target_runs env s target_freq relation found hack hgate hlook hne (by rw [hupeq])
  rw [hupeq] at heff
  change effects h1.trace = effects s.hw.trace ++ _ at heff
  have hdown : ∀ h : Hw, (target_finish env
      (target_resolved env (target_admitted s relation) (target_index env s found))
      (s.dvs_conf.getD (target_index env s found) ⟨0, 0⟩).arm_volt
      (s.dvs_conf.getD (target_index env s found) ⟨0, 0⟩).int_volt h).hw = h := by
    intro h
    unfold target_finish
    exact voltage_down_absent env _ _ _ habs
  refine ⟨n0, _, hrun, ?_, ?_, ?_⟩
  · rw [hdown, hregs]
  · rw [hdown, heff]
  · rw [hdown, ← regulator_calls_effects h1.trace, heff, regulator_calls_append,
      regulator_calls_append, regulator_calls_append, regulator_calls_clock_writes,
      regulator_calls_effects]
    have hn : ∀ a b p, regulator_calls [Event.cpufreq_notify_transition a b p] = [] :=
      fun _ _ _ => rfl
    rw [hn, hn, List.append_nil, List.append_nil, List.append_nil]

theorem C18_absent_regulator_noop_witness :
    hw_acknowledges wave_env ∧
    state_without_regulators.arm_regulator = regulator_ptr.err ∧
    state_without_regulators.internal_regulator = regulator_ptr.null ∧
    (s5pv210_target wave_env_regulators_fail 1 state_without_regulators 1000000 0).map
      (fun p => (p.1, s5pv210_getspeed wave_env p.2.hw 0, regulator_calls p.2.hw.trace,
        written_regs p.2.hw.trace)) =
      some (0, 1000000, [],
        [Reg.S5P_CLK_DIV2, Reg.S5P_CLK_SRC2, Reg.DMC1_TIMINGAREF, Reg.S5P_CLK_SRC0,
         Reg.S5P_CLK_DIV0, Reg.S5P_ARM_MCS_CON, Reg.S5P_APLL_LOCK, Reg.S5P_APLL_CON,
         Reg.S5P_CLK_SRC2, Reg.S5P_CLK_DIV2, Reg.S5P_CLK_SRC0, Reg.DMC1_TIMINGAREF]) ∧
    (s5pv210_target wave_env_regulators_fail 1 state_without_regulators 400000 0).map
      (fun p => (p.1, s5pv210_getspeed wave_env p.2.hw 0, regulator_calls p.2.hw.trace,
        written_regs p.2.hw.trace)) =
      some (0, 400000, [], [Reg.S5P_CLK_DIV0, Reg.S5P_ARM_MCS_CON]) ∧
    ∃ n0 s1,
      (∀ fuel, n0 ≤ fuel →
        s5pv210_target wave_env fuel state_without_regulators 1000000 0 = some (0, s1)) ∧
      s1.hw.regs = clock_regs wave_env state_without_regulators.s5pv210_dram_conf
        (target_index wave_env state_without_regulators 1)
        (pll_changing (target_index wave_env state_without_regulators 1)
          (s5pv210_getspeed wave_env state_without_regulators.hw 0))
        state_without_regulators.hw.regs ∧
      effects s1.hw.trace = effects state_without_regulators.hw.trace ++
        ([Event.cpufreq_notify_transition
            (s5pv210_getspeed wave_env state_without_regulators.hw 0)
            (freq_table_frequency (target_index wave_env state_without_regulators 1))
            Phase.CPUFREQ_PRECHANGE] ++
          clock_writes wave_env state_without_regulators.s5pv210_dram_conf
            (target_index wave_env state_without_regulators 1)
            (pll_changing (target_index wave_env state_without_regulators 1)
              (s5pv210_getspeed wave_env state_without_regulators.hw 0))
            state_without_regulators.hw.regs ++
          [Event.cpufreq_notify_transition
            (s5pv210_getspeed wave_env state_without_regulators.hw 0)
            (freq_table_frequency (target_index wave_env state_without_regulators 1))
            Phase.CPUFREQ_POSTCHANGE]) ∧
      regulator_calls s1.hw.trace = regulator_calls state_without_regulators.hw.trace :=
  ⟨acknowledges_of_readl _ rfl, by decide, by decide, by decide, by decide,
    C18_absent_regulator_noop wave_env state_without_regulators 1000000 0 1
      (acknowledges_of_readl _ rfl) (by decide) (by decide) (by decide)
      (Or.inl (by decide))⟩


theorem register_writes_notify (a b : Nat) (p : Phase) :
    register_writes [Event.cpufreq_notify_transition a b p] = [] := rfl

theorem written_regs_register_writes (tr : List Event) :
    written_regs (register_writes tr) = written_regs tr := by
  induction tr with
  | nil => rfl
  | cons e rest ih =>
    have h1 : register_writes (e :: rest) = register_writes [e] ++ register_writes rest :=
      register_writes_append [e] rest
    have h2 : written_regs (e :: rest) = written_regs [e] ++ written_regs rest :=
      written_regs_append [e] rest
    rw [h1, h2, written_regs_append, ih]
    cases e <;> rfl

/-- C19: the relock runs in one fixed order regardless of direction.  For every
frequency-changing request that passes the gate, performs a PLL relock and
whose voltage-up step reports no error, scaling up or down, the call returns 0
from some fuel on, the register writes it adds to the history are the writes
of relock steps 1 to 4, the two divider writes and the writes of relock steps
5 to 10, and the sequence of registers written is exactly CLK_DIV2, CLK_SRC2,
DMC1 refresh, CLK_SRC0, CLK_DIV0, ARM_MCS_CON, APLL_LOCK, APLL_CON, CLK_SRC2,
CLK_DIV2, CLK_SRC0, DMC1 refresh: the list does not depend on the levels. -/
theorem C19_relock_order (env : Env) (s : State) (target_freq relation : Nat)
    (found : Fin 5) (hack : hw_acknowledges env)
    (hgate : passes_gate s relation)
    (hlook : env.cpufreq_frequency_table_target target_freq (stripped relation) = some found)
    (hne : freq_table_frequency (target_index env s found) ≠ s5pv210_getspeed env s.hw 0)
    (hup : (target_voltage_up env
      (target_resolved env (target_admitted s relation) (target_index env s found))
      (s.dvs_conf.getD (target_index env s found) ⟨0, 0⟩).arm_volt
      (s.dvs_conf.getD (target_index env s found) ⟨0, 0⟩).int_volt).1 = 0)
    (hpll : pll_changing (target_index env s found) (s5pv210_getspeed env s.hw 0) = true) :
    ∃ n0 s1,
      (∀ fuel, n0 ≤ fuel → s5pv210_target env fuel s target_freq relation = some (0, s1)) ∧
      register_writes s1.hw.trace = register_writes s.hw.trace ++
        (pll_begin_writes env s.s5pv210_dram_conf s.hw.regs ++
          divider_writes env (target_index env s found) s.hw.regs ++
          pll_end_writes env s.s5pv210_dram_conf (target_index env s found) s.hw.regs) ∧
      written_regs s1.hw.trace = written_regs s.hw.trace ++
        [Reg.S5P_CLK_DIV2, Reg.S5P_CLK_SRC2, Reg.DMC1_TIMINGAREF, Reg.S5P_CLK_SRC0,
         Reg.S5P_CLK_DIV0, Reg.S5P_ARM_MCS_CON, Reg.S5P_APLL_LOCK, Reg.S5P_APLL_CON,
         Reg.S5P_CLK_SRC2, Reg.S5P_CLK_DIV2, Reg.S5P_CLK_SRC0, Reg.DMC1_TIMINGAREF] := by
  obtain ⟨n0, h1, hrun, -, heff⟩ :=
    target_runs env s target_freq relation found hack hgate hlook hne hup
  rw [hpll] at heff
  obtain ⟨ups, hups, hups_reg⟩ := voltage_up_trace env
    (target_resolved env (target_admitted s relation) (target_index env s found))
    (s.dvs_conf.getD (target_index env s found) ⟨0, 0⟩).arm_volt
    (s.dvs_conf.getD (target_index env s found) ⟨0, 0⟩).int_volt
  obtain ⟨downs, hdowns, hdowns_reg⟩ := voltage_down_trace env
    { target_resolved env (target_admitted s relation) (target_index env s found) with hw := h1 }
    (s.dvs_conf.getD (target_index env s found) ⟨0, 0⟩).arm_volt
    (s.dvs_conf.getD (target_index env s found) ⟨0, 0⟩).int_volt
  have hw : register_writes (target_finish env
      (target_resolved env (target_admitted s relation) (target_index env s found))
      (s.dvs_conf.getD (target_index env s found) ⟨0, 0⟩).arm_volt
      (s.dvs_conf.getD (target_index env s found) ⟨0, 0⟩).int_volt h1).hw.trace =
      register_writes s.hw.trace ++
        clock_writes env s.s5pv210_dram_conf (target_index env s found) true s.hw.regs := by
    show register_writes (target_voltage_down env _ _ _).trace = _
    rw [hdowns, register_writes_append, register_writes_regulator_calls downs hdowns_reg,
      List.append_nil]
    show register_writes h1.trace = _
    rw [← register_writes_effects h1.trace, heff, hups, effects_append, register_writes_append,
      register_writes_append, register_writes_append, register_writes_append,
      register_writes_notify, register_writes_notify, register_writes_clock_writes,
      register_writes_effects, register_writes_effects,
      register_writes_regulator_calls ups hups_reg]
    simp only [List.append_nil, List.nil_append]
    rfl
  refine ⟨n0, _, hrun, ?_, ?_⟩
  · rw [hw]
    rfl
  · rw [← written_regs_register_writes, hw, written_regs_append, written_regs_register_writes,
      written_regs_relock]

theorem C19_relock_order_witness :
    hw_acknowledges wave_env ∧
    (s5pv210_target wave_env 1 (state_at L1 false) 1000000 0).map
      (fun p => (p.1, p.2.freqs.old, p.2.freqs.new, written_regs p.2.hw.trace)) =
      some (0, 800000, 1000000,
        [Reg.S5P_CLK_DIV2, Reg.S5P_CLK_SRC2, Reg.DMC1_TIMINGAREF, Reg.S5P_CLK_SRC0,
         Reg.S5P_CLK_DIV0, Reg.S5P_ARM_MCS_CON, Reg.S5P_APLL_LOCK, Reg.S5P_APLL_CON,
         Reg.S5P_CLK_SRC2, Reg.S5P_CLK_DIV2, Reg.S5P_CLK_SRC0, Reg.DMC1_TIMINGAREF]) ∧
    (s5pv210_target wave_env 1 (state_at L0 false) 800000 0).map
      (fun p => (p.1, p.2.freqs.old, p.2.freqs.new, written_regs p.2.hw.trace)) =
      some (0, 1000000, 800000,
        [Reg.S5P_CLK_DIV2, Reg.S5P_CLK_SRC2, Reg.DMC1_TIMINGAREF, Reg.S5P_CLK_SRC0,
         Reg.S5P_CLK_DIV0, Reg.S5P_ARM_MCS_CON, Reg.S5P_APLL_LOCK, Reg.S5P_APLL_CON,
         Reg.S5P_CLK_SRC2, Reg.S5P_CLK_DIV2, Reg.S5P_CLK_SRC0, Reg.DMC1_TIMINGAREF]) ∧
    (s5pv210_target wave_env 1 (state_at L1 false) 400000 0).map
      (fun p => (p.1, p.2.freqs.old, p.2.freqs.new, written_regs p.2.hw.trace)) =
      some (0, 800000, 400000, [Reg.S5P_CLK_DIV0, Reg.S5P_ARM_MCS_CON]) ∧
    ∃ n0 s1,
      (∀ fuel, n0 ≤ fuel →
        s5pv210_target wave_env fuel (state_at L0 false) 800000 0 = some (0, s1)) ∧
      register_writes s1.hw.trace = register_writes (state_at L0 false).hw.trace ++
        (pll_begin_writes wave_env (state_at L0 false).s5pv210_dram_conf
            (state_at L0 false).hw.regs ++
          divider_writes wave_env (target_index wave_env (state_at L0 false) 2)
            (state_at L0 false).hw.regs ++
          pll_end_writes wave_env (state_at L0 false).s5pv210_dram_conf
            (target_index wave_env (state_at L0 false) 2) (state_at L0 false).hw.regs) ∧
      written_regs s1.hw.trace = written_regs (state_at L0 false).hw.trace ++
        [Reg.S5P_CLK_DIV2, Reg.S5P_CLK_SRC2, Reg.DMC1_TIMINGAREF, Reg.S5P_CLK_SRC0,
         Reg.S5P_CLK_DIV0, Reg.S5P_ARM_MCS_CON, Reg.S5P_APLL_LOCK, Reg.S5P_APLL_CON,
         Reg.S5P_CLK_SRC2, Reg.S5P_CLK_DIV2, Reg.S5P_CLK_SRC0, Reg.DMC1_TIMINGAREF] :=
  ⟨acknowledges_of_readl _ rfl, by decide, by decide, by decide,
    C19_relock_order wave_env (state_at L0 false) 800000 0 2
      (acknowledges_of_readl _ rfl) (by decide) (by decide) (by decide) (by decide)
      (by decide)⟩

/-- C20: voltage leads frequency on the way up and trails it on the way down.
For every frequency-changing request that passes the gate with both regulators
present and whose voltage-up step reports no error, the call returns 0 from
some fuel on.  On a scale-up the events added to the history are exactly: the
ARM-rail call, the internal-rail call (both returning 0), the pre-change
notification, the clock register writes, the post-change notification.  On a
scale-down they are exactly: the pre-change notification, the clock register
writes, the post-change notification, the internal-rail call, the ARM-rail
call.  The clock register writes are register writes only and there are at
least two of them. -/
theorem C20_voltage_order (env : Env) (s : State) (target_freq relation : Nat)
    (found : Fin 5) (hack : hw_acknowledges env)
    (hgate : passes_gate s relation)
    (hlook : env.cpufreq_frequency_table_target target_freq (stripped relation) = some found)
    (hne : freq_table_frequency (target_index env s found) ≠ s5pv210_getspeed env s.hw 0)
    (harm : IS_ERR_OR_NULL s.arm_regulator = false)
    (hint : IS_ERR_OR_NULL s.internal_regulator = false)
    (hup : (target_voltage_up env
      (target_resolved env (target_admitted s relation) (target_index env s found))
      (s.dvs_conf.getD (target_index env s found) ⟨0, 0⟩).arm_volt
      (s.dvs_conf.getD (target_index env s found) ⟨0, 0⟩).int_volt).1 = 0) :
    ∃ n0 s1,
      (∀ fuel, n0 ≤ fuel → s5pv210_target env fuel s target_freq relation = some (0, s1)) ∧
      (freq_table_frequency (target_index env s found) > s5pv210_getspeed env s.hw 0 →
        effects s1.hw.trace = effects s.hw.trace ++
          [Event.regulator_set_voltage Regulator.arm_regulator
              (s.dvs_conf.getD (target_index env s found) ⟨0, 0⟩).arm_volt arm_volt_max 0,
            Event.regulator_set_voltage Regulator.internal_regulator
              (s.dvs_conf.getD (target_index env s found) ⟨0, 0⟩).int_volt int_volt_max 0] ++
          [Event.cpufreq_notify_transition (s5pv210_getspeed env s.hw 0)
            (freq_table_frequency (target_index env s found)) Phase.CPUFREQ_PRECHANGE] ++
          clock_writes env s.s5pv210_dram_conf (target_index env s found)
            (pll_changing (target_index env s found) (s5pv210_getspeed env s.hw 0)) s.hw.regs ++
          [Event.cpufreq_notify_transition (s5pv210_getspeed env s.hw 0)
            (freq_table_frequency (target_index env s found)) Phase.CPUFREQ_POSTCHANGE]) ∧
      (freq_table_frequency (target_index env s found) < s5pv210_getspeed env s.hw 0 →
        ∃ e1 e2 : Int, effects s1.hw.trace = effects s.hw.trace ++
          [Event.cpufreq_notify_transition (s5pv210_getspeed env s.hw 0)
            (freq_table_frequency (target_index env s found)) Phase.CPUFREQ_PRECHANGE] ++
          clock_writes env s.s5pv210_dram_conf (target_index env s found)
            (pll_changing (target_index env s found) (s5pv210_getspeed env s.hw 0)) s.hw.regs ++
          [Event.cpufreq_notify_transition (s5pv210_getspeed env s.hw 0)
            (freq_table_frequency (target_index env s found)) Phase.CPUFREQ_POSTCHANGE] ++
          [Event.regulator_set_voltage Regulator.internal_regulator
              (s.dvs_conf.getD (target_index env s found) ⟨0, 0⟩).int_volt int_volt_max e1,
            Event.regulator_set_voltage Regulator.arm_regulator
              (s.dvs_conf.getD (target_index env s found) ⟨0, 0⟩).arm_volt arm_volt_max e2]) ∧
      (∀ ev ∈ clock_writes env s.s5pv210_dram_conf (target_index env s found)
          (pll_changing (target_index env s found) (s5pv210_getspeed env s.hw 0)) s.hw.regs,
        ∃ v r, ev = Event.writel v r) ∧
      2 ≤ (clock_writes env s.s5pv210_dram_conf (target_index env s found)
          (pll_changing (target_index env s found) (s5pv210_getspeed env s.hw 0))
          s.hw.regs).length := by
  obtain ⟨n0, h1, hrun, -, heff⟩ :=
    target_runs env s target_freq relation found hack hgate hlook hne hup
  refine ⟨n0, _, hrun, fun hgt => ?_, fun hlt => ?_, clock_writes_writel _ _ _ _ _, ?_⟩
  · have hnot : ¬ (target_resolved env (target_admitted s relation)
        (target_index env s found)).freqs.new <
        (target_resolved env (target_admitted s relation)
          (target_index env s found)).freqs.old := not_lt.mpr (le_of_lt hgt)
    have hd : (target_finish env
        (target_resolved env (target_admitted s relation) (target_index env s found))
        (s.dvs_conf.getD (target_index env s found) ⟨0, 0⟩).arm_volt
        (s.dvs_conf.getD (target_index env s found) ⟨0, 0⟩).int_volt h1).hw = h1 := by
      unfold target_finish
      exact voltage_down_not_slower env _ _ _ hnot
    have hu := voltage_up_present env
      (target_resolved env (target_admitted s relation) (target_index env s found))
      (s.dvs_conf.getD (target_index env s found) ⟨0, 0⟩).arm_volt
      (s.dvs_conf.getD (target_index env s found) ⟨0, 0⟩).int_volt hgt harm hint hup
    rw [hd, heff, hu, effects_append]
    simp only [List.append_assoc]
    rfl
  · have hnot : ¬ (target_resolved env (target_admitted s relation)
        (target_index env s found)).freqs.new >
        (target_resolved env (target_admitted s relation)
          (target_index env s found)).freqs.old := not_lt.mpr (le_of_lt hlt)
    obtain ⟨e1, e2, hd⟩ := voltage_down_present env
      { target_resolved env (target_admitted s relation) (target_index env s found)
        with hw := h1 }
      (s.dvs_conf.getD (target_index env s found) ⟨0, 0⟩).arm_volt
      (s.dvs_conf.getD (target_index env s found) ⟨0, 0⟩).int_volt hlt harm hint
    refine ⟨e1, e2, ?_⟩
    show effects (target_voltage_down env _ _ _).trace = _
    have hu := voltage_up_not_faster env
      (target_resolved env (target_admitted s relation) (target_index env s found))
      (s.dvs_conf.getD (target_index env s found) ⟨0, 0⟩).arm_volt
      (s.dvs_conf.getD (target_index env s found) ⟨0, 0⟩).int_volt hnot
    rw [hd, effects_append, heff, hu]
    simp only [List.append_assoc]
    rfl
  · cases pll_changing (target_index env s found) (s5pv210_getspeed env s.hw 0) <;>
      simp [clock_writes, pll_begin_writes, divider_writes, pll_end_writes]

theorem C20_voltage_order_witness :
    hw_acknowledges wave_env ∧
    (s5pv210_target wave_env 1 (state_at L1 false) 1000000 0).map
      (fun p => (p.1, (effects p.2.hw.trace).take 3, (effects p.2.hw.trace).reverse.take 1,
        regulator_calls p.2.hw.trace)) =
      some (0,
        [Event.regulator_set_voltage Regulator.arm_regulator 1225000 arm_volt_max 0,
         Event.regulator_set_voltage Regulator.internal_regulator 1100000 int_volt_max 0,
         Event.cpufreq_notify_transition 800000 1000000 Phase.CPUFREQ_PRECHANGE],
        [Event.cpufreq_notify_transition 800000 1000000 Phase.CPUFREQ_POSTCHANGE],
        [Event.regulator_set_voltage Regulator.arm_regulator 1225000 arm_volt_max 0,
         Event.regulator_set_voltage Regulator.internal_regulator 1100000 int_volt_max 0]) ∧
    (s5pv210_target wave_env 1 (state_at L0 false) 800000 0).map
      (fun p => (p.1, (effects p.2.hw.trace).take 1, (effects p.2.hw.trace).reverse.take 3,
        regulator_calls p.2.hw.trace)) =
      some (0,
        [Event.cpufreq_notify_transition 1000000 800000 Phase.CPUFREQ_PRECHANGE],
        [Event.regulator_set_voltage Regulator.arm_regulator 1150000 arm_volt_max 0,
         Event.regulator_set_voltage Regulator.internal_regulator 1100000 int_volt_max 0,
         Event.cpufreq_notify_transition 1000000 800000 Phase.CPUFREQ_POSTCHANGE],
        [Event.regulator_set_voltage Regulator.internal_regulator 1100000 int_volt_max 0,
         Event.regulator_set_voltage Regulator.arm_regulator 1150000 arm_volt_max 0]) ∧
    ∃ n0 s1,
      (∀ fuel, n0 ≤ fuel →
        s5pv210_target wave_env fuel (state_at L1 false) 1000000 0 = some (0, s1)) ∧
      (freq_table_frequency (target_index wave_env (state_at L1 false) 1) >
          s5pv210_getspeed wave_env (state_at L1 false).hw 0 →
        effects s1.hw.trace = effects (state_at L1 false).hw.trace ++
          [Event.regulator_set_voltage Regulator.arm_regulator
              ((state_at L1 false).dvs_conf.getD
                (target_index wave_env (state_at L1 false) 1) ⟨0, 0⟩).arm_volt arm_volt_max 0,
            Event.regulator_set_voltage Regulator.internal_regulator
              ((state_at L1 false).dvs_conf.getD
                (target_index wave_env (state_at L1 false) 1) ⟨0, 0⟩).int_volt
              int_volt_max 0] ++
          [Event.cpufreq_notify_transition (s5pv210_getspeed wave_env (state_at L1 false).hw 0)
            (freq_table_frequency (target_index wave_env (state_at L1 false) 1))
            Phase.CPUFREQ_PRECHANGE] ++
          clock_writes wave_env (state_at L1 false).s5pv210_dram_conf
            (target_index wave_env (state_at L1 false) 1)
            (pll_changing (target_index wave_env (state_at L1 false) 1)
              (s5pv210_getspeed wave_env (state_at L1 false).hw 0))
            (state_at L1 false).hw.regs ++
          [Event.cpufreq_notify_transition (s5pv210_getspeed wave_env (state_at L1 false).hw 0)
            (freq_table_frequency (target_index wave_env (state_at L1 false) 1))
            Phase.CPUFREQ_POSTCHANGE]) ∧
      (freq_table_frequency (target_index wave_env (state_at L1 false) 1) <
          s5pv210_getspeed wave_env (state_at L1 false).hw 0 →
        ∃ e1 e2 : Int, effects s1.hw.trace = effects (state_at L1 false).hw.trace ++
          [Event.cpufreq_notify_transition (s5pv210_getspeed wave_env (state_at L1 false).hw 0)
            (freq_table_frequency (target_index wave_env (state_at L1 false) 1))
            Phase.CPUFREQ_PRECHANGE] ++
          clock_writes wave_env (state_at L1 false).s5pv210_dram_conf
            (target_index wave_env (state_at L1 false) 1)
            (pll_changing (target_index wave_env (state_at L1 false) 1)
              (s5pv210_getspeed wave_env (state_at L1 false).hw 0))
            (state_at L1 false).hw.regs ++
          [Event.cpufreq_notify_transition (s5pv210_getspeed wave_env (state_at L1 false).hw 0)
            (freq_table_frequency (target_index wave_env (state_at L1 false) 1))
            Phase.CPUFREQ_POSTCHANGE] ++
          [Event.regulator_set_voltage Regulator.internal_regulator
              ((state_at L1 false).dvs_conf.getD
                (target_index wave_env (state_at L1 false) 1) ⟨0, 0⟩).int_volt
              int_volt_max e1,
            Event.regulator_set_voltage Regulator.arm_regulator
              ((state_at L1 false).dvs_conf.getD
                (target_index wave_env (state_at L1 false) 1) ⟨0, 0⟩).arm_volt
              arm_volt_max e2]) ∧
      (∀ ev ∈ clock_writes wave_env (state_at L1 false).s5pv210_dram_conf
          (target_index wave_env (state_at L1 false) 1)
          (pll_changing (target_index wave_env (state_at L1 false) 1)
            (s5pv210_getspeed wave_env (state_at L1 false).hw 0))
          (state_at L1 false).hw.regs,
        ∃ v r, ev = Event.writel v r) ∧
      2 ≤ (clock_writes wave_env (state_at L1 false).s5pv210_dram_conf
          (target_index wave_env (state_at L1 false) 1)
          (pll_changing (target_index wave_env (state_at L1 false) 1)
            (s5pv210_getspeed wave_env (state_at L1 false).hw 0))
          (state_at L1 false).hw.regs).length :=
  ⟨acknowledges_of_readl _ rfl, by decide, by decide,
    C20_voltage_order wave_env (state_at L1 false) 1000000 0 1
      (acknowledges_of_readl _ rfl) (by decide) (by decide) (by decide) (by decide)
      (by decide) (by decide)⟩


/-! ## What a request leaves in the registers and in the history -/

theorem register_writes_of_effects (a b added : List Event)
    (h : effects b = effects a ++ added) :
    register_writes b = register_writes a ++ register_writes added := by
  rw [← register_writes_effects b, h, register_writes_append, register_writes_effects]

/-- Every `s5pv210_target` call that returns leaves the DRAM configuration
alone and either writes no register at all or has run the clock sequence of a
frequency-changing transition. -/
theorem target_outcome (env : Env) (fuel : Nat) (s s1 : State) (target_freq relation : Nat)
    (ret : Int) (hret : s5pv210_target env fuel s target_freq relation = some (ret, s1)) :
    s1.s5pv210_dram_conf = s.s5pv210_dram_conf ∧
    ((s1.hw.regs = s.hw.regs ∧ register_writes s1.hw.trace = register_writes s.hw.trace) ∨
     (∃ found, env.cpufreq_frequency_table_target target_freq (stripped relation) = some found ∧
        freq_table_frequency (target_index env s found) ≠ s5pv210_getspeed env s.hw 0 ∧
        ret = 0 ∧
        s1.hw.regs = clock_regs env s.s5pv210_dram_conf (target_index env s found)
          (pll_changing (target_index env s found) (s5pv210_getspeed env s.hw 0)) s.hw.regs ∧
        register_writes s1.hw.trace = register_writes s.hw.trace ++
          clock_writes env s.s5pv210_dram_conf (target_index env s found)
            (pll_changing (target_index env s found) (s5pv210_getspeed env s.hw 0))
            s.hw.regs)) := by
  by_cases hgate : passes_gate s relation
  · rw [target_admitted_eq env fuel s _ _ hgate] at hret
    cases hlook : env.cpufreq_frequency_table_target target_freq (stripped relation) with
    | none =>
      rw [transition_no_entry env fuel _ _ _ hlook] at hret
      cases hret
      exact ⟨rfl, Or.inl ⟨rfl, rfl⟩⟩
    | some found =>
      by_cases hsame : freq_table_frequency (target_index env s found) =
          s5pv210_getspeed env s.hw 0
      · rw [transition_same_freq env fuel (target_admitted s relation) _ _ found hlook
          hsame] at hret
        cases hret
        exact ⟨rfl, Or.inl ⟨rfl, rfl⟩⟩
      · rw [transition_change env fuel (target_admitted s relation) _ _ found hlook
          hsame] at hret
        dsimp only at hret
        obtain ⟨ups, hups, hups_reg⟩ := voltage_up_trace env
          (target_resolved env (target_admitted s relation)
            (target_index env (target_admitted s relation) found))
          ((target_admitted s relation).dvs_conf.getD
            (target_index env (target_admitted s relation) found) ⟨0, 0⟩).arm_volt
          ((target_admitted s relation).dvs_conf.getD
            (target_index env (target_admitted s relation) found) ⟨0, 0⟩).int_volt
        split_ifs at hret with hu
        · cases hret
          refine ⟨rfl, Or.inl ⟨voltage_up_regs env _ _ _, ?_⟩⟩
          show register_writes (target_voltage_up env _ _ _).2.trace = _
          rw [hups, register_writes_append, register_writes_regulator_calls ups hups_reg,
            List.append_nil]
          rfl
        · rw [Option.map_eq_some'] at hret
          obtain ⟨h1, hclock, hpair⟩ := hret
          cases hpair
          obtain ⟨hregs, heff⟩ := target_clock_spec _ _ _ _ _ _ hclock
          obtain ⟨downs, hdowns, hdowns_reg⟩ := voltage_down_trace env
            { target_resolved env (target_admitted s relation)
                (target_index env (target_admitted s relation) found) with hw := h1 }
            ((target_admitted s relation).dvs_conf.getD
              (target_index env (target_admitted s relation) found) ⟨0, 0⟩).arm_volt
            ((target_admitted s relation).dvs_conf.getD
              (target_index env (target_admitted s relation) found) ⟨0, 0⟩).int_volt
          refine ⟨rfl, Or.inr ⟨found, rfl, hsame, rfl, ?_, ?_⟩⟩
          · show (target_voltage_down env _ _ _).regs = _
            rw [voltage_down_regs, hregs, voltage_up_regs]
            rfl
          · show register_writes (target_voltage_down env _ _ _).trace = _
            rw [hdowns, register_writes_append, register_writes_regulator_calls downs hdowns_reg,
              List.append_nil]
            show register_writes h1.trace = _
            rw [register_writes_of_effects _ _ _ heff, hups, register_writes_append,
              register_writes_regulator_calls ups hups_reg, List.append_nil, clock_effects_eq,
              register_writes_append, register_writes_append, register_writes_notify,
              register_writes_notify, register_writes_clock_writes, List.append_nil,
              List.nil_append, voltage_up_regs]
            rfl
  · rw [target_locked env fuel s _ _ hgate] at hret
    cases hret
    exact ⟨rfl, Or.inl ⟨rfl, rfl⟩⟩

/-- A frequency-changing request that passes the gate and whose voltage-up step
reports no error: it returns 0 from some fuel on with the registers and the
register writes of the clock sequence. -/
theorem target_completes (env : Env) (s : State) (target_freq relation : Nat)
    (found : Fin 5) (hack : hw_acknowledges env)
    (hgate : passes_gate s relation)
    (hlook : env.cpufreq_frequency_table_target target_freq (stripped relation) = some found)
    (hne : freq_table_frequency (target_index env s found) ≠ s5pv210_getspeed env s.hw 0)
    (hup : (target_voltage_up env
      (target_resolved env (target_admitted s relation) (target_index env s found))
      (s.dvs_conf.getD (target_index env s found) ⟨0, 0⟩).arm_volt
      (s.dvs_conf.getD (target_index env s found) ⟨0, 0⟩).int_volt).1 = 0) :
    ∃ n0 s1,
      (∀ fuel, n0 ≤ fuel → s5pv210_target env fuel s target_freq relation = some (0, s1)) ∧
      s1.hw.regs = clock_regs env s.s5pv210_dram_conf (target_index env s found)
        (pll_changing (target_index env s found) (s5pv210_getspeed env s.hw 0)) s.hw.regs ∧
      register_writes s1.hw.trace = register_writes s.hw.trace ++
        clock_writes env s.s5pv210_dram_conf (target_index env s found)
          (pll_changing (target_index env s found) (s5pv210_getspeed env s.hw 0)) s.hw.regs := by
  obtain ⟨n0, h1, hrun, hregs, heff⟩ :=
    target_runs env s target_freq relation found hack hgate hlook hne hup
  obtain ⟨ups, hups, hups_reg⟩ := voltage_up_trace env
    (target_resolved env (target_admitted s relation) (target_index env s found))
    (s.dvs_conf.getD (target_index env s found) ⟨0, 0⟩).arm_volt
    (s.dvs_conf.getD (target_index env s found) ⟨0, 0⟩).int_volt
  obtain ⟨downs, hdowns, hdowns_reg⟩ := voltage_down_trace env
    { target_resolved env (target_admitted s relation) (target_index env s found) with hw := h1 }
    (s.dvs_conf.getD (target_index env s found) ⟨0, 0⟩).arm_volt
    (s.dvs_conf.getD (target_index env s found) ⟨0, 0⟩).int_volt
  refine ⟨n0, _, hrun, ?_, ?_⟩
  · show (target_voltage_down env _ _ _).regs = _
    rw [voltage_down_regs]
    exact hregs
  · show register_writes (target_voltage_down env _ _ _).trace = _
    rw [hdowns, register_writes_append, register_writes_regulator_calls downs hdowns_reg,
      List.append_nil]
    show register_writes h1.trace = _
    rw [register_writes_of_effects _ _ _ heff, hups, register_writes_append,
      register_writes_regulator_calls ups hups_reg, List.append_nil,
      register_writes_append, register_writes_append, register_writes_notify,
      register_writes_notify, register_writes_clock_writes, List.append_nil,
      List.nil_append]
    rfl

/-! ## The relock condition and the DRAM refresh counter -/

theorem pll_changing_iff (index old : Nat) :
    pll_changing index old = true ↔ (index ≤ L0 ∨ 1000000 ≤ old) := by
  unfold pll_changing
  rw [Bool.or_eq_true, decide_eq_true_iff, decide_eq_true_iff]
  rfl

theorem written_regs_of_register_writes (a b : List Event) (added : List Event)
    (h : register_writes b = register_writes a ++ added) :
    written_regs b = written_regs a ++ written_regs added := by
  rw [← written_regs_register_writes b, h, written_regs_append, written_regs_register_writes]

theorem written_regs_no_relock (env : Env) (conf : List dram_conf) (index : Nat) (regs : Regs) :
    written_regs (clock_writes env conf index false regs) =
      [Reg.S5P_CLK_DIV0, Reg.S5P_ARM_MCS_CON] := rfl

theorem dividers_only_of_no_relock (env : Env) (s s1 : State) (index : Nat)
    (hregs : s1.hw.regs = clock_regs env s.s5pv210_dram_conf index false s.hw.regs)
    (hw : register_writes s1.hw.trace = register_writes s.hw.trace ++
      clock_writes env s.s5pv210_dram_conf index false s.hw.regs) :
    dividers_only s s1 := by
  refine ⟨?_, ?_, ?_, ?_, ?_, ?_, ?_, ?_⟩
  · rw [written_regs_of_register_writes _ _ _ hw, written_regs_no_relock]
  all_goals rw [hregs]; rfl

/-- C21: the relock condition.  The driver relocks the PLL exactly when the new
index is L0 or faster or the frequency read back before the change is at least
the 1,000,000 kHz of L0.  A frequency-changing request that passes the gate and
whose voltage-up step reports no error returns 0 from some fuel on; when the
condition holds the registers written are the twelve of the relock sequence,
otherwise only `S5P_CLK_DIV0` and `S5P_ARM_MCS_CON` are written and the PLL,
mux, MFC/G3D divider and DRAM refresh registers keep their contents.  The
latter is the case for every transition from one of L1, L2, L3 to another. -/
theorem C21_relock_condition (env : Env) (s : State) (target_freq relation : Nat)
    (found : Fin 5) (hack : hw_acknowledges env)
    (hgate : passes_gate s relation)
    (hlook : env.cpufreq_frequency_table_target target_freq (stripped relation) = some found)
    (hne : freq_table_frequency (target_index env s found) ≠ s5pv210_getspeed env s.hw 0)
    (hup : (target_voltage_up env
      (target_resolved env (target_admitted s relation) (target_index env s found))
      (s.dvs_conf.getD (target_index env s found) ⟨0, 0⟩).arm_volt
      (s.dvs_conf.getD (target_index env s found) ⟨0, 0⟩).int_volt).1 = 0) :
    freq_table_frequency L0 = 1000000 ∧
    (pll_changing (target_index env s found) (s5pv210_getspeed env s.hw 0) = true ↔
      (target_index env s found ≤ L0 ∨ 1000000 ≤ s5pv210_getspeed env s.hw 0)) ∧
    ∃ n0 s1,
      (∀ fuel, n0 ≤ fuel → s5pv210_target env fuel s target_freq relation = some (0, s1)) ∧
      ((target_index env s found ≤ L0 ∨ 1000000 ≤ s5pv210_getspeed env s.hw 0) →
        written_regs s1.hw.trace = written_regs s.hw.trace ++
          [Reg.S5P_CLK_DIV2, Reg.S5P_CLK_SRC2, Reg.DMC1_TIMINGAREF, Reg.S5P_CLK_SRC0,
           Reg.S5P_CLK_DIV0, Reg.S5P_ARM_MCS_CON, Reg.S5P_APLL_LOCK, Reg.S5P_APLL_CON,
           Reg.S5P_CLK_SRC2, Reg.S5P_CLK_DIV2, Reg.S5P_CLK_SRC0, Reg.DMC1_TIMINGAREF] ∧
        s1.hw.regs.APLL_CON = apll_val (target_index env s found)) ∧
      (¬ (target_index env s found ≤ L0 ∨ 1000000 ≤ s5pv210_getspeed env s.hw 0) →
        dividers_only s s1) ∧
      (L1 ≤ target_index env s found →
        (∃ k, L1 ≤ k ∧ k ≤ L3 ∧ s5pv210_getspeed env s.hw 0 = freq_table_frequency k) →
        dividers_only s s1) := by
  obtain ⟨n0, s1, hrun, hregs, hw⟩ :=
    target_completes env s target_freq relation found hack hgate hlook hne hup
  have hno : ¬ (target_index env s found ≤ L0 ∨ 1000000 ≤ s5pv210_getspeed env s.hw 0) →
      dividers_only s s1 := by
    intro hc
    have hp : pll_changing (target_index env s found) (s5pv210_getspeed env s.hw 0) = false := by
      rw [← Bool.not_eq_true, pll_changing_iff]
      exact hc
    rw [hp] at hregs hw
    exact dividers_only_of_no_relock env s s1 _ hregs hw
  refine ⟨rfl, pll_changing_iff _ _, n0, s1, hrun, fun hc => ?_, hno, fun hi hk => ?_⟩
  · have hp := (pll_changing_iff _ _).mpr hc
    rw [hp] at hregs hw
    refine ⟨?_, ?_⟩
    · rw [written_regs_of_register_writes _ _ _ hw, written_regs_relock]
    · rw [hregs]
      rfl
  · apply hno
    obtain ⟨k, hk1, hk3, hold⟩ := hk
    rw [hold]
    unfold L1 at hi hk1
    unfold L3 at hk3
    unfold L0
    have hk800 : freq_table_frequency k ≤ 800000 := by
      interval_cases k <;> decide
    omega

theorem C21_relock_condition_witness :
    hw_acknowledges wave_env ∧
    (s5pv210_target wave_env 1 (state_at L1 false) 400000 0).map
      (fun p => (p.1, p.2.freqs.old, p.2.freqs.new, written_regs p.2.hw.trace,
        decide (dividers_only (state_at L1 false) p.2))) =
      some (0, 800000, 400000, [Reg.S5P_CLK_DIV0, Reg.S5P_ARM_MCS_CON], true) ∧
    (s5pv210_target wave_env 1 (state_at L3 false) 800000 0).map
      (fun p => (p.1, p.2.freqs.old, p.2.freqs.new, written_regs p.2.hw.trace,
        decide (dividers_only (state_at L3 false) p.2))) =
      some (0, 200000, 800000, [Reg.S5P_CLK_DIV0, Reg.S5P_ARM_MCS_CON], true) ∧
    (s5pv210_target wave_env 1 (state_at L0 false) 400000 0).map
      (fun p => (p.1, p.2.freqs.old, p.2.freqs.new, (written_regs p.2.hw.trace).length)) =
      some (0, 1000000, 400000, 12) ∧
    freq_table_frequency L0 = 1000000 ∧
    (pll_changing (target_index wave_env (state_at L1 false) 3)
        (s5pv210_getspeed wave_env (state_at L1 false).hw 0) = true ↔
      (target_index wave_env (state_at L1 false) 3 ≤ L0 ∨
        1000000 ≤ s5pv210_getspeed wave_env (state_at L1 false).hw 0)) ∧
    ∃ n0 s1,
      (∀ fuel, n0 ≤ fuel →
        s5pv210_target wave_env fuel (state_at L1 false) 400000 0 = some (0, s1)) ∧
      ((target_index wave_env (state_at L1 false) 3 ≤ L0 ∨
          1000000 ≤ s5pv210_getspeed wave_env (state_at L1 false).hw 0) →
        written_regs s1.hw.trace = written_regs (state_at L1 false).hw.trace ++
          [Reg.S5P_CLK_DIV2, Reg.S5P_CLK_SRC2, Reg.DMC1_TIMINGAREF, Reg.S5P_CLK_SRC0,
           Reg.S5P_CLK_DIV0, Reg.S5P_ARM_MCS_CON, Reg.S5P_APLL_LOCK, Reg.S5P_APLL_CON,
           Reg.S5P_CLK_SRC2, Reg.S5P_CLK_DIV2, Reg.S5P_CLK_SRC0, Reg.DMC1_TIMINGAREF] ∧
        s1.hw.regs.APLL_CON = apll_val (target_index wave_env (state_at L1 false) 3)) ∧
      (¬ (target_index wave_env (state_at L1 false) 3 ≤ L0 ∨
          1000000 ≤ s5pv210_getspeed wave_env (state_at L1 false).hw 0) →
        dividers_only (state_at L1 false) s1) ∧
      (L1 ≤ target_index wave_env (state_at L1 false) 3 →
        (∃ k, L1 ≤ k ∧ k ≤ L3 ∧
          s5pv210_getspeed wave_env (state_at L1 false).hw 0 = freq_table_frequency k) →
        dividers_only (state_at L1 false) s1) :=
  ⟨acknowledges_of_readl _ rfl, by decide, by decide, by decide,
    C21_relock_condition wave_env (state_at L1 false) 400000 0 3
      (acknowledges_of_readl _ rfl) (by decide) (by decide) (by decide) (by decide)⟩

/-! ## Voltage requests at the return -/

theorem voltage_up_int_fails (env : Env) (s : State) (a b : Nat) (e : Int)
    (hup : s.freqs.new > s.freqs.old)
    (harm : IS_ERR_OR_NULL s.arm_regulator = false)
    (hint : IS_ERR_OR_NULL s.internal_regulator = false)
    (harm_ok : env.regulator_set_voltage s.hw.trace Regulator.arm_regulator a arm_volt_max = 0)
    (hint_e : env.regulator_set_voltage
      (s.hw.trace ++ [Event.regulator_set_voltage Regulator.arm_regulator a arm_volt_max 0])
      Regulator.internal_regulator b int_volt_max = e) :
    target_voltage_up env s a b =
      (e, { regs := s.hw.regs,
            trace := s.hw.trace ++
              [Event.regulator_set_voltage Regulator.arm_regulator a arm_volt_max 0,
               Event.regulator_set_voltage Regulator.internal_regulator b int_volt_max e] }) := by
  unfold target_voltage_up regulator_call
  simp only [hup, harm, hint, if_true, Bool.not_false, Bool.and_self, harm_ok, ne_eq,
    not_true_eq_false, if_false, hint_e, List.append_assoc, List.singleton_append]

theorem last_window_arm_int (tr : List Event) (a m b n : Nat) (e1 e2 : Int) :
    last_window Regulator.arm_regulator
      (tr ++ [Event.regulator_set_voltage Regulator.arm_regulator a m e1,
        Event.regulator_set_voltage Regulator.internal_regulator b n e2]) = some (a, m) ∧
    last_window Regulator.internal_regulator
      (tr ++ [Event.regulator_set_voltage Regulator.arm_regulator a m e1,
        Event.regulator_set_voltage Regulator.internal_regulator b n e2]) = some (b, n) := by
  simp [last_window, List.foldl_append]

theorem last_window_int_arm (tr : List Event) (a m b n : Nat) (e1 e2 : Int) :
    last_window Regulator.arm_regulator
      (tr ++ [Event.regulator_set_voltage Regulator.internal_regulator b n e1,
        Event.regulator_set_voltage Regulator.arm_regulator a m e2]) = some (a, m) ∧
    last_window Regulator.internal_regulator
      (tr ++ [Event.regulator_set_voltage Regulator.internal_regulator b n e1,
        Event.regulator_set_voltage Regulator.arm_regulator a m e2]) = some (b, n) := by
  simp [last_window, List.foldl_append]

theorem last_window_fold_effects (r : Regulator) :
    ∀ (tr : List Event) (acc : Option (Nat × Nat)),
      List.foldl (fun acc e => match e with
        | Event.regulator_set_voltage rg a b _ => if rg = r then some (a, b) else acc
        | _ => acc) acc (effects tr) =
      List.foldl (fun acc e => match e with
        | Event.regulator_set_voltage rg a b _ => if rg = r then some (a, b) else acc
        | _ => acc) acc tr := by
  intro tr
  induction tr with
  | nil => intro acc; rfl
  | cons e rest ih =>
    intro acc
    cases e <;> simp only [effects, List.filter_cons, if_true, List.foldl_cons] <;>
      exact ih _

theorem last_window_effects (r : Regulator) (tr : List Event) :
    last_window r (effects tr) = last_window r tr :=
  last_window_fold_effects r tr none

theorem last_window_append_quiet (r : Regulator) (a b : List Event)
    (hb : regulator_calls b = []) : last_window r (a ++ b) = last_window r a := by
  unfold last_window
  rw [List.foldl_append]
  generalize List.foldl _ none a = acc
  induction b generalizing acc with
  | nil => rfl
  | cons e rest ih =>
    cases e with
    | regulator_set_voltage rg x y ret => simp [regulator_calls] at hb
    | writel v rg =>
      have hrest : regulator_calls rest = [] := by simpa [regulator_calls] using hb
      exact ih hrest acc
    | readl rg v =>
      have hrest : regulator_calls rest = [] := by simpa [regulator_calls] using hb
      exact ih hrest acc
    | cpufreq_notify_transition o n p =>
      have hrest : regulator_calls rest = [] := by simpa [regulator_calls] using hb
      exact ih hrest acc

/-- C22: no rollback on a partial scale-up failure.  On a scale-up request
that passes the gate, with both regulators present, when the ARM-rail call
returns 0 and the internal-rail call that follows returns the non-zero code
`e`, `s5pv210_target` returns `e` for every fuel.  The history gains exactly
the successful ARM-rail call for the voltage of the new level and the failed
internal-rail call, nothing after it: the last window requested on the ARM
rail is that of the new level, while the registers, and so the frequency read
back, are those of the old level. -/
theorem C22_no_rollback (env : Env) (fuel : Nat) (s : State)
    (target_freq relation : Nat) (found : Fin 5) (e : Int)
    (hgate : passes_gate s relation)
    (hlook : env.cpufreq_frequency_table_target target_freq (stripped relation) = some found)
    (hup : freq_table_frequency (target_index env s found) > s5pv210_getspeed env s.hw 0)
    (harm : IS_ERR_OR_NULL s.arm_regulator = false)
    (hint : IS_ERR_OR_NULL s.internal_regulator = false)
    (he : e ≠ 0)
    (harm_ok : env.regulator_set_voltage s.hw.trace Regulator.arm_regulator
      (s.dvs_conf.getD (target_index env s found) ⟨0, 0⟩).arm_volt arm_volt_max = 0)
    (hint_e : env.regulator_set_voltage
      (s.hw.trace ++ [Event.regulator_set_voltage Regulator.arm_regulator
        (s.dvs_conf.getD (target_index env s found) ⟨0, 0⟩).arm_volt arm_volt_max 0])
      Regulator.internal_regulator
      (s.dvs_conf.getD (target_index env s found) ⟨0, 0⟩).int_volt int_volt_max = e) :
    ∃ s1, s5pv210_target env fuel s target_freq relation = some (e, s1) ∧
      s1.hw.trace = s.hw.trace ++
        [Event.regulator_set_voltage Regulator.arm_regulator
          (s.dvs_conf.getD (target_index env s found) ⟨0, 0⟩).arm_volt arm_volt_max 0,
         Event.regulator_set_voltage Regulator.internal_regulator
          (s.dvs_conf.getD (target_index env s found) ⟨0, 0⟩).int_volt int_volt_max e] ∧
      last_window Regulator.arm_regulator s1.hw.trace =
        some ((s.dvs_conf.getD (target_index env s found) ⟨0, 0⟩).arm_volt, arm_volt_max) ∧
      s1.hw.regs = s.hw.regs ∧
      s5pv210_getspeed env s1.hw 0 = s5pv210_getspeed env s.hw 0 ∧
      s5pv210_getspeed env s1.hw 0 < freq_table_frequency (target_index env s found) := by
  have hv := voltage_up_int_fails env
    (target_resolved env (target_admitted s relation) (target_index env s found))
    (s.dvs_conf.getD (target_index env s found) ⟨0, 0⟩).arm_volt
    (s.dvs_conf.getD (target_index env s found) ⟨0, 0⟩).int_volt e hup harm hint harm_ok hint_e
  rw [target_admitted_eq env fuel s _ _ hgate,
    transition_change env fuel (target_admitted s relation) _ _ found hlook (ne_of_gt hup)]
  simp only [admitted_index, admitted_dvs_conf, hv, ne_eq, he, not_false_eq_true, if_true]
  refine ⟨_, rfl, rfl, ?_, rfl, rfl, hup⟩
  exact (last_window_arm_int s.hw.trace _ _ _ _ 0 e).1

theorem C22_no_rollback_witness :
    passes_gate (state_at L1 false) 0 ∧
    wave_env_int_fails.cpufreq_frequency_table_target 1000000 (stripped 0) = some 1 ∧
    (s5pv210_target wave_env_int_fails 7 (state_at L1 false) 1000000 0).map
      (fun p => (p.1, p.2.hw.trace, s5pv210_getspeed wave_env_int_fails p.2.hw 0)) =
      some (-EINVAL,
        [Event.regulator_set_voltage Regulator.arm_regulator 1225000 1350000 0,
         Event.regulator_set_voltage Regulator.internal_regulator 1100000 1250000 (-EINVAL)],
        800000) ∧
    ∃ s1, s5pv210_target wave_env_int_fails 7 (state_at L1 false) 1000000 0 =
        some (-EINVAL, s1) ∧
      s1.hw.trace = (state_at L1 false).hw.trace ++
        [Event.regulator_set_voltage Regulator.arm_regulator
          ((state_at L1 false).dvs_conf.getD
            (target_index wave_env_int_fails (state_at L1 false) 1) ⟨0, 0⟩).arm_volt
          arm_volt_max 0,
         Event.regulator_set_voltage Regulator.internal_regulator
          ((state_at L1 false).dvs_conf.getD
            (target_index wave_env_int_fails (state_at L1 false) 1) ⟨0, 0⟩).int_volt
          int_volt_max (-EINVAL)] ∧
      last_window Regulator.arm_regulator s1.hw.trace =
        some (((state_at L1 false).dvs_conf.getD
          (target_index wave_env_int_fails (state_at L1 false) 1) ⟨0, 0⟩).arm_volt,
          arm_volt_max) ∧
      s1.hw.regs = (state_at L1 false).hw.regs ∧
      s5pv210_getspeed wave_env_int_fails s1.hw 0 =
        s5pv210_getspeed wave_env_int_fails (state_at L1 false).hw 0 ∧
      s5pv210_getspeed wave_env_int_fails s1.hw 0 <
        freq_table_frequency (target_index wave_env_int_fails (state_at L1 false) 1) :=
  ⟨by decide, by decide, by decide,
    C22_no_rollback wave_env_int_fails 7 (state_at L1 false) 1000000 0 1 (-EINVAL)
      (by decide) (by decide) (by decide) (by decide) (by decide) (by decide) (by decide)
      (by decide)⟩

/-! ## The DRAM refresh counter -/

theorem set_refresh_DMC0 (conf : List dram_conf) (freq : Nat) (h : Hw) :
    s5pv210_set_refresh conf DMC0 freq h =
      { regs := { h.regs with DMC0_TIMINGAREF := refresh_word conf DMC0 freq },
        trace := h.trace ++ [Event.writel (refresh_word conf DMC0 freq) Reg.DMC0_TIMINGAREF] } := by
  simp [s5pv210_set_refresh, DMC0, __raw_writel, Regs.set, refresh_word]

theorem set_refresh_other (conf : List dram_conf) (ch freq : Nat) (h : Hw)
    (h0 : ch ≠ DMC0) (h1 : ch ≠ DMC1) : s5pv210_set_refresh conf ch freq h = h := by
  unfold s5pv210_set_refresh
  rw [if_neg (by rintro (h | h); exact h0 h; exact h1 h)]

/-- C23: `s5pv210_set_refresh(ch, f)` for `ch` DMC0 or DMC1 writes to the
refresh register of the channel the 32-bit word `refresh div (freq div f)`,
where `freq` and `refresh` are the entries of `s5pv210_dram_conf[ch]` and
`div` is truncating division; nothing else changes.  The word is the quotient
itself when `refresh` is a 32-bit word.  For an operating frequency `f > 0`
the divisor `freq div f` is non-zero exactly when `f <= freq`.  For every
other channel number nothing is written.  A successful `s5pv210_cpu_init`
stores for each channel the rate of its clock as `freq` and the refresh
register times 1000, as a 32-bit product, as `refresh`. -/
theorem C23_set_refresh (conf : List dram_conf) (f : Nat) (h : Hw) :
    s5pv210_set_refresh conf DMC0 f h =
      { regs := { h.regs with DMC0_TIMINGAREF :=
          ((conf.getD 0 ⟨0, 0⟩).refresh / ((conf.getD 0 ⟨0, 0⟩).freq / f)) % 4294967296 },
        trace := h.trace ++ [Event.writel
          (((conf.getD 0 ⟨0, 0⟩).refresh / ((conf.getD 0 ⟨0, 0⟩).freq / f)) % 4294967296)
          Reg.DMC0_TIMINGAREF] } ∧
    s5pv210_set_refresh conf DMC1 f h =
      { regs := { h.regs with DMC1_TIMINGAREF :=
          ((conf.getD 1 ⟨0, 0⟩).refresh / ((conf.getD 1 ⟨0, 0⟩).freq / f)) % 4294967296 },
        trace := h.trace ++ [Event.writel
          (((conf.getD 1 ⟨0, 0⟩).refresh / ((conf.getD 1 ⟨0, 0⟩).freq / f)) % 4294967296)
          Reg.DMC1_TIMINGAREF] } ∧
    (∀ ch, (conf.getD ch ⟨0, 0⟩).refresh < 4294967296 →
      ((conf.getD ch ⟨0, 0⟩).refresh / ((conf.getD ch ⟨0, 0⟩).freq / f)) % 4294967296 =
        (conf.getD ch ⟨0, 0⟩).refresh / ((conf.getD ch ⟨0, 0⟩).freq / f)) ∧
    (∀ ch, 0 < f →
      ((conf.getD ch ⟨0, 0⟩).freq / f ≠ 0 ↔ f ≤ (conf.getD ch ⟨0, 0⟩).freq)) ∧
    (∀ ch, ch ≠ DMC0 → ch ≠ DMC1 → s5pv210_set_refresh conf ch f h = h) ∧
    (∀ (env : Env) (clk_err : Clk → Int) (memcontrol : Nat) (table_cpuinfo : Int) (s : State),
      (∀ c, clk_err c = 0) →
      (check_mem_type memcontrol = LPDDR ∨ check_mem_type memcontrol = LPDDR2) →
      (s5pv210_cpu_init env clk_err 0 memcontrol table_cpuinfo s).2.s5pv210_dram_conf =
        [⟨env.clk_get_rate Clk.dmc0_clk s.hw.regs,
            (s.hw.regs.DMC0_TIMINGAREF * 1000) % 4294967296⟩,
          ⟨env.clk_get_rate Clk.dmc1_clk s.hw.regs,
            (s.hw.regs.DMC1_TIMINGAREF * 1000) % 4294967296⟩]) := by
  refine ⟨set_refresh_DMC0 conf f h, set_refresh_DMC1 conf f h, fun ch hlt => ?_,
    fun ch hf => ?_, fun ch h0 h1 => set_refresh_other conf ch f h h0 h1, ?_⟩
  · exact Nat.mod_eq_of_lt (lt_of_le_of_lt (Nat.div_le_self _ _) hlt)
  · constructor
    · intro hne
      by_contra hlt
      exact hne (Nat.div_eq_of_lt (not_le.mp hlt))
    · intro hle
      exact Nat.pos_iff_ne_zero.mp (Nat.div_pos hle hf)
  · intro env clk_err memcontrol table_cpuinfo s hclk hmem
    unfold s5pv210_cpu_init
    simp only [hclk, ne_eq, not_true_eq_false, if_false]
    have hm : ¬ (check_mem_type memcontrol ≠ LPDDR ∧ check_mem_type memcontrol ≠ LPDDR2) := by
      rcases hmem with h | h
      · exact fun hc => hc.1 h
      · exact fun hc => hc.2 h
    rw [if_neg hm]
    cases env.CONFIG_DVFS_LIMIT <;> rfl

theorem C23_set_refresh_witness :
    state_after_init.s5pv210_dram_conf = [⟨166000000, 1297000⟩, ⟨200000000, 1560000⟩] ∧
    (s5pv210_set_refresh state_after_init.s5pv210_dram_conf DMC1 133000
        state_after_init.hw).regs.DMC1_TIMINGAREF = 1037 ∧
    (s5pv210_set_refresh state_after_init.s5pv210_dram_conf DMC1 200000
        state_after_init.hw).regs.DMC1_TIMINGAREF = 1560 ∧
    (s5pv210_set_refresh state_after_init.s5pv210_dram_conf DMC0 166000
        state_after_init.hw).regs.DMC0_TIMINGAREF = 1297 ∧
    s5pv210_set_refresh state_after_init.s5pv210_dram_conf 2 200000 state_after_init.hw =
      state_after_init.hw ∧
    ((200000000 : Nat) / 133000 ≠ 0 ↔ 133000 ≤ (200000000 : Nat)) ∧
    (s5pv210_cpu_init wave_env (fun _ => 0) 0 (LPDDR <<< 8) 0 state_at_boot).2.s5pv210_dram_conf =
      [⟨wave_env.clk_get_rate Clk.dmc0_clk state_at_boot.hw.regs,
          (state_at_boot.hw.regs.DMC0_TIMINGAREF * 1000) % 4294967296⟩,
        ⟨wave_env.clk_get_rate Clk.dmc1_clk state_at_boot.hw.regs,
          (state_at_boot.hw.regs.DMC1_TIMINGAREF * 1000) % 4294967296⟩] :=
  ⟨by decide, by decide, by decide, by decide, by decide,
    (C23_set_refresh [⟨166000000, 1297000⟩, ⟨200000000, 1560000⟩] 133000
      state_after_init.hw).2.2.2.1 1 (by decide),
    (C23_set_refresh [] 0 state_after_init.hw).2.2.2.2.2 wave_env (fun _ => 0) (LPDDR <<< 8) 0
      state_at_boot (fun _ => rfl) (Or.inl (by decide))⟩

theorem clock_writes_no_DMC0 (env : Env) (conf : List dram_conf) (index : Nat) (pll : Bool)
    (regs : Regs) :
    Reg.DMC0_TIMINGAREF ∉ written_regs (clock_writes env conf index pll regs) := by
  cases pll
  · rw [written_regs_no_relock]
    decide
  · rw [written_regs_relock]
    decide

theorem clock_regs_DMC0 (env : Env) (conf : List dram_conf) (index : Nat) (pll : Bool)
    (regs : Regs) :
    (clock_regs env conf index pll regs).DMC0_TIMINGAREF = regs.DMC0_TIMINGAREF := by
  cases pll <;> rfl

theorem clock_regs_DMC1 (env : Env) (conf : List dram_conf) (index : Nat) (pll : Bool)
    (regs : Regs) :
    (clock_regs env conf index pll regs).DMC1_TIMINGAREF =
      if pll then refresh_word conf DMC1 200000 else regs.DMC1_TIMINGAREF := by
  cases pll <;> rfl

/-- A sequence of requests returns when the hardware acknowledges, and an
invariant of the single request holds at its end. -/
theorem target_calls_invariant (env : Env) (hack : hw_acknowledges env) (P : State → Prop)
    (hstep : ∀ fuel s s1 target_freq relation ret, P s →
      s5pv210_target env fuel s target_freq relation = some (ret, s1) → P s1) :
    ∀ (reqs : List (Nat × Nat)) (s : State), P s →
      ∃ n0 rets s2, (∀ fuel, n0 ≤ fuel → target_calls env fuel s reqs = some (rets, s2)) ∧
        P s2 := by
  intro reqs
  induction reqs with
  | nil => intro s hs; exact ⟨0, [], s, fun _ _ => rfl, hs⟩
  | cons q rest ih =>
    intro s hs
    obtain ⟨f, r⟩ := q
    obtain ⟨n1, ⟨ret, s1⟩, h1⟩ := target_converges env s f r hack
    obtain ⟨n2, rets, s2, h2, hP⟩ := ih s1 (hstep n1 s s1 f r ret hs (h1 n1 (le_refl _)))
    refine ⟨max n1 n2, ret :: rets, s2, fun fuel hfuel => ?_, hP⟩
    simp only [target_calls, h1 fuel (le_trans (le_max_left _ _) hfuel),
      h2 fuel (le_trans (le_max_right _ _) hfuel)]

/-- Any `s5pv210_target` call that returns leaves the DMC1 refresh register at
the value for 200000 kHz if it held it before. -/
theorem target_keeps_refresh_nominal (env : Env) (fuel : Nat) (s s1 : State)
    (target_freq relation : Nat) (ret : Int)
    (h : s.hw.regs.DMC1_TIMINGAREF = refresh_word s.s5pv210_dram_conf DMC1 200000)
    (hret : s5pv210_target env fuel s target_freq relation = some (ret, s1)) :
    s1.hw.regs.DMC1_TIMINGAREF = refresh_word s1.s5pv210_dram_conf DMC1 200000 := by
  obtain ⟨hconf, hcase⟩ := target_outcome env fuel s s1 target_freq relation ret hret
  rcases hcase with ⟨hregs, -⟩ | ⟨found2, -, -, -, hregs, -⟩
  · rw [hregs, hconf]
    exact h
  · rw [hregs, clock_regs_DMC1, hconf]
    split_ifs
    · rfl
    · exact h

/-- After a successful `s5pv210_cpu_init` on a platform whose DMC1 clock runs
at 200 MHz, with a refresh register whose product with 1000 is a 32-bit word,
the DMC1 refresh register holds the value for 200000 kHz. -/
theorem cpu_init_refresh_nominal (env : Env) (clk_err : Clk → Int) (memcontrol : Nat)
    (table_cpuinfo : Int) (s : State) (hclk : ∀ c, clk_err c = 0)
    (hmem : check_mem_type memcontrol = LPDDR ∨ check_mem_type memcontrol = LPDDR2)
    (hrate : env.clk_get_rate Clk.dmc1_clk s.hw.regs = 200000000)
    (hsmall : s.hw.regs.DMC1_TIMINGAREF * 1000 < 4294967296) :
    (s5pv210_cpu_init env clk_err 0 memcontrol table_cpuinfo s).1 = table_cpuinfo ∧
    (s5pv210_cpu_init env clk_err 0 memcontrol table_cpuinfo s).2.hw.regs.DMC1_TIMINGAREF =
      refresh_word (s5pv210_cpu_init env clk_err 0 memcontrol table_cpuinfo s).2.s5pv210_dram_conf
        DMC1 200000 := by
  have hm : ¬ (check_mem_type memcontrol ≠ LPDDR ∧ check_mem_type memcontrol ≠ LPDDR2) := by
    rcases hmem with h | h
    · exact fun hc => hc.1 h
    · exact fun hc => hc.2 h
  have hword : s.hw.regs.DMC1_TIMINGAREF =
      refresh_word [⟨env.clk_get_rate Clk.dmc0_clk s.hw.regs,
          (s.hw.regs.DMC0_TIMINGAREF * 1000) % 4294967296⟩,
        ⟨env.clk_get_rate Clk.dmc1_clk s.hw.regs,
          (s.hw.regs.DMC1_TIMINGAREF * 1000) % 4294967296⟩] DMC1 200000 := by
    show s.hw.regs.DMC1_TIMINGAREF =
      ((s.hw.regs.DMC1_TIMINGAREF * 1000) % 4294967296 /
        (env.clk_get_rate Clk.dmc1_clk s.hw.regs / 200000)) % 4294967296
    rw [hrate, Nat.mod_eq_of_lt hsmall]
    omega
  unfold s5pv210_cpu_init
  simp only [hclk, ne_eq, not_true_eq_false, if_false]
  rw [if_neg hm]
  cases env.CONFIG_DVFS_LIMIT <;> exact ⟨rfl, hword⟩

/-- C24 as stated fails: on the platform whose DMC1 clock runs at 166 MHz a
successful `s5pv210_cpu_init` records 166 MHz and the refresh counter
1560 * 1000 for DMC1, so that the value computed for 200000 kHz is 1879; the
request for 400000 kHz then completes without relock (it returns 0 and
400000 kHz is read back), writes the divider and the memory-control register
only, and leaves the DMC1 refresh register at 1560, which is not the value
computed for 200000 kHz. -/
theorem C24_stale_without_relock_counterexample :
    (s5pv210_cpu_init wave_env_dmc1_166 (fun _ => 0) 0 (LPDDR <<< 8) 0 state_at_boot).1 = 0 ∧
    state_after_init_166.s5pv210_dram_conf = [⟨166000000, 1297000⟩, ⟨166000000, 1560000⟩] ∧
    state_after_init_166.hw.regs.DMC1_TIMINGAREF = 1560 ∧
    refresh_word state_after_init_166.s5pv210_dram_conf DMC1 200000 = 1879 ∧
    (s5pv210_target wave_env_dmc1_166 1 state_after_init_166 400000 0).map
      (fun p => (p.1, s5pv210_getspeed wave_env_dmc1_166 p.2.hw 0,
        p.2.hw.regs.DMC1_TIMINGAREF, refresh_word p.2.s5pv210_dram_conf DMC1 200000,
        (written_regs p.2.hw.trace).drop (written_regs state_after_init_166.hw.trace).length)) =
      some (0, 400000, 1560, 1879, [Reg.S5P_CLK_DIV0, Reg.S5P_ARM_MCS_CON]) := by
  decide

/-- C24 amended: the DRAM refresh counter is recomputed by every relock.  A
frequency-changing request that passes the gate and whose voltage-up step
reports no error returns 0 from some fuel on and leaves `s5pv210_dram_conf`
as it was.  With a relock, its register writes are those of relock steps 1 to
4, the dividers and relock steps 5 to 10: the third write is the DMC1 refresh
register with the value for 133000 kHz, before the write of `S5P_CLK_SRC0`
that moves the main mux to the MPLL, and the last write is the DMC1 refresh
register with the value for 200000 kHz, which the register then holds.
Without relock no refresh register is written and DMC1 keeps its value,
whatever it was.  Every `s5pv210_target` call from the state that returns,
whatever the request, leaves the DMC0 refresh register unwritten and
unchanged, and leaves the DMC1 refresh register at the value for 200000 kHz
if it held it before; so does every sequence of calls, which returns for every
large enough fuel.  The register holds the value for 200000 kHz after a
successful `s5pv210_cpu_init` when the DMC1 clock then runs at 200 MHz and the
register times 1000 is a 32-bit word. -/
theorem C24_refresh_recomputed (env : Env) (s : State) (target_freq relation : Nat)
    (found : Fin 5) (hack : hw_acknowledges env)
    (hgate : passes_gate s relation)
    (hlook : env.cpufreq_frequency_table_target target_freq (stripped relation) = some found)
    (hne : freq_table_frequency (target_index env s found) ≠ s5pv210_getspeed env s.hw 0)
    (hup : (target_voltage_up env
      (target_resolved env (target_admitted s relation) (target_index env s found))
      (s.dvs_conf.getD (target_index env s found) ⟨0, 0⟩).arm_volt
      (s.dvs_conf.getD (target_index env s found) ⟨0, 0⟩).int_volt).1 = 0) :
    (∃ n0 s1,
      (∀ fuel, n0 ≤ fuel → s5pv210_target env fuel s target_freq relation = some (0, s1)) ∧
      s1.s5pv210_dram_conf = s.s5pv210_dram_conf ∧
      (pll_changing (target_index env s found) (s5pv210_getspeed env s.hw 0) = true →
        register_writes s1.hw.trace = register_writes s.hw.trace ++
          (pll_begin_writes env s.s5pv210_dram_conf s.hw.regs ++
            divider_writes env (target_index env s found) s.hw.regs ++
            pll_end_writes env s.s5pv210_dram_conf (target_index env s found) s.hw.regs) ∧
        (pll_begin_writes env s.s5pv210_dram_conf s.hw.regs).drop 2 =
          [Event.writel (refresh_word s.s5pv210_dram_conf DMC1 133000) Reg.DMC1_TIMINGAREF,
           Event.writel (rmw env.S5P_CLKSRC0_MUX200_MASK (shl32 1 env.S5P_CLKSRC0_MUX200_SHIFT)
             s.hw.regs.CLK_SRC0) Reg.S5P_CLK_SRC0] ∧
        (pll_end_writes env s.s5pv210_dram_conf (target_index env s found)
            s.hw.regs).getLast? =
          some (Event.writel (refresh_word s.s5pv210_dram_conf DMC1 200000)
            Reg.DMC1_TIMINGAREF) ∧
        s1.hw.regs.DMC1_TIMINGAREF = refresh_word s.s5pv210_dram_conf DMC1 200000) ∧
      (pll_changing (target_index env s found) (s5pv210_getspeed env s.hw 0) = false →
        written_regs s1.hw.trace =
          written_regs s.hw.trace ++ [Reg.S5P_CLK_DIV0, Reg.S5P_ARM_MCS_CON] ∧
        s1.hw.regs.DMC1_TIMINGAREF = s.hw.regs.DMC1_TIMINGAREF)) ∧
    (∀ fuel freq2 relation2 ret s2,
      s5pv210_target env fuel s freq2 relation2 = some (ret, s2) →
      s2.hw.regs.DMC0_TIMINGAREF = s.hw.regs.DMC0_TIMINGAREF ∧
      (∃ added, written_regs s2.hw.trace = written_regs s.hw.trace ++ added ∧
        Reg.DMC0_TIMINGAREF ∉ added) ∧
      (s.hw.regs.DMC1_TIMINGAREF = refresh_word s.s5pv210_dram_conf DMC1 200000 →
        s2.hw.regs.DMC1_TIMINGAREF = refresh_word s2.s5pv210_dram_conf DMC1 200000)) ∧
    (s.hw.regs.DMC1_TIMINGAREF = refresh_word s.s5pv210_dram_conf DMC1 200000 →
      ∀ reqs : List (Nat × Nat), ∃ n0 rets s2,
        (∀ fuel, n0 ≤ fuel → target_calls env fuel s reqs = some (rets, s2)) ∧
        s2.hw.regs.DMC1_TIMINGAREF = refresh_word s2.s5pv210_dram_conf DMC1 200000) ∧
    (∀ (clk_err : Clk → Int) (memcontrol : Nat) (s0 : State),
      (∀ c, clk_err c = 0) →
      (check_mem_type memcontrol = LPDDR ∨ check_mem_type memcontrol = LPDDR2) →
      env.clk_get_rate Clk.dmc1_clk s0.hw.regs = 200000000 →
      s0.hw.regs.DMC1_TIMINGAREF * 1000 < 4294967296 →
      (s5pv210_cpu_init env clk_err 0 memcontrol 0 s0).1 = 0 ∧
      (s5pv210_cpu_init env clk_err 0 memcontrol 0 s0).2.hw.regs.DMC1_TIMINGAREF =
        refresh_word (s5pv210_cpu_init env clk_err 0 memcontrol 0 s0).2.s5pv210_dram_conf
          DMC1 200000) := by
  refine ⟨?_, ?_, ?_, ?_⟩
  · obtain ⟨n0, s1, hrun, hregs, hw⟩ :=
      target_completes env s target_freq relation found hack hgate hlook hne hup
    refine ⟨n0, s1, hrun,
      (target_outcome env n0 s s1 target_freq relation 0 (hrun n0 (le_refl _))).1,
      fun hp => ?_, fun hp => ?_⟩
    · rw [hp] at hregs hw
      refine ⟨hw, rfl, rfl, ?_⟩
      rw [hregs]
      rfl
    · rw [hp] at hregs hw
      refine ⟨?_, ?_⟩
      · rw [written_regs_of_register_writes _ _ _ hw, written_regs_no_relock]
      · rw [hregs]
        rfl
  · intro fuel freq2 relation2 ret s2 hret
    obtain ⟨hconf, hcase⟩ := target_outcome env fuel s s2 freq2 relation2 ret hret
    rcases hcase with ⟨hregs, hw⟩ | ⟨found2, -, -, -, hregs, hw⟩
    · refine ⟨by rw [hregs], ⟨[], ?_, by simp⟩, fun h => by rw [hregs, hconf]; exact h⟩
      rw [written_regs_of_register_writes s.hw.trace s2.hw.trace [] (by rw [hw, List.append_nil])]
      rfl
    · refine ⟨by rw [hregs, clock_regs_DMC0], ⟨_, written_regs_of_register_writes _ _ _ hw,
        clock_writes_no_DMC0 _ _ _ _ _⟩, fun h => ?_⟩
      rw [hregs, clock_regs_DMC1, hconf]
      split_ifs
      · rfl
      · exact h
  · intro h reqs
    exact target_calls_invariant env hack
      (fun st => st.hw.regs.DMC1_TIMINGAREF = refresh_word st.s5pv210_dram_conf DMC1 200000)
      (fun fuel st st1 f r ret hst hret =>
        target_keeps_refresh_nominal env fuel st st1 f r ret hst hret) reqs s h
  · intro clk_err memcontrol s0 hclk hmem hrate hsmall
    exact cpu_init_refresh_nominal env clk_err memcontrol 0 s0 hclk hmem hrate hsmall

theorem C24_refresh_recomputed_witness :
    hw_acknowledges wave_env ∧
    passes_gate state_after_init 0 ∧
    wave_env.cpufreq_frequency_table_target 1000000 (stripped 0) = some 1 ∧
    state_after_init.hw.regs.DMC1_TIMINGAREF =
      refresh_word state_after_init.s5pv210_dram_conf DMC1 200000 ∧
    refresh_word state_after_init.s5pv210_dram_conf DMC1 200000 = 1560 ∧
    refresh_word state_after_init.s5pv210_dram_conf DMC1 133000 = 1037 ∧
    pll_changing (target_index wave_env state_after_init 1)
      (s5pv210_getspeed wave_env state_after_init.hw 0) = true ∧
    (s5pv210_target wave_env 1 state_after_init 1000000 0).map
      (fun p => (p.1, p.2.hw.regs.DMC1_TIMINGAREF, p.2.hw.regs.DMC0_TIMINGAREF,
        (register_writes p.2.hw.trace).filter (fun e => match e with
          | Event.writel _ Reg.DMC1_TIMINGAREF => true
          | Event.writel _ Reg.DMC0_TIMINGAREF => true
          | _ => false))) =
      some (0, 1560, 1297,
        [Event.writel 1037 Reg.DMC1_TIMINGAREF, Event.writel 1560 Reg.DMC1_TIMINGAREF]) ∧
    (∃ n0 s1,
      (∀ fuel, n0 ≤ fuel →
        s5pv210_target wave_env fuel state_after_init 1000000 0 = some (0, s1)) ∧
      s1.s5pv210_dram_conf = state_after_init.s5pv210_dram_conf ∧
      (pll_changing (target_index wave_env state_after_init 1)
          (s5pv210_getspeed wave_env state_after_init.hw 0) = true →
        register_writes s1.hw.trace = register_writes state_after_init.hw.trace ++
          (pll_begin_writes wave_env state_after_init.s5pv210_dram_conf
              state_after_init.hw.regs ++
            divider_writes wave_env (target_index wave_env state_after_init 1)
              state_after_init.hw.regs ++
            pll_end_writes wave_env state_after_init.s5pv210_dram_conf
              (target_index wave_env state_after_init 1) state_after_init.hw.regs) ∧
        (pll_begin_writes wave_env state_after_init.s5pv210_dram_conf
            state_after_init.hw.regs).drop 2 =
          [Event.writel (refresh_word state_after_init.s5pv210_dram_conf DMC1 133000)
              Reg.DMC1_TIMINGAREF,
           Event.writel (rmw wave_env.S5P_CLKSRC0_MUX200_MASK
             (shl32 1 wave_env.S5P_CLKSRC0_MUX200_SHIFT)
             state_after_init.hw.regs.CLK_SRC0) Reg.S5P_CLK_SRC0] ∧
        (pll_end_writes wave_env state_after_init.s5pv210_dram_conf
            (target_index wave_env state_after_init 1)
            state_after_init.hw.regs).getLast? =
          some (Event.writel (refresh_word state_after_init.s5pv210_dram_conf DMC1 200000)
            Reg.DMC1_TIMINGAREF) ∧
        s1.hw.regs.DMC1_TIMINGAREF =
          refresh_word state_after_init.s5pv210_dram_conf DMC1 200000) ∧
      (pll_changing (target_index wave_env state_after_init 1)
          (s5pv210_getspeed wave_env state_after_init.hw 0) = false →
        written_regs s1.hw.trace =
          written_regs state_after_init.hw.trace ++
            [Reg.S5P_CLK_DIV0, Reg.S5P_ARM_MCS_CON] ∧
        s1.hw.regs.DMC1_TIMINGAREF = state_after_init.hw.regs.DMC1_TIMINGAREF)) ∧
    (∀ reqs : List (Nat × Nat), ∃ n0 rets s2,
      (∀ fuel, n0 ≤ fuel → target_calls wave_env fuel state_after_init reqs = some (rets, s2)) ∧
      s2.hw.regs.DMC1_TIMINGAREF = refresh_word s2.s5pv210_dram_conf DMC1 200000) ∧
    (s5pv210_cpu_init wave_env (fun _ => 0) 0 (LPDDR <<< 8) 0 state_at_boot).1 = 0 ∧
    (s5pv210_cpu_init wave_env (fun _ => 0) 0 (LPDDR <<< 8) 0
        state_at_boot).2.hw.regs.DMC1_TIMINGAREF =
      refresh_word (s5pv210_cpu_init wave_env (fun _ => 0) 0 (LPDDR <<< 8) 0
        state_at_boot).2.s5pv210_dram_conf DMC1 200000 :=
  ⟨acknowledges_of_readl _ rfl, by decide, by decide, by decide, by decide, by decide, by decide,
    by decide,
    (C24_refresh_recomputed wave_env state_after_init 1000000 0 1
      (acknowledges_of_readl _ rfl) (by decide) (by decide) (by decide) (by decide)).1,
    (C24_refresh_recomputed wave_env state_after_init 1000000 0 1
      (acknowledges_of_readl _ rfl) (by decide) (by decide) (by decide) (by decide)).2.2.1
      (by decide),
    (C24_refresh_recomputed wave_env state_after_init 1000000 0 1
      (acknowledges_of_readl _ rfl) (by decide) (by decide) (by decide) (by decide)).2.2.2
      (fun _ => 0) (LPDDR <<< 8) state_at_boot (fun _ => rfl) (Or.inl (by decide)) rfl
      (by decide)⟩

/-! ## Busy-polls: termination and the shape of the history -/

theorem armclk_rate_of_level (env : Env) (hlay : clock_layout_ok env) (k : Nat) (hk : k < 5)
    (regs : Regs) (h0 : regs.CLK_DIV0 &&& clkdiv0_mask env = clkdiv0_val env k)
    (hpll : regs.APLL_CON = apll_val k) :
    armclk_get_rate env regs = freq_table_frequency k * 1000 := by
  obtain ⟨-, -, -, hsub, hfield⟩ := hlay
  unfold armclk_get_rate
  rw [and_submask regs.CLK_DIV0 _ _ hsub, h0, hfield k hk, hpll]
  interval_cases k <;> decide

theorem clock_regs_CLK_DIV0 (env : Env) (conf : List dram_conf) (index : Nat) (pll : Bool)
    (regs : Regs) :
    (clock_regs env conf index pll regs).CLK_DIV0 =
      rmw (clkdiv0_mask env) (clkdiv0_val env index) regs.CLK_DIV0 := by
  cases pll <;> rfl

theorem clock_regs_APLL_CON (env : Env) (conf : List dram_conf) (index : Nat) (pll : Bool)
    (regs : Regs) :
    (clock_regs env conf index pll regs).APLL_CON =
      if pll then apll_val index else regs.APLL_CON := by
  cases pll <;> rfl

/-- Every returning `s5pv210_target` call keeps the PLL word matched to the
level applied. -/
theorem target_keeps_pll_word (env : Env) (hlay : clock_layout_ok env)
    (hrate : env.clk_get_rate Clk.cpu_clk = armclk_get_rate env)
    (fuel : Nat) (s s1 : State) (target_freq relation : Nat) (ret : Int)
    (hinv : pll_word_matches env s)
    (hret : s5pv210_target env fuel s target_freq relation = some (ret, s1)) :
    pll_word_matches env s1 := by
  obtain ⟨k, hk, hword, hspeed⟩ := hinv
  obtain ⟨-, hcase⟩ := target_outcome env fuel s s1 target_freq relation ret hret
  rcases hcase with ⟨hregs, -⟩ | ⟨found, -, -, -, hregs, -⟩
  · refine ⟨k, hk, by rw [hregs]; exact hword, ?_⟩
    unfold s5pv210_getspeed at hspeed ⊢
    rw [hregs]
    exact hspeed
  · have hi := target_index_lt env s found
    have hword1 : s1.hw.regs.APLL_CON = apll_val (target_index env s found) := by
      rw [hregs, clock_regs_APLL_CON]
      cases hp : pll_changing (target_index env s found) (s5pv210_getspeed env s.hw 0)
      · rw [hspeed] at hp
        obtain ⟨hil, hkl⟩ := pll_changing_false _ k hk hp
        simp only [Bool.false_eq_true, if_false]
        rw [hword, apll_val_slow _ hil, apll_val_slow k hkl]
      · rfl
    have hdiv : s1.hw.regs.CLK_DIV0 &&& clkdiv0_mask env =
        clkdiv0_val env (target_index env s found) := by
      rw [hregs, clock_regs_CLK_DIV0]
      exact rmw_and_mask _ _ _ (hlay.1 _ hi) (clkdiv0_val_lt env _)
    refine ⟨target_index env s found, hi, hword1, ?_⟩
    unfold s5pv210_getspeed
    rw [if_neg (by simp), hrate, armclk_rate_of_level env hlay _ hi _ hdiv hword1]
    exact Nat.mul_div_cancel _ (by norm_num)

/-- C26: the PLL word matches the level in every reachable state.  On a
platform whose ARM clock is read back from the registers, with the hardware
acknowledging the busy-polls, starting from a state where `S5P_APLL_CON`
holds the constant of a level (`APLL_VAL_1200` at OC1, `APLL_VAL_1000` at L0,
`APLL_VAL_800` at L1, L2 and L3) whose frequency `s5pv210_getspeed(0)` reads
back, every sequence of `s5pv210_target` calls returns for every large enough
fuel and ends in a state where `S5P_APLL_CON` again holds the constant of the
level whose frequency is read back; a single call that returns keeps this
too. -/
theorem C26_pll_word_invariant (env : Env) (hlay : clock_layout_ok env)
    (hrate : env.clk_get_rate Clk.cpu_clk = armclk_get_rate env)
    (hack : hw_acknowledges env) (s : State) (hinv : pll_word_matches env s)
    (reqs : List (Nat × Nat)) :
    (∃ n0 rets s2,
      (∀ fuel, n0 ≤ fuel → target_calls env fuel s reqs = some (rets, s2)) ∧
      pll_word_matches env s2) ∧
    (∀ fuel target_freq relation ret s1,
      s5pv210_target env fuel s target_freq relation = some (ret, s1) →
      pll_word_matches env s1) ∧
    apll_val OC1 = APLL_VAL_1200 ∧ apll_val L0 = APLL_VAL_1000 ∧ apll_val L1 = APLL_VAL_800 ∧
    apll_val L2 = APLL_VAL_800 ∧ apll_val L3 = APLL_VAL_800 := by
  refine ⟨?_, ?_, rfl, rfl, rfl, rfl, rfl⟩
  · exact target_calls_invariant env hack (pll_word_matches env)
      (fun fuel s s1 f r ret hs hret => target_keeps_pll_word env hlay hrate fuel s s1 f r ret
        hs hret) reqs s hinv
  · intro fuel f r ret s1 hret
    exact target_keeps_pll_word env hlay hrate fuel s s1 f r ret hinv hret

theorem C26_pll_word_invariant_witness :
    clock_layout_ok wave_env ∧
    wave_env.clk_get_rate Clk.cpu_clk = armclk_get_rate wave_env ∧
    hw_acknowledges wave_env ∧
    pll_word_matches wave_env (state_at L1 false) ∧
    (target_calls wave_env 1 (state_at L1 false)
        [(400000, 0), (200000, 0), (1200000, 0), (800000, 0), (200000, 0)]).map
      (fun p => (p.1, p.2.hw.regs.APLL_CON, s5pv210_getspeed wave_env p.2.hw 0,
        (written_regs p.2.hw.trace).count Reg.S5P_APLL_CON)) =
      some ([0, 0, 0, 0, 0], APLL_VAL_800, 200000, 2) ∧
    ((∃ n0 rets s2,
      (∀ fuel, n0 ≤ fuel → target_calls wave_env fuel (state_at L1 false)
        [(400000, 0), (200000, 0), (1200000, 0), (800000, 0), (200000, 0)] =
          some (rets, s2)) ∧
      pll_word_matches wave_env s2) ∧
    (∀ fuel target_freq relation ret s1,
      s5pv210_target wave_env fuel (state_at L1 false) target_freq relation = some (ret, s1) →
      pll_word_matches wave_env s1) ∧
    apll_val OC1 = APLL_VAL_1200 ∧ apll_val L0 = APLL_VAL_1000 ∧ apll_val L1 = APLL_VAL_800 ∧
    apll_val L2 = APLL_VAL_800 ∧ apll_val L3 = APLL_VAL_800) :=
  ⟨by decide, rfl, acknowledges_of_readl _ rfl, by decide, by decide,
    C26_pll_word_invariant wave_env (by decide) rfl (acknowledges_of_readl _ rfl)
      (state_at L1 false) (by decide)
      [(400000, 0), (200000, 0), (1200000, 0), (800000, 0), (200000, 0)]⟩

/-- A completed frequency-changing request with both regulators present: the
driver events it adds to the history, by direction. -/
theorem target_voltage_order (env : Env) (s : State) (target_freq relation : Nat)
    (found : Fin 5) (hack : hw_acknowledges env)
    (hgate : passes_gate s relation)
    (hlook : env.cpufreq_frequency_table_target target_freq (stripped relation) = some found)
    (hne : freq_table_frequency (target_index env s found) ≠ s5pv210_getspeed env s.hw 0)
    (harm : IS_ERR_OR_NULL s.arm_regulator = false)
    (hint : IS_ERR_OR_NULL s.internal_regulator = false)
    (hup : (target_voltage_up env
      (target_resolved env (target_admitted s relation) (target_index env s found))
      (s.dvs_conf.getD (target_index env s found) ⟨0, 0⟩).arm_volt
      (s.dvs_conf.getD (target_index env s found) ⟨0, 0⟩).int_volt).1 = 0) :
    ∃ n0 s1,
      (∀ fuel, n0 ≤ fuel → s5pv210_target env fuel s target_freq relation = some (0, s1)) ∧
      s1.dvs_conf = s.dvs_conf ∧
      s1.freqs = ⟨0, s5pv210_getspeed env s.hw 0,
        freq_table_frequency (target_index env s found)⟩ ∧
      (freq_table_frequency (target_index env s found) > s5pv210_getspeed env s.hw 0 →
        effects s1.hw.trace = (effects s.hw.trace ++
          [Event.regulator_set_voltage Regulator.arm_regulator
              (s.dvs_conf.getD (target_index env s found) ⟨0, 0⟩).arm_volt arm_volt_max 0,
            Event.regulator_set_voltage Regulator.internal_regulator
              (s.dvs_conf.getD (target_index env s found) ⟨0, 0⟩).int_volt int_volt_max 0]) ++
          ([Event.cpufreq_notify_transition (s5pv210_getspeed env s.hw 0)
            (freq_table_frequency (target_index env s found)) Phase.CPUFREQ_PRECHANGE] ++
          clock_writes env s.s5pv210_dram_conf (target_index env s found)
            (pll_changing (target_index env s found) (s5pv210_getspeed env s.hw 0)) s.hw.regs ++
          [Event.cpufreq_notify_transition (s5pv210_getspeed env s.hw 0)
            (freq_table_frequency (target_index env s found)) Phase.CPUFREQ_POSTCHANGE])) ∧
      (freq_table_frequency (target_index env s found) < s5pv210_getspeed env s.hw 0 →
        ∃ e1 e2 : Int, effects s1.hw.trace = (effects s.hw.trace ++
          ([Event.cpufreq_notify_transition (s5pv210_getspeed env s.hw 0)
            (freq_table_frequency (target_index env s found)) Phase.CPUFREQ_PRECHANGE] ++
          clock_writes env s.s5pv210_dram_conf (target_index env s found)
            (pll_changing (target_index env s found) (s5pv210_getspeed env s.hw 0)) s.hw.regs ++
          [Event.cpufreq_notify_transition (s5pv210_getspeed env s.hw 0)
            (freq_table_frequency (target_index env s found)) Phase.CPUFREQ_POSTCHANGE])) ++
          [Event.regulator_set_voltage Regulator.internal_regulator
              (s.dvs_conf.getD (target_index env s found) ⟨0, 0⟩).int_volt int_volt_max e1,
            Event.regulator_set_voltage Regulator.arm_regulator
              (s.dvs_conf.getD (target_index env s found) ⟨0, 0⟩).arm_volt arm_volt_max e2]) := by
  obtain ⟨n0, h1, hrun, -, heff⟩ :=
    target_runs env s target_freq relation found hack hgate hlook hne hup
  refine ⟨n0, _, hrun, rfl, rfl, fun hgt => ?_, fun hlt => ?_⟩
  · have hnot : ¬ (target_resolved env (target_admitted s relation)
        (target_index env s found)).freqs.new <
        (target_resolved env (target_admitted s relation)
          (target_index env s found)).freqs.old := not_lt.mpr (le_of_lt hgt)
    have hd : (target_finish env
        (target_resolved env (target_admitted s relation) (target_index env s found))
        (s.dvs_conf.getD (target_index env s found) ⟨0, 0⟩).arm_volt
        (s.dvs_conf.getD (target_index env s found) ⟨0, 0⟩).int_volt h1).hw = h1 := by
      unfold target_finish
      exact voltage_down_not_slower env _ _ _ hnot
    have hu := voltage_up_present env
      (target_resolved env (target_admitted s relation) (target_index env s found))
      (s.dvs_conf.getD (target_index env s found) ⟨0, 0⟩).arm_volt
      (s.dvs_conf.getD (target_index env s found) ⟨0, 0⟩).int_volt hgt harm hint hup
    rw [hd, heff, hu, effects_append]
    rfl
  · have hnot : ¬ (target_resolved env (target_admitted s relation)
        (target_index env s found)).freqs.new >
        (target_resolved env (target_admitted s relation)
          (target_index env s found)).freqs.old := not_lt.mpr (le_of_lt hlt)
    obtain ⟨e1, e2, hd⟩ := voltage_down_present env
      { target_resolved env (target_admitted s relation) (target_index env s found)
        with hw := h1 }
      (s.dvs_conf.getD (target_index env s found) ⟨0, 0⟩).arm_volt
      (s.dvs_conf.getD (target_index env s found) ⟨0, 0⟩).int_volt hlt harm hint
    refine ⟨e1, e2, ?_⟩
    show effects (target_voltage_down env _ _ _).trace = _
    have hu := voltage_up_not_faster env
      (target_resolved env (target_admitted s relation) (target_index env s found))
      (s.dvs_conf.getD (target_index env s found) ⟨0, 0⟩).arm_volt
      (s.dvs_conf.getD (target_index env s found) ⟨0, 0⟩).int_volt hnot
    rw [hd, effects_append, heff, hu]
    rfl

theorem regulator_calls_clock_effects (env : Env) (conf : List dram_conf) (index : Nat)
    (pll : Bool) (regs : Regs) (a b : Nat) :
    regulator_calls ([Event.cpufreq_notify_transition a b Phase.CPUFREQ_PRECHANGE] ++
      clock_writes env conf index pll regs ++
      [Event.cpufreq_notify_transition a b Phase.CPUFREQ_POSTCHANGE]) = [] := by
  rw [regulator_calls_append, regulator_calls_append, regulator_calls_clock_writes]
  rfl

/-- C27: after every `s5pv210_target` call that changes the frequency and
returns 0, with both regulators present and every regulator call succeeding,
the last voltage window requested on the ARM rail is
`[dvs_conf[i].arm_volt, 1350000]` and on the internal rail
`[dvs_conf[i].int_volt, 1250000]`, where `i` is the index the request used
(after the DVFS clamp), whose frequency is `freqs.new`; this holds for a
scale-up and for a scale-down, and the call returns for every large enough
fuel. -/
theorem C27_last_voltage_window (env : Env) (s : State) (target_freq relation : Nat)
    (found : Fin 5) (hack : hw_acknowledges env)
    (hreg : ∀ tr rg x y, env.regulator_set_voltage tr rg x y = 0)
    (hgate : passes_gate s relation)
    (hlook : env.cpufreq_frequency_table_target target_freq (stripped relation) = some found)
    (hne : freq_table_frequency (target_index env s found) ≠ s5pv210_getspeed env s.hw 0)
    (harm : IS_ERR_OR_NULL s.arm_regulator = false)
    (hint : IS_ERR_OR_NULL s.internal_regulator = false) :
    ∃ n0 s1,
      (∀ fuel, n0 ≤ fuel → s5pv210_target env fuel s target_freq relation = some (0, s1)) ∧
      last_window Regulator.arm_regulator s1.hw.trace =
        some ((s1.dvs_conf.getD (target_index env s found) ⟨0, 0⟩).arm_volt, 1350000) ∧
      last_window Regulator.internal_regulator s1.hw.trace =
        some ((s1.dvs_conf.getD (target_index env s found) ⟨0, 0⟩).int_volt, 1250000) ∧
      s1.freqs.new = freq_table_frequency (target_index env s found) ∧
      s1.dvs_conf = s.dvs_conf := by
  obtain ⟨n0, s1, hrun, hdvs, hfreqs, hupeff, hdowneff⟩ :=
    target_voltage_order env s target_freq relation found hack hgate hlook hne harm hint
      (voltage_up_ok env _ _ _ hreg)
  refine ⟨n0, s1, hrun, ?_, ?_, by rw [hfreqs], hdvs⟩
  · rw [hdvs, ← last_window_effects]
    rcases lt_or_gt_of_ne hne with hlt | hgt
    · obtain ⟨e1, e2, heff⟩ := hdowneff hlt
      rw [heff]
      exact (last_window_int_arm _ _ _ _ _ e1 e2).1
    · rw [hupeff hgt, last_window_append_quiet _ _ _ (regulator_calls_clock_effects _ _ _ _ _ _ _)]
      exact (last_window_arm_int _ _ _ _ _ 0 0).1
  · rw [hdvs, ← last_window_effects]
    rcases lt_or_gt_of_ne hne with hlt | hgt
    · obtain ⟨e1, e2, heff⟩ := hdowneff hlt
      rw [heff]
      exact (last_window_int_arm _ _ _ _ _ e1 e2).2
    · rw [hupeff hgt, last_window_append_quiet _ _ _ (regulator_calls_clock_effects _ _ _ _ _ _ _)]
      exact (last_window_arm_int _ _ _ _ _ 0 0).2

theorem C27_last_voltage_window_witness :
    hw_acknowledges wave_env ∧
    (s5pv210_target wave_env 1 (state_at L1 false) 1000000 0).map
      (fun p => (p.1, last_window Regulator.arm_regulator p.2.hw.trace,
        last_window Regulator.internal_regulator p.2.hw.trace)) =
      some (0, some (1225000, 1350000), some (1100000, 1250000)) ∧
    (s5pv210_target wave_env 1 (state_at L1 false) 200000 0).map
      (fun p => (p.1, last_window Regulator.arm_regulator p.2.hw.trace,
        last_window Regulator.internal_regulator p.2.hw.trace)) =
      some (0, some (900000, 1350000), some (1100000, 1250000)) ∧
    ∃ n0 s1,
      (∀ fuel, n0 ≤ fuel →
        s5pv210_target wave_env fuel (state_at L1 false) 200000 0 = some (0, s1)) ∧
      last_window Regulator.arm_regulator s1.hw.trace =
        some ((s1.dvs_conf.getD (target_index wave_env (state_at L1 false) 4) ⟨0, 0⟩).arm_volt,
          1350000) ∧
      last_window Regulator.internal_regulator s1.hw.trace =
        some ((s1.dvs_conf.getD (target_index wave_env (state_at L1 false) 4) ⟨0, 0⟩).int_volt,
          1250000) ∧
      s1.freqs.new = freq_table_frequency (target_index wave_env (state_at L1 false) 4) ∧
      s1.dvs_conf = (state_at L1 false).dvs_conf :=
  ⟨acknowledges_of_readl _ rfl, by decide, by decide,
    C27_last_voltage_window wave_env (state_at L1 false) 200000 0 4
      (acknowledges_of_readl _ rfl) (fun _ _ _ _ => rfl) (by decide) (by decide) (by decide)
      (by decide) (by decide)⟩

/-! ## DVFS limit: the minimum over the held tokens -/

theorem shl32_one (t : Nat) (ht : t < 32) : shl32 1 t = 2 ^ t := by
  unfold shl32
  rw [Nat.one_shiftLeft]
  have h1 : 2 ^ t < 2 ^ 32 := Nat.pow_lt_pow_right (by norm_num) ht
  have h2 : (2 : Nat) ^ 32 = 4294967296 := by norm_num
  exact Nat.mod_eq_of_lt (by omega)

theorem and_two_pow_ne_zero (x t : Nat) : x &&& 2 ^ t ≠ 0 ↔ x.testBit t = true := by
  constructor
  · intro h
    by_contra hb
    apply h
    apply Nat.eq_of_testBit_eq
    intro i
    rw [Nat.testBit_and, Nat.testBit_two_pow, Nat.zero_testBit]
    by_cases hti : t = i
    · subst hti
      simp [hb]
    · simp [hti]
  · intro hb h0
    have := Nat.testBit_and x (2 ^ t) t
    rw [h0, Nat.zero_testBit, hb, Nat.testBit_two_pow_self] at this
    simp at this

theorem token_held_iff (s : State) (t : Nat) (ht : t < 32) :
    token_held s t ↔ s.g_dvfs_high_lock_token.testBit t = true := by
  unfold token_held
  rw [shl32_one t ht]
  exact and_two_pow_ne_zero _ _

theorem testBit_lock (x t u : Nat) (ht : t < 32) :
    (x ||| shl32 1 t).testBit u = (x.testBit u || decide (t = u)) := by
  rw [shl32_one t ht, Nat.testBit_or, Nat.testBit_two_pow]

theorem testBit_unlock (x t u : Nat) (ht : t < 32) :
    (x &&& not32 (shl32 1 t)).testBit u =
      (x.testBit u && (decide (u < 32) && !decide (t = u))) := by
  rw [shl32_one t ht, Nat.testBit_and, testBit_not32, Nat.testBit_two_pow]

theorem nat_getD_set_ne (l : List Nat) (i j x d : Nat) (h : i ≠ j) :
    (l.set i x).getD j d = l.getD j d := by
  simp only [List.getD_eq_getElem?_getD, List.getElem?_set_ne h]

theorem nat_getD_set_eq (l : List Nat) (i x d : Nat) (h : i < l.length) :
    (l.set i x).getD i d = x := by
  simp [List.getD_eq_getElem?_getD, List.getElem?_set, h]

theorem dvfs_limit_scan_succ (vals : List Nat) (n limit : Nat) :
    dvfs_limit_scan vals (n + 1) limit =
      if vals.getD n 0 < dvfs_limit_scan vals n limit then vals.getD n 0
      else dvfs_limit_scan vals n limit := by
  unfold dvfs_limit_scan
  rw [List.range_succ, List.foldl_append]
  rfl

theorem dvfs_limit_scan_spec (vals : List Nat) (limit : Nat) :
    ∀ n, dvfs_limit_scan vals n limit ≤ limit ∧
      (∀ i, i < n → dvfs_limit_scan vals n limit ≤ vals.getD i 0) ∧
      (dvfs_limit_scan vals n limit = limit ∨
        ∃ i, i < n ∧ dvfs_limit_scan vals n limit = vals.getD i 0) := by
  intro n
  induction n with
  | zero => exact ⟨le_refl _, fun i hi => absurd hi (Nat.not_lt_zero i), Or.inl rfl⟩
  | succ k ih =>
    obtain ⟨h1, h2, h3⟩ := ih
    rw [dvfs_limit_scan_succ]
    split_ifs with hlt
    · refine ⟨by omega, fun i hi => ?_, Or.inr ⟨k, by omega, rfl⟩⟩
      rcases Nat.lt_succ_iff_lt_or_eq.mp hi with h | h
      · have := h2 i h
        omega
      · rw [h]
    · refine ⟨h1, fun i hi => ?_, ?_⟩
      · rcases Nat.lt_succ_iff_lt_or_eq.mp hi with h | h
        · exact h2 i h
        · rw [h]
          omega
      · rcases h3 with h | ⟨i, hi, h⟩
        · exact Or.inl h
        · exact Or.inr ⟨i, by omega, h⟩

theorem lock_noop (nToken perf_level : Nat) (s : State)
    (h : token_held s nToken ∨ perf_level > MAX_PERF_LEVEL - 1) :
    s5pv210_lock_dvfs_high_level nToken perf_level s = s := by
  unfold token_held at h
  unfold s5pv210_lock_dvfs_high_level
  rcases h with h | h
  · rw [if_pos h]
  · rw [if_pos h]
    split_ifs <;> rfl

theorem lock_fields (t p : Nat) (s : State) (hfree : ¬ token_held s t)
    (hp : ¬ p > MAX_PERF_LEVEL - 1) :
    (s5pv210_lock_dvfs_high_level t p s).g_dvfs_high_lock_token =
      s.g_dvfs_high_lock_token ||| shl32 1 t ∧
    (s5pv210_lock_dvfs_high_level t p s).g_dvfslockval = s.g_dvfslockval.set t p ∧
    (s5pv210_lock_dvfs_high_level t p s).g_dvfs_high_lock_limit =
      (if p < s.g_dvfs_high_lock_limit then p else s.g_dvfs_high_lock_limit) := by
  unfold token_held at hfree
  unfold s5pv210_lock_dvfs_high_level
  rw [if_neg hfree, if_neg hp]
  dsimp only
  split_ifs <;> exact ⟨rfl, rfl, rfl⟩

theorem unlock_fields (env : Env) (t : Nat) (s : State) :
    (s5pv210_unlock_dvfs_high_level env t s).g_dvfs_high_lock_token =
      s.g_dvfs_high_lock_token &&& not32 (shl32 1 t) ∧
    (s5pv210_unlock_dvfs_high_level env t s).g_dvfslockval =
      s.g_dvfslockval.set t MAX_PERF_LEVEL ∧
    (s5pv210_unlock_dvfs_high_level env t s).g_dvfs_high_lock_limit =
      (if s.g_dvfs_high_lock_token &&& not32 (shl32 1 t) ≠ 0 then
        dvfs_limit_scan (s.g_dvfslockval.set t MAX_PERF_LEVEL) env.DVFS_LOCK_TOKEN_NUM
          MAX_PERF_LEVEL
       else MAX_PERF_LEVEL) := by
  unfold s5pv210_unlock_dvfs_high_level
  dsimp only
  split_ifs <;> exact ⟨rfl, rfl, rfl⟩

theorem lock_keeps_invariant (env : Env) (hnum : env.DVFS_LOCK_TOKEN_NUM ≤ 32) (t p : Nat)
    (s : State) (ht : t < env.DVFS_LOCK_TOKEN_NUM) (hinv : dvfs_invariant env s) :
    dvfs_invariant env (s5pv210_lock_dvfs_high_level t p s) := by
  by_cases hnoop : token_held s t ∨ p > MAX_PERF_LEVEL - 1
  · rw [lock_noop t p s hnoop]
    exact hinv
  · have hfree : ¬ token_held s t := fun h => hnoop (Or.inl h)
    have hp : ¬ p > MAX_PERF_LEVEL - 1 := fun h => hnoop (Or.inr h)
    have hp3 : p ≤ MAX_PERF_LEVEL - 1 := not_lt.mp hp
    have ht32 : t < 32 := lt_of_lt_of_le ht hnum
    have hbit : s.g_dvfs_high_lock_token.testBit t = false := by
      rw [token_held_iff s t ht32] at hfree
      simpa using hfree
    obtain ⟨hT, hV, hL⟩ := lock_fields t p s hfree hp
    obtain ⟨ha, hd, hb, hc, he, hf⟩ := hinv
    have hbits : ∀ u, (s5pv210_lock_dvfs_high_level t p s).g_dvfs_high_lock_token.testBit u =
        (s.g_dvfs_high_lock_token.testBit u || decide (t = u)) := by
      intro u
      rw [hT, testBit_lock _ _ _ ht32]
    have hval_t : (s5pv210_lock_dvfs_high_level t p s).g_dvfslockval.getD t 0 = p := by
      rw [hV]
      exact nat_getD_set_eq _ _ _ _ (by omega)
    have hval_ne : ∀ u, t ≠ u →
        (s5pv210_lock_dvfs_high_level t p s).g_dvfslockval.getD u 0 =
          s.g_dvfslockval.getD u 0 := by
      intro u hu
      rw [hV]
      exact nat_getD_set_ne _ _ _ _ _ hu
    have hheld : ∀ u, (s5pv210_lock_dvfs_high_level t p s).g_dvfs_high_lock_token.testBit u
        = true → (s.g_dvfs_high_lock_token.testBit u = true ∧ t ≠ u) ∨ t = u := by
      intro u hu
      rw [hbits u] at hu
      by_cases htu : t = u
      · exact Or.inr htu
      · left
        simp only [htu, decide_False, Bool.or_false] at hu
        exact ⟨hu, htu⟩
    refine ⟨?_, ?_, ?_, ?_, ?_, ?_⟩
    · rw [hV, List.length_set]
      exact ha
    · intro i hi
      rcases hheld i hi with ⟨h, -⟩ | h
      · exact hd i h
      · rw [← h]
        exact ht
    · intro u hu hfalse
      rw [hbits u] at hfalse
      simp only [Bool.or_eq_false_iff, decide_eq_false_iff_not] at hfalse
      rw [hval_ne u hfalse.2]
      exact hb u hu hfalse.1
    · intro u hu htrue
      rcases hheld u htrue with ⟨h, hne⟩ | h
      · rw [hval_ne u hne]
        exact hc u hu h
      · rw [← h, hval_t]
        exact hp3
    · intro _
      have htrue_t : (s5pv210_lock_dvfs_high_level t p s).g_dvfs_high_lock_token.testBit t
          = true := by
        rw [hbits t]
        simp
      by_cases htok : s.g_dvfs_high_lock_token = 0
      · have hlim := hf htok
        have hlt : p < s.g_dvfs_high_lock_limit := by
          unfold MAX_PERF_LEVEL L3 at hlim hp3
          omega
        rw [hL, if_pos hlt]
        refine ⟨⟨t, ht, htrue_t, hval_t⟩, fun u hu htrue => ?_⟩
        rcases hheld u htrue with ⟨h, -⟩ | h
        · rw [htok, Nat.zero_testBit] at h
          cases h
        · rw [← h, hval_t]
      · obtain ⟨⟨u0, hu0, hheld0, hval0⟩, hmin⟩ := he htok
        have hne0 : t ≠ u0 := by
          intro h
          rw [← h, hbit] at hheld0
          cases hheld0
        rw [hL]
        split_ifs with hlt
        · refine ⟨⟨t, ht, htrue_t, hval_t⟩, fun u hu htrue => ?_⟩
          rcases hheld u htrue with ⟨h, hne⟩ | h
          · rw [hval_ne u hne]
            have := hmin u hu h
            omega
          · rw [← h, hval_t]
        · refine ⟨⟨u0, hu0, ?_, ?_⟩, fun u hu htrue => ?_⟩
          · rw [hbits u0, hheld0]
            rfl
          · rw [hval_ne u0 hne0]
            exact hval0
          · rcases hheld u htrue with ⟨h, hne⟩ | h
            · rw [hval_ne u hne]
              exact hmin u hu h
            · rw [← h, hval_t]
              omega
    · intro h0
      exfalso
      have := hbits t
      rw [h0, Nat.zero_testBit] at this
      simp at this

theorem unlock_keeps_invariant (env : Env) (hnum : env.DVFS_LOCK_TOKEN_NUM ≤ 32) (t : Nat)
    (s : State) (ht : t < env.DVFS_LOCK_TOKEN_NUM) (hinv : dvfs_invariant env s) :
    dvfs_invariant env (s5pv210_unlock_dvfs_high_level env t s) := by
  have ht32 : t < 32 := lt_of_lt_of_le ht hnum
  obtain ⟨hT, hV, hL⟩ := unlock_fields env t s
  obtain ⟨ha, hd, hb, hc, he, hf⟩ := hinv
  have hbits : ∀ u, u < env.DVFS_LOCK_TOKEN_NUM →
      (s5pv210_unlock_dvfs_high_level env t s).g_dvfs_high_lock_token.testBit u =
        (s.g_dvfs_high_lock_token.testBit u && !decide (t = u)) := by
    intro u hu
    have hu32 : u < 32 := lt_of_lt_of_le hu hnum
    rw [hT, testBit_unlock _ _ _ ht32]
    simp [hu32]
  have hsub : ∀ u, (s5pv210_unlock_dvfs_high_level env t s).g_dvfs_high_lock_token.testBit u
      = true → s.g_dvfs_high_lock_token.testBit u = true := by
    intro u hu
    rw [hT, Nat.testBit_and, Bool.and_eq_true] at hu
    exact hu.1
  have hval_t : (s5pv210_unlock_dvfs_high_level env t s).g_dvfslockval.getD t 0 =
      MAX_PERF_LEVEL := by
    rw [hV]
    exact nat_getD_set_eq _ _ _ _ (by omega)
  have hval_ne : ∀ u, t ≠ u →
      (s5pv210_unlock_dvfs_high_level env t s).g_dvfslockval.getD u 0 =
        s.g_dvfslockval.getD u 0 := by
    intro u hu
    rw [hV]
    exact nat_getD_set_ne _ _ _ _ _ hu
  have hb1 : ∀ u, u < env.DVFS_LOCK_TOKEN_NUM →
      (s5pv210_unlock_dvfs_high_level env t s).g_dvfs_high_lock_token.testBit u = false →
      (s5pv210_unlock_dvfs_high_level env t s).g_dvfslockval.getD u 0 = MAX_PERF_LEVEL := by
    intro u hu hfalse
    by_cases htu : t = u
    · rw [← htu]
      exact hval_t
    · rw [hbits u hu] at hfalse
      simp only [htu, decide_False, Bool.not_false, Bool.and_true] at hfalse
      rw [hval_ne u htu]
      exact hb u hu hfalse
  have hc1 : ∀ u, u < env.DVFS_LOCK_TOKEN_NUM →
      (s5pv210_unlock_dvfs_high_level env t s).g_dvfs_high_lock_token.testBit u = true →
      (s5pv210_unlock_dvfs_high_level env t s).g_dvfslockval.getD u 0 ≤
        MAX_PERF_LEVEL - 1 := by
    intro u hu htrue
    have hold := hsub u htrue
    rw [hbits u hu, hold] at htrue
    have htu : t ≠ u := by
      intro h
      simp [h] at htrue
    rw [hval_ne u htu]
    exact hc u hu hold
  refine ⟨?_, fun i hi => hd i (hsub i hi), hb1, hc1, ?_, ?_⟩
  · rw [hV, List.length_set]
    exact ha
  · intro hne
    have hne2 : s.g_dvfs_high_lock_token &&& not32 (shl32 1 t) ≠ 0 := by
      rw [← hT]
      exact hne
    rw [hL, if_pos hne2, ← hV]
    obtain ⟨i0, hi0⟩ := Nat.ne_zero_implies_bit_true hne
    have hi0n : i0 < env.DVFS_LOCK_TOKEN_NUM := hd i0 (hsub i0 hi0)
    obtain ⟨h1, h2, h3⟩ := dvfs_limit_scan_spec
      (s5pv210_unlock_dvfs_high_level env t s).g_dvfslockval MAX_PERF_LEVEL
      env.DVFS_LOCK_TOKEN_NUM
    have hsmall := le_trans (h2 i0 hi0n) (hc1 i0 hi0n hi0)
    refine ⟨?_, fun u hu _ => h2 u hu⟩
    rcases h3 with h | ⟨j, hj, h⟩
    · exfalso
      rw [h] at hsmall
      unfold MAX_PERF_LEVEL L3 at hsmall
      omega
    · refine ⟨j, hj, ?_, h.symm⟩
      by_contra hbit
      have hfalse : (s5pv210_unlock_dvfs_high_level env t s).g_dvfs_high_lock_token.testBit j
          = false := by simpa using hbit
      have := hb1 j hj hfalse
      rw [h, this] at hsmall
      unfold MAX_PERF_LEVEL L3 at hsmall
      omega
  · intro h0
    have h02 : ¬ (s.g_dvfs_high_lock_token &&& not32 (shl32 1 t) ≠ 0) := by
      rw [← hT, h0]
      simp
    rw [hL, if_neg h02]

theorem dvfs_calls_invariant (env : Env) (hnum : env.DVFS_LOCK_TOKEN_NUM ≤ 32) :
    ∀ (calls : List dvfs_call) (s : State),
      (∀ c ∈ calls, c.nToken < env.DVFS_LOCK_TOKEN_NUM) → dvfs_invariant env s →
      dvfs_invariant env (dvfs_calls env s calls) := by
  intro calls
  induction calls with
  | nil => intro s _ h; exact h
  | cons c rest ih =>
    intro s hc hinv
    have hct := hc c (List.mem_cons_self _ _)
    have hstep : dvfs_invariant env (dvfs_apply env s c) := by
      cases c with
      | lock t p => exact lock_keeps_invariant env hnum t p s hct hinv
      | unlock t => exact unlock_keeps_invariant env hnum t s hct hinv
    exact ih _ (fun c2 h2 => hc c2 (List.mem_cons_of_mem _ h2)) hstep

theorem dvfs_lockval_init_spec :
    ∀ (n : Nat) (vals : List Nat),
      (dvfs_lockval_init n vals).length = vals.length ∧
      ∀ i, i < n → i < vals.length → (dvfs_lockval_init n vals).getD i 0 = MAX_PERF_LEVEL := by
  intro n
  induction n with
  | zero => intro vals; exact ⟨rfl, fun i hi => absurd hi (Nat.not_lt_zero i)⟩
  | succ k ih =>
    intro vals
    obtain ⟨hlen, hval⟩ := ih vals
    have hstep : dvfs_lockval_init (k + 1) vals =
        (dvfs_lockval_init k vals).set k MAX_PERF_LEVEL := by
      unfold dvfs_lockval_init
      rw [List.range_succ, List.foldl_append]
      rfl
    rw [hstep]
    refine ⟨by rw [List.length_set, hlen], fun i hi hil => ?_⟩
    by_cases hik : k = i
    · rw [← hik]
      exact nat_getD_set_eq _ _ _ _ (by omega)
    · rw [nat_getD_set_ne _ _ _ _ _ hik]
      exact hval i (by omega) hil

/-- C28: the DVFS limit is the minimum over the held tokens.  In a build with
at most 32 tokens, from a state with no token held, a limit of at least
`MAX_PERF_LEVEL` (the C initialiser is 6) and every entry of `g_dvfslockval`
equal to `MAX_PERF_LEVEL` (as a successful `s5pv210_cpu_init` of the
`CONFIG_DVFS_LIMIT` build leaves it), after every sequence of
`s5pv210_lock_dvfs_high_level` and `s5pv210_unlock_dvfs_high_level` calls with
token numbers below `DVFS_LOCK_TOKEN_NUM`: whenever the token mask is non-zero,
`g_dvfs_high_lock_limit` is the minimum of `g_dvfslockval` over the held
tokens; every token not held has the value `MAX_PERF_LEVEL`; and a lock call
for a token already held, or with a level above `MAX_PERF_LEVEL - 1`, changes
nothing. -/
theorem C28_limit_is_minimum (env : Env) (hnum : env.DVFS_LOCK_TOKEN_NUM ≤ 32) (s0 : State)
    (htok : s0.g_dvfs_high_lock_token = 0)
    (hlim : MAX_PERF_LEVEL ≤ s0.g_dvfs_high_lock_limit)
    (hlen : s0.g_dvfslockval.length = env.DVFS_LOCK_TOKEN_NUM)
    (hvals : ∀ t, t < env.DVFS_LOCK_TOKEN_NUM → s0.g_dvfslockval.getD t 0 = MAX_PERF_LEVEL)
    (calls : List dvfs_call)
    (hcalls : ∀ c ∈ calls, c.nToken < env.DVFS_LOCK_TOKEN_NUM) :
    ((dvfs_calls env s0 calls).g_dvfs_high_lock_token ≠ 0 →
      limit_is_minimum env (dvfs_calls env s0 calls)) ∧
    (∀ t, t < env.DVFS_LOCK_TOKEN_NUM → ¬ token_held (dvfs_calls env s0 calls) t →
      (dvfs_calls env s0 calls).g_dvfslockval.getD t 0 = MAX_PERF_LEVEL) ∧
    (∀ t p, token_held (dvfs_calls env s0 calls) t ∨ p > MAX_PERF_LEVEL - 1 →
      s5pv210_lock_dvfs_high_level t p (dvfs_calls env s0 calls) = dvfs_calls env s0 calls) ∧
    (∀ (clk_err : Clk → Int) (memcontrol : Nat) (table_cpuinfo : Int) (sb : State),
      env.CONFIG_DVFS_LIMIT = true → (∀ c, clk_err c = 0) →
      (check_mem_type memcontrol = LPDDR ∨ check_mem_type memcontrol = LPDDR2) →
      sb.g_dvfslockval.length = env.DVFS_LOCK_TOKEN_NUM →
      (s5pv210_cpu_init env clk_err 0 memcontrol table_cpuinfo sb).2.g_dvfslockval.length =
        env.DVFS_LOCK_TOKEN_NUM ∧
      ∀ t, t < env.DVFS_LOCK_TOKEN_NUM →
        (s5pv210_cpu_init env clk_err 0 memcontrol table_cpuinfo sb).2.g_dvfslockval.getD t 0 =
          MAX_PERF_LEVEL) := by
  have hinv0 : dvfs_invariant env s0 := by
    refine ⟨hlen, fun i hi => ?_, fun t ht _ => hvals t ht, fun t _ hb => ?_, fun h => absurd htok h,
      fun _ => hlim⟩
    · rw [htok, Nat.zero_testBit] at hi
      cases hi
    · rw [htok, Nat.zero_testBit] at hb
      cases hb
  obtain ⟨-, -, hb, -, he, -⟩ := dvfs_calls_invariant env hnum calls s0 hcalls hinv0
  refine ⟨fun hne => ?_, fun t ht hfree => ?_, fun t p h => lock_noop t p _ h, ?_⟩
  · obtain ⟨⟨t, ht, hheld, hval⟩, hmin⟩ := he hne
    refine ⟨⟨t, ht, (token_held_iff _ t (lt_of_lt_of_le ht hnum)).mpr hheld, hval⟩,
      fun u hu hheldu => hmin u hu ((token_held_iff _ u (lt_of_lt_of_le hu hnum)).mp hheldu)⟩
  · apply hb t ht
    rw [token_held_iff _ t (lt_of_lt_of_le ht hnum)] at hfree
    simpa using hfree
  · intro clk_err memcontrol table_cpuinfo sb hcfg hclk hmem hlenb
    have hm : ¬ (check_mem_type memcontrol ≠ LPDDR ∧ check_mem_type memcontrol ≠ LPDDR2) := by
      rcases hmem with h | h
      · exact fun hc => hc.1 h
      · exact fun hc => hc.2 h
    have hval : (s5pv210_cpu_init env clk_err 0 memcontrol table_cpuinfo sb).2.g_dvfslockval =
        dvfs_lockval_init env.DVFS_LOCK_TOKEN_NUM sb.g_dvfslockval := by
      unfold s5pv210_cpu_init
      simp only [hclk, ne_eq, not_true_eq_false, if_false]
      rw [if_neg hm]
      simp only [hcfg, if_true]
    obtain ⟨h1, h2⟩ := dvfs_lockval_init_spec env.DVFS_LOCK_TOKEN_NUM sb.g_dvfslockval
    rw [hval]
    exact ⟨by rw [h1, hlenb], fun t ht => h2 t ht (by omega)⟩

theorem C28_limit_is_minimum_witness :
    wave_env.DVFS_LOCK_TOKEN_NUM ≤ 32 ∧
    state_after_init.g_dvfs_high_lock_token = 0 ∧
    state_after_init.g_dvfs_high_lock_limit = 6 ∧
    state_after_init.g_dvfslockval = List.replicate 8 MAX_PERF_LEVEL ∧
    ((dvfs_calls wave_env state_after_init
        [dvfs_call.lock 0 L2, dvfs_call.lock 3 L0, dvfs_call.lock 0 OC1, dvfs_call.lock 5 4,
         dvfs_call.lock 6 L1]).g_dvfs_high_lock_token,
      (dvfs_calls wave_env state_after_init
        [dvfs_call.lock 0 L2, dvfs_call.lock 3 L0, dvfs_call.lock 0 OC1, dvfs_call.lock 5 4,
         dvfs_call.lock 6 L1]).g_dvfs_high_lock_limit,
      (dvfs_calls wave_env state_after_init
        [dvfs_call.lock 0 L2, dvfs_call.lock 3 L0, dvfs_call.lock 0 OC1, dvfs_call.lock 5 4,
         dvfs_call.lock 6 L1]).g_dvfslockval) = (73, 1, [3, 4, 4, 1, 4, 4, 2, 4]) ∧
    ((dvfs_calls wave_env state_after_init
        [dvfs_call.lock 0 L2, dvfs_call.lock 3 L0, dvfs_call.lock 0 OC1, dvfs_call.lock 5 4,
         dvfs_call.lock 6 L1, dvfs_call.unlock 3]).g_dvfs_high_lock_token,
      (dvfs_calls wave_env state_after_init
        [dvfs_call.lock 0 L2, dvfs_call.lock 3 L0, dvfs_call.lock 0 OC1, dvfs_call.lock 5 4,
         dvfs_call.lock 6 L1, dvfs_call.unlock 3]).g_dvfs_high_lock_limit,
      (dvfs_calls wave_env state_after_init
        [dvfs_call.lock 0 L2, dvfs_call.lock 3 L0, dvfs_call.lock 0 OC1, dvfs_call.lock 5 4,
         dvfs_call.lock 6 L1, dvfs_call.unlock 3]).g_dvfslockval) =
      (65, 2, [3, 4, 4, 4, 4, 4, 2, 4]) ∧
    limit_is_minimum wave_env (dvfs_calls wave_env state_after_init
        [dvfs_call.lock 0 L2, dvfs_call.lock 3 L0, dvfs_call.lock 0 OC1, dvfs_call.lock 5 4,
         dvfs_call.lock 6 L1, dvfs_call.unlock 3]) ∧
    ((dvfs_calls wave_env state_after_init
        [dvfs_call.lock 0 L2, dvfs_call.lock 3 L0, dvfs_call.lock 0 OC1, dvfs_call.lock 5 4,
         dvfs_call.lock 6 L1, dvfs_call.unlock 3]).g_dvfs_high_lock_token ≠ 0 →
      limit_is_minimum wave_env (dvfs_calls wave_env state_after_init
        [dvfs_call.lock 0 L2, dvfs_call.lock 3 L0, dvfs_call.lock 0 OC1, dvfs_call.lock 5 4,
         dvfs_call.lock 6 L1, dvfs_call.unlock 3])) :=
  ⟨by decide, by decide, by decide, by decide, by decide, by decide, by decide,
    (C28_limit_is_minimum wave_env (by decide) state_after_init (by decide) (by decide)
      (by decide) (by decide)
      [dvfs_call.lock 0 L2, dvfs_call.lock 3 L0, dvfs_call.lock 0 OC1, dvfs_call.lock 5 4,
       dvfs_call.lock 6 L1, dvfs_call.unlock 3] (by decide)).1⟩

/-! ## Negative values in the voltage table write -/

theorem store_clamp_negative (u : Int) (hlo : -2147483648 ≤ u) (hneg : u < 0) :
    store_clamp u = 1350000 := by
  unfold store_clamp arm_volt_max
  have h1 : u % 4294967296 = u + 4294967296 := by
    rw [← Int.add_emod_self, Int.emod_eq_of_lt (by omega) (by omega)]
  have h2 : (u % 4294967296).toNat > 1350000 / 1000 := by
    rw [h1]
    have : (1350000 / 1000 : Nat) = 1350 := by norm_num
    rw [this]
    omega
  simp only [h2, if_true]
  norm_num
  rfl

theorem store_clamp_zero : store_clamp 0 = 0 := by
  decide

/-- C29: a negative integer written through `store_UV_mV_table` is stored as
the table maximum.  The clamp compares the parsed `int` as an unsigned word
with 1350, so for every parsed value `v_i` that is a negative `int`
(`-2^31 <= v_i < 0`) `dvs_conf[i].arm_volt` becomes 1,350,000 uV; there is no
lower bound: a parsed 0 is stored as 0 uV. -/
theorem C29_negative_stored_as_maximum (sscanf : List Nat → Option (Int × Nat)) (s : State)
    (buf : List Nat) (count i : Nat) (hlen : s.dvs_conf.length = MAX_PERF_LEVEL + 1)
    (hi : i < (store_scan sscanf (MAX_PERF_LEVEL + 1) buf).length) :
    (-2147483648 ≤ (store_scan sscanf (MAX_PERF_LEVEL + 1) buf).getD i 0 →
      (store_scan sscanf (MAX_PERF_LEVEL + 1) buf).getD i 0 < 0 →
      ((store_UV_mV_table sscanf s buf count).2.dvs_conf.getD i ⟨0, 0⟩).arm_volt = 1350000) ∧
    ((store_scan sscanf (MAX_PERF_LEVEL + 1) buf).getD i 0 = 0 →
      ((store_UV_mV_table sscanf s buf count).2.dvs_conf.getD i ⟨0, 0⟩).arm_volt = 0) ∧
    arm_volt_max = 1350000 := by
  have hn : (store_scan sscanf (MAX_PERF_LEVEL + 1) buf).length ≤ 5 :=
    store_scan_length sscanf (MAX_PERF_LEVEL + 1) buf
  have hlen5 : s.dvs_conf.length = 5 := hlen
  have harm : ((store_UV_mV_table sscanf s buf count).2.dvs_conf.getD i ⟨0, 0⟩).arm_volt =
      store_clamp ((store_scan sscanf (MAX_PERF_LEVEL + 1) buf).getD i 0) := by
    have := store_apply_arm_volt (store_scan sscanf (MAX_PERF_LEVEL + 1) buf) s.dvs_conf 0 i hi
      (by omega)
    rw [Nat.zero_add] at this
    exact this
  refine ⟨fun hlo hneg => ?_, fun h0 => ?_, rfl⟩
  · rw [harm, store_clamp_negative _ hlo hneg]
  · rw [harm, h0, store_clamp_zero]

theorem C29_negative_stored_as_maximum_witness :
    (state_at L1 false).dvs_conf.length = MAX_PERF_LEVEL + 1 ∧
    store_scan sscanf_d (MAX_PERF_LEVEL + 1) uv_table_negative = [0, -1, -2147483648] ∧
    (store_UV_mV_table sscanf_d (state_at L1 false) uv_table_negative 16).2.dvs_conf =
      [⟨0, 1100000⟩, ⟨1350000, 1100000⟩, ⟨1350000, 1100000⟩, ⟨950000, 1100000⟩,
        ⟨900000, 1100000⟩] ∧
    (-2147483648 ≤ (store_scan sscanf_d (MAX_PERF_LEVEL + 1) uv_table_negative).getD 1 0 →
      (store_scan sscanf_d (MAX_PERF_LEVEL + 1) uv_table_negative).getD 1 0 < 0 →
      ((store_UV_mV_table sscanf_d (state_at L1 false) uv_table_negative 16).2.dvs_conf.getD
        1 ⟨0, 0⟩).arm_volt = 1350000) ∧
    ((store_scan sscanf_d (MAX_PERF_LEVEL + 1) uv_table_negative).getD 1 0 = 0 →
      ((store_UV_mV_table sscanf_d (state_at L1 false) uv_table_negative 16).2.dvs_conf.getD
        1 ⟨0, 0⟩).arm_volt = 0) ∧
    arm_volt_max = 1350000 :=
  ⟨by decide, by decide, by decide,
    C29_negative_stored_as_maximum sscanf_d (state_at L1 false) uv_table_negative 16 1
      (by decide) (by decide)⟩

/-! ## Wi-Fi memory preallocation -/

theorem wifi_mem_alloc_sizes (kmalloc : Nat → Pointer) :
    ∀ arr : List wifi_mem_prealloc,
      (wifi_mem_alloc kmalloc arr).map (fun e => e.size) = arr.map (fun e => e.size) := by
  intro arr
  induction arr with
  | nil => rfl
  | cons e rest ih =>
    unfold wifi_mem_alloc
    split_ifs
    · rfl
    · simp only [List.map_cons, ih]

/-- C30: `wave_mem_prealloc(section, size)` never indexes `wifi_mem_array`
outside 0..3.  For every array holding the four section sizes of the static
table (160*128+24, 160*128+24, 160*512+24, 160*1024+24 bytes; the table itself
and the table after `wave_init_wifi_mem` do), every `int` section and every
size, the call has a defined result: the static skb array when section is 4,
NULL when section is negative or above 4, NULL when section is one of 0..3 and
the size exceeds the size of that section, and otherwise the pointer stored
for the section. -/
theorem C30_wave_mem_prealloc (arr : List wifi_mem_prealloc)
    (hsize : arr.map (fun e => e.size) =
      [160 * 128 + 24, 160 * 128 + 24, 160 * 512 + 24, 160 * 1024 + 24])
    (sect : Int) (size : Nat) :
    (∃ p, wave_mem_prealloc arr sect size = some p ∧
      (sect = 4 → p = Pointer.wlan_static_skb) ∧
      (sect < 0 ∨ sect > 4 → p = Pointer.NULL) ∧
      (∀ i : Nat, i < 4 → sect = (i : Int) →
        (([160 * 128 + 24, 160 * 128 + 24, 160 * 512 + 24, 160 * 1024 + 24] : List Nat).getD
            i 0 < size → p = Pointer.NULL) ∧
        (size ≤ ([160 * 128 + 24, 160 * 128 + 24, 160 * 512 + 24, 160 * 1024 + 24] :
            List Nat).getD i 0 → p = (arr.getD i ⟨Pointer.NULL, 0⟩).mem_ptr))) ∧
    (∀ kmalloc : Nat → Pointer,
      (wifi_mem_alloc kmalloc arr).map (fun e => e.size) =
        [160 * 128 + 24, 160 * 128 + 24, 160 * 512 + 24, 160 * 1024 + 24]) := by
  refine ⟨?_, fun k => by rw [wifi_mem_alloc_sizes, hsize]⟩
  have hlen : arr.length = 4 := by
    have := congrArg List.length hsize
    simpa using this
  unfold wave_mem_prealloc PREALLOC_WLAN_SEC_NUM
  by_cases h4 : sect = 4
  · refine ⟨Pointer.wlan_static_skb, by simp [h4], fun _ => rfl, ?_, ?_⟩
    · rintro (h | h) <;> omega
    · intro i hi hs; omega
  · by_cases hout : sect < 0 ∨ sect > 4
    · refine ⟨Pointer.NULL, by simp [h4, hout], fun h => absurd h h4, fun _ => rfl, ?_⟩
      intro i hi hs
      rcases hout with h | h <;> omega
    · have hlo : 0 ≤ sect := by omega
      obtain ⟨i, hsi⟩ := Int.eq_ofNat_of_zero_le hlo
      have hi : i < 4 := by omega
      have hget : arr.get? sect.toNat = some (arr.getD i ⟨Pointer.NULL, 0⟩) := by
        rw [hsi, Int.toNat_ofNat, List.getD_eq_getElem?_getD, List.get?_eq_getElem?,
          List.getElem?_eq_getElem (by omega)]
        rfl
      have hsz : (arr.getD i ⟨Pointer.NULL, 0⟩).size =
          ([160 * 128 + 24, 160 * 128 + 24, 160 * 512 + 24, 160 * 1024 + 24] : List Nat).getD
            i 0 := by
        rw [← hsize]
        exact (List.getD_map arr ⟨Pointer.NULL, 0⟩ (fun e : wifi_mem_prealloc => e.size)).symm
      have hcast : ((4 : Nat) : Int) = 4 := rfl
      rw [hget]
      simp only [hcast, h4, if_false, hout]
      by_cases hs : (arr.getD i ⟨Pointer.NULL, 0⟩).size < size
      · refine ⟨Pointer.NULL, by rw [if_pos hs], fun h => h.elim, fun _ => rfl, ?_⟩
        intro j hj hsj
        have hji : j = i := by omega
        subst hji
        exact ⟨fun _ => rfl, fun hle => by rw [← hsz] at hle; omega⟩
      · refine ⟨(arr.getD i ⟨Pointer.NULL, 0⟩).mem_ptr, by rw [if_neg hs],
          fun h => h.elim, fun h => h.elim, ?_⟩
        intro j hj hsj
        have hji : j = i := by omega
        subst hji
        exact ⟨fun hlt => by rw [← hsz] at hlt; omega, fun _ => rfl⟩

theorem C30_wave_mem_prealloc_witness :
    wifi_mem_array_ready.map (fun e => e.size) =
      [160 * 128 + 24, 160 * 128 + 24, 160 * 512 + 24, 160 * 1024 + 24] ∧
    wave_mem_prealloc wifi_mem_array_ready 4 100 = some Pointer.wlan_static_skb ∧
    wave_mem_prealloc wifi_mem_array_ready (-1) 100 = some Pointer.NULL ∧
    wave_mem_prealloc wifi_mem_array_ready 5 100 = some Pointer.NULL ∧
    wave_mem_prealloc wifi_mem_array_ready 2 81944 = some (Pointer.kmalloc (0x1000 + 81944)) ∧
    wave_mem_prealloc wifi_mem_array_ready 2 81945 = some Pointer.NULL ∧
    wave_mem_prealloc wifi_mem_array 3 0 = some Pointer.NULL ∧
    ((∃ p, wave_mem_prealloc wifi_mem_array_ready 2 81945 = some p ∧
      ((2 : Int) = 4 → p = Pointer.wlan_static_skb) ∧
      ((2 : Int) < 0 ∨ (2 : Int) > 4 → p = Pointer.NULL) ∧
      (∀ i : Nat, i < 4 → (2 : Int) = (i : Int) →
        (([160 * 128 + 24, 160 * 128 + 24, 160 * 512 + 24, 160 * 1024 + 24] : List Nat).getD
            i 0 < 81945 → p = Pointer.NULL) ∧
        (81945 ≤ ([160 * 128 + 24, 160 * 128 + 24, 160 * 512 + 24, 160 * 1024 + 24] :
            List Nat).getD i 0 →
          p = (wifi_mem_array_ready.getD i ⟨Pointer.NULL, 0⟩).mem_ptr))) ∧
    (∀ kmalloc : Nat → Pointer,
      (wifi_mem_alloc kmalloc wifi_mem_array_ready).map (fun e => e.size) =
        [160 * 128 + 24, 160 * 128 + 24, 160 * 512 + 24, 160 * 1024 + 24])) :=
  ⟨by decide, by decide, by decide, by decide, by decide, by decide, by decide,
    C30_wave_mem_prealloc wifi_mem_array_ready (by decide) 2 81945⟩

end S5PV210
